import Mathlib

/-!
Blood bank ledger: a verification development

A shallow embedding of the route handlers of `backend/server.js` that keep the
donor, donation, inventory and request collections, together with the
properties the specification states about them.

Conventions of the embedding

* A collection is the list of its documents in insertion order; `findOne` and
  `findById` return the first match, `save` writes a document back under its
  `_id`, an upsert appends.  Object ids are natural numbers and the store
  carries the next fresh one.  The unique indexes of the schemas are not part
  of the embedding.
* A number of a request body is an exact rational; a text is coerced to the
  double nearest to what it writes, and `NaN` and the infinities appear only
  where a body value is coerced (`JSNum`).  A number is rendered as text
  positionally, so `parseInt` of it truncates it, except a number below
  10^-6 or of at least 10^21 in size, which is rendered in exponent form, so
  that `parseInt` reads its first digit.
* The units of the inventory are doubles: each sum or difference a handler or
  the store computes on them is rounded to the nearest double (`toDouble`),
  a tie going to the even significand.  The integer types of the store agree
  with this on whole numbers up to 2^53.  Results beyond the largest double
  are outside the embedding, and every statement about exact units carries
  the bound under which it holds (`wholeSafe`).
* The counters of a donor (`totalDonations`, `points`) are exact integers: they
  start at 0 and change by one donation at a time, which keeps them far below
  2^53, where doubles are exact on them.
* Body fields the handlers coerce themselves (`units`, `amount`) are raw
  `JSValue`s; the other fields are typed as the schema types them.  The checks
  `save()` runs on such documents are part of the embedding: the `required`
  fields of a donor, a donation and a request, and the two values of
  `donateConsent`.  `findOneAndUpdate` runs none of them.
* A store write that the store rejects, and two executions of one handler whose
  store accesses interleave, are modelled apart, on handlers split at their
  writes.
* `new Date()` is the `now` of the environment.  A time value is an integer of
  milliseconds, a `Date` holds one of size at most 8.64 * 10^15 (`timeClip`),
  and the local time zone is a pair of offset functions (`Zone`), so that the
  offset may change with the date.
* The reading of a text as a date (`new Date(text)`) and the upper-casing of a
  text (`toUpperCase`) are parameters of the potential-donor handler; sorting
  is a stable merge sort, texts ordered as Lean orders them.
* The leaderboard is the client's (`BloodBankApp.jsx`), over donors as the
  client receives them, where a field may be missing.
-/

namespace BloodBank

/-! ## JavaScript values and coercions -/

/-- The result of a numeric coercion: a finite number, an infinity or NaN. -/
inductive JSNum where
  | nan
  | negInf
  | fin (q : ℚ)
  | posInf
  deriving DecidableEq

/-- A scalar of a JSON request body as the handler reads it (`undefined` when the
field is missing). -/
inductive JSValue where
  | undefined
  | null
  | bool (b : Bool)
  | num (q : ℚ)
  | str (s : String)
  deriving DecidableEq

/-- The relation `a < b` on numbers: false as soon as one side is NaN. -/
def JSNum.lt : JSNum → JSNum → Bool
  | .nan, _ => false
  | _, .nan => false
  | .fin a, .fin b => decide (a < b)
  | .negInf, .negInf => false
  | .negInf, _ => true
  | _, .negInf => false
  | .posInf, _ => false
  | _, .posInf => true

/-- The relation `a <= b` on numbers: false as soon as one side is NaN. -/
def JSNum.le : JSNum → JSNum → Bool
  | .nan, _ => false
  | _, .nan => false
  | a, b => !(JSNum.lt b a)

/-- Unary minus on numbers. -/
def JSNum.neg : JSNum → JSNum
  | .nan => .nan
  | .negInf => .posInf
  | .fin q => .fin (-q)
  | .posInf => .negInf

/-! ## Double-precision numbers -/

/-- Rounding to a nearest whole number, a tie going to the even one. -/
def roundHalfEven (x : ℚ) : ℤ :=
  if x - ⌊x⌋ < 1 / 2 then ⌊x⌋
  else if 1 / 2 < x - ⌊x⌋ then ⌊x⌋ + 1
  else if ⌊x⌋ % 2 = 0 then ⌊x⌋ else ⌊x⌋ + 1

/-- The spacing of the double-precision numbers around a number other than zero:
53 significant binary digits, the exponent not below -1022. -/
def ulp (q : ℚ) : ℚ := (2 : ℚ) ^ (max (Int.log 2 |q|) (-1022) - 52)

/-- The double-precision number nearest to a number, a tie going to the even
significand: the result of an arithmetic operation whose exact value is `q`. -/
def toDouble (q : ℚ) : ℚ :=
  if q = 0 then 0 else roundHalfEven (q / ulp q) * ulp q

/-- A whole number of magnitude at most 2^53.  Sums and differences of such
numbers are exact in double precision as long as the result is one of them. -/
def wholeSafe (q : ℚ) : Prop := ∃ n : ℤ, q = n ∧ |n| ≤ 9007199254740992

/-- The number a numeric literal of exact value `q` denotes: the nearest double,
or an infinity when that lies beyond the largest double. -/
def literalValue (q : ℚ) : JSNum :=
  if (2 : ℚ) ^ (1024 : ℕ) ≤ |toDouble q| then (if q < 0 then .negInf else .posInf)
  else .fin (toDouble q)

/-- White space and line terminators skipped by `parseInt` and by the numeric
coercion of a string. -/
def isStrWhiteSpace (c : Char) : Bool :=
  let n := c.toNat
  n == 0x09 || n == 0x0A || n == 0x0B || n == 0x0C || n == 0x0D || n == 0x20 ||
  n == 0xA0 || n == 0x1680 || (0x2000 ≤ n && n ≤ 0x200A) || n == 0x2028 ||
  n == 0x2029 || n == 0x202F || n == 0x205F || n == 0x3000 || n == 0xFEFF

/-- The value of a digit character in radix up to 36. -/
def digitValue (c : Char) : Option Nat :=
  let n := c.toNat
  if 48 ≤ n ∧ n ≤ 57 then some (n - 48)
  else if 97 ≤ n ∧ n ≤ 122 then some (n - 87)
  else if 65 ≤ n ∧ n ≤ 90 then some (n - 55)
  else none

/-- The value of a character that is a digit of the given radix. -/
def digitIn (radix : Nat) (c : Char) : Option Nat :=
  match digitValue c with
  | some d => if d < radix then some d else none
  | none => none

/-- The longest prefix of digits of the given radix, and the rest. -/
def takeDigits (radix : Nat) : List Char → List Nat × List Char
  | [] => ([], [])
  | c :: cs =>
    match digitIn radix c with
    | some d => (d :: (takeDigits radix cs).1, (takeDigits radix cs).2)
    | none => ([], c :: cs)

/-- The number written by a list of digits, most significant first. -/
def digitsValue (radix : Nat) (ds : List Nat) : Nat :=
  ds.foldl (fun acc d => acc * radix + d) 0

/-- Leading white space removed. -/
def trimStart (cs : List Char) : List Char := cs.dropWhile isStrWhiteSpace

/-- White space removed at both ends. -/
def trimBoth (cs : List Char) : List Char := (trimStart (trimStart cs).reverse).reverse

/-- An optional sign in front of the rest of the text. -/
def takeSign : List Char → Bool × List Char
  | '-' :: r => (true, r)
  | '+' :: r => (false, r)
  | r => (false, r)

/-- The exponent part that ends a decimal literal (0 when there is none);
`none` when the text is not an exponent part. -/
def parseExponent : List Char → Option ℤ
  | [] => some 0
  | c :: cs =>
    if c = 'e' ∨ c = 'E' then
      match takeDigits 10 (takeSign cs).2 with
      | (d :: ds, []) =>
        some (if (takeSign cs).1 then -(digitsValue 10 (d :: ds) : ℤ) else (digitsValue 10 (d :: ds) : ℤ))
      | _ => none
    else none

/-- An unsigned decimal literal: `Infinity`, or digits with an optional fraction
and exponent, read as the nearest double. -/
def parseUnsignedDecimal (cs : List Char) : JSNum :=
  if cs = "Infinity".toList then .posInf
  else
    let ip := (takeDigits 10 cs).1
    let r1 := (takeDigits 10 cs).2
    let fp := match r1 with
      | '.' :: r => (takeDigits 10 r).1
      | _ => []
    let r2 := match r1 with
      | '.' :: r => (takeDigits 10 r).2
      | r => r
    if ip = [] ∧ fp = [] then .nan
    else
      match parseExponent r2 with
      | none => .nan
      | some e =>
        literalValue
          (((digitsValue 10 ip : ℚ) + (digitsValue 10 fp : ℚ) / (10 : ℚ) ^ fp.length)
            * (10 : ℚ) ^ e)

/-- Digits of a radix that make up the whole text, read as the nearest double. -/
def parseRadixLiteral (radix : Nat) (cs : List Char) : JSNum :=
  match takeDigits radix cs with
  | (d :: ds, []) => literalValue (digitsValue radix (d :: ds) : ℚ)
  | _ => .nan

/-- The numeric coercion of a string: white space trimmed, the empty text is 0,
then a hexadecimal, octal or binary literal, or a signed decimal literal; NaN
otherwise. -/
def stringToNumber (s : String) : JSNum :=
  match trimBoth s.toList with
  | [] => .fin 0
  | '0' :: 'x' :: r => parseRadixLiteral 16 r
  | '0' :: 'X' :: r => parseRadixLiteral 16 r
  | '0' :: 'o' :: r => parseRadixLiteral 8 r
  | '0' :: 'O' :: r => parseRadixLiteral 8 r
  | '0' :: 'b' :: r => parseRadixLiteral 2 r
  | '0' :: 'B' :: r => parseRadixLiteral 2 r
  | '-' :: r => (parseUnsignedDecimal r).neg
  | '+' :: r => parseUnsignedDecimal r
  | r => parseUnsignedDecimal r

/-- The numeric coercion `Number(v)`, also applied by `<` and `<=` against a
number. -/
def JSValue.toNumber : JSValue → JSNum
  | .undefined => .nan
  | .null => .fin 0
  | .bool b => .fin (if b then 1 else 0)
  | .num q => .fin q
  | .str s => stringToNumber s

/-- Truthiness: `!v` is the negation of this. -/
def JSValue.truthy : JSValue → Bool
  | .undefined => false
  | .null => false
  | .bool b => b
  | .num q => decide (q ≠ 0)
  | .str s => decide (s ≠ "")

/-- Truncation of a number toward zero. -/
def truncQ (q : ℚ) : ℤ := if 0 ≤ q then ⌊q⌋ else ⌈q⌉

/-- The function `parseInt(text, 10)`: leading white space, an optional sign, then
the longest run of decimal digits; `none` is NaN. -/
def parseIntString (cs : List Char) : Option ℤ :=
  match takeDigits 10 (takeSign (trimStart cs)).2 with
  | ([], _) => none
  | (d :: ds, _) =>
    some (if (takeSign (trimStart cs)).1 then -(digitsValue 10 (d :: ds) : ℤ)
      else (digitsValue 10 (d :: ds) : ℤ))

/-- The first significant decimal digit of a positive number below one: the
number is scaled by ten until it reaches one (at most `fuel` times). -/
def leadingDigit : Nat → ℚ → ℤ
  | 0, _ => 0
  | fuel + 1, a => if 1 ≤ a then ⌊a⌋ else leadingDigit fuel (a * 10)

/-- The first decimal digit of a number of at least one: the number is divided
by ten until it falls below ten (at most `fuel` times). -/
def leadingDigitDown : Nat → ℚ → ℤ
  | 0, _ => 0
  | fuel + 1, a => if a < 10 then ⌊a⌋ else leadingDigitDown fuel (a / 10)

/-- What `parseInt(x, 10)` reads from a number `x`.  A number other than zero
and below 10^-6 in size, and a number of at least 10^21 in size, is rendered
in exponent form (`5e-7`, `1e+21`), of which only the first digit is read; any
other number is rendered positionally and read up to the decimal point. -/
def numberToInt (q : ℚ) : ℤ :=
  if 0 < |q| ∧ |q| < 1 / 1000000 then
    (if q < 0 then -1 else 1) * leadingDigit (⌈1 / |q|⌉).toNat |q|
  else if 1000000000000000000000 ≤ |q| then
    (if q < 0 then -1 else 1) * leadingDigitDown (⌈|q|⌉).toNat |q|
  else truncQ q

/-- The call `parseInt(v, 10)`: the value is rendered as text and parsed; `none`
is NaN. -/
def parseInt10 : JSValue → Option ℤ
  | .undefined => none
  | .null => none
  | .bool _ => none
  | .num q => some (numberToInt q)
  | .str s => parseIntString s.toList

/-! ## Time values and the calendar -/

/-- Milliseconds in a day. -/
def msPerDay : ℤ := 86400000

/-- The day number of a time value. -/
def Day (t : ℤ) : ℤ := t / msPerDay

/-- The milliseconds elapsed within the day of a time value. -/
def TimeWithinDay (t : ℤ) : ℤ := t % msPerDay

/-- The number of days of a year. -/
def DaysInYear (y : ℤ) : ℤ :=
  if y % 4 ≠ 0 then 365
  else if y % 100 ≠ 0 then 366
  else if y % 400 ≠ 0 then 365
  else 366

/-- The day number of the first day of a year. -/
def DayFromYear (y : ℤ) : ℤ :=
  365 * (y - 1970) + (y - 1969) / 4 - (y - 1901) / 100 + (y - 1601) / 400

/-- Upward search, from year `y`, for the last year that starts on or before day
`d`. -/
def yearScan (d : ℤ) : Nat → ℤ → ℤ
  | 0, y => y
  | fuel + 1, y => if DayFromYear (y + 1) ≤ d then yearScan d fuel (y + 1) else y

/-- The year a day number falls in: the largest `y` with `DayFromYear y ≤ d`,
found by a search within the 400-year cycle that holds `d`. -/
def YearFromDay (d : ℤ) : ℤ :=
  yearScan d 400 (2000 + 400 * ((d - 10957) / 146097))

/-- The year of a time value. -/
def YearFromTime (t : ℤ) : ℤ := YearFromDay (Day t)

/-- One in a leap year, zero otherwise. -/
def leapDays (y : ℤ) : ℤ := if DaysInYear y = 366 then 1 else 0

/-- The day number within its year of a time value. -/
def DayWithinYear (t : ℤ) : ℤ := Day t - DayFromYear (YearFromTime t)

/-- The month (0 is January) holding a day of the year, `l` being 1 in a leap
year. -/
def monthOfYearDay (l dwy : ℤ) : ℤ :=
  if dwy < 31 then 0
  else if dwy < 59 + l then 1
  else if dwy < 90 + l then 2
  else if dwy < 120 + l then 3
  else if dwy < 151 + l then 4
  else if dwy < 181 + l then 5
  else if dwy < 212 + l then 6
  else if dwy < 243 + l then 7
  else if dwy < 273 + l then 8
  else if dwy < 304 + l then 9
  else if dwy < 334 + l then 10
  else 11

/-- The day of the year on which a month (0 is January) starts, `l` being 1 in
a leap year. -/
def monthStart (l m : ℤ) : ℤ :=
  if m = 0 then 0
  else if m = 1 then 31
  else if m = 2 then 59 + l
  else if m = 3 then 90 + l
  else if m = 4 then 120 + l
  else if m = 5 then 151 + l
  else if m = 6 then 181 + l
  else if m = 7 then 212 + l
  else if m = 8 then 243 + l
  else if m = 9 then 273 + l
  else if m = 10 then 304 + l
  else 334 + l

/-- The month (0 is January) of a time value. -/
def MonthFromTime (t : ℤ) : ℤ := monthOfYearDay (leapDays (YearFromTime t)) (DayWithinYear t)

/-- The day of the month (from 1) of a time value. -/
def DateFromTime (t : ℤ) : ℤ :=
  DayWithinYear t - monthStart (leapDays (YearFromTime t)) (MonthFromTime t) + 1

/-- The day number of a year, month and day of month, where the month may lie
outside 0..11 and the day outside the month: both carry over. -/
def MakeDay (year month date : ℤ) : ℤ :=
  DayFromYear (year + month / 12) + monthStart (leapDays (year + month / 12)) (month % 12) + date - 1

/-- The time value of a day number and a time within the day. -/
def MakeDate (day time : ℤ) : ℤ := day * msPerDay + time

/-- The local time zone, in milliseconds: the offset from UTC in force at an
instant, and the offset with which a local time value is read back as an
instant.  Around a clock change the two differ: a local time that the change
skips or repeats is read with the offset in force before the change. -/
structure Zone where
  offsetAt : ℤ → ℤ
  offsetOfLocal : ℤ → ℤ

/-- A zone whose offset never changes. -/
def Zone.fixed (k : ℤ) : Zone := { offsetAt := fun _ => k, offsetOfLocal := fun _ => k }

/-- The local time value of an instant. -/
def LocalTime (z : Zone) (t : ℤ) : ℤ := t + z.offsetAt t

/-- The instant of a local time value. -/
def UTC (z : Zone) (t : ℤ) : ℤ := t - z.offsetOfLocal t

/-- The largest size of a time value a `Date` holds. -/
def maxTime : ℤ := 8640000000000000

/-- The time value a `Date` keeps: `none`, an invalid date, outside the range. -/
def timeClip (t : ℤ) : Option ℤ := if |t| ≤ maxTime then some t else none

/-- The method `getMonth()` in a time zone. -/
def getMonth (z : Zone) (t : ℤ) : ℤ := MonthFromTime (LocalTime z t)

/-- The local time value `setMonth(month)` arrives at from a local time value:
the year, day of month and time of day are kept, the month replaced, and the
result normalised by `MakeDay`. -/
def setMonthLocal (tl month : ℤ) : ℤ :=
  MakeDate (MakeDay (YearFromTime tl) month (DateFromTime tl)) (TimeWithinDay tl)

/-- The method `setMonth(month)` in a time zone, before the result is clipped to
the range of `Date`. -/
def setMonth (z : Zone) (t month : ℤ) : ℤ := UTC z (setMonthLocal (LocalTime z t) month)

/-- The statements `next = new Date(d); next.setMonth(next.getMonth() + 6)`,
before the result is clipped to the range of `Date`. -/
def sixMonthsAfter (z : Zone) (t : ℤ) : ℤ := setMonth z t (getMonth z t + 6)

/-- The number of days of a month (0 is January), `l` being 1 in a leap year. -/
def monthLength (l m : ℤ) : ℤ :=
  if m = 1 then 28 + l
  else if m = 3 ∨ m = 5 ∨ m = 8 ∨ m = 10 then 30
  else 31

/-- The number of days of a month (0 is January) of a year. -/
def DaysInMonth (y m : ℤ) : ℤ := monthLength (leapDays y) m

/-- The date the specification words for the end of the eligibility window: six
calendar months after `t` in local time, same time of day, same day of month
but clipped to the last day of a shorter month. -/
def clippedSixMonthsAfter (z : Zone) (t : ℤ) : ℤ :=
  UTC z (MakeDate
    (MakeDay (YearFromTime (LocalTime z t) + (MonthFromTime (LocalTime z t) + 6) / 12)
      ((MonthFromTime (LocalTime z t) + 6) % 12)
      (min (DateFromTime (LocalTime z t))
        (DaysInMonth (YearFromTime (LocalTime z t) + (MonthFromTime (LocalTime z t) + 6) / 12)
          ((MonthFromTime (LocalTime z t) + 6) % 12))))
    (TimeWithinDay (LocalTime z t)))

/-- A natural number in decimal, padded with zeros on the left to a width. -/
def padNat (width n : Nat) : String :=
  String.mk (List.replicate (width - (Nat.repr n).length) '0') ++ Nat.repr n

/-- The expression `d.toISOString().split('T')[0]`: the UTC calendar date as
`YYYY-MM-DD`, the year with a sign and six digits outside 0..9999. -/
def isoDate (t : ℤ) : String :=
  let y := YearFromTime t
  let ys := if 0 ≤ y ∧ y ≤ 9999 then padNat 4 y.toNat
    else if y < 0 then "-" ++ padNat 6 (-y).toNat
    else "+" ++ padNat 6 y.toNat
  ys ++ "-" ++ padNat 2 (MonthFromTime t + 1).toNat ++ "-" ++ padNat 2 (DateFromTime t).toNat

/-! ## Documents -/

/-- A document of the `Donor` collection.  The profile fields are absent on a
document that an upsert created without them. -/
structure Donor where
  id : Nat
  userId : Option Nat
  aadhaar : Option String
  name : Option String
  email : Option String
  phone : Option String
  bloodType : Option String
  address : Option String
  age : Option ℚ
  weight : Option ℚ
  lastDonation : String
  status : String
  donateConsent : String
  nextEligibleDate : Option ℤ
  totalDonations : ℤ
  points : ℤ
  profilePhotoUrl : String
  deriving DecidableEq

/-- A document of the `Donation` collection. -/
structure Donation where
  id : Nat
  donor : Nat
  donorName : Option String
  amount : JSNum
  date : ℤ
  createdAt : ℤ
  deriving DecidableEq

/-- A document of the `Inventory` collection. -/
structure InventoryEntry where
  id : Nat
  bloodType : String
  units : ℚ
  lastUpdated : ℤ
  deriving DecidableEq

/-- A document of the `Request` collection. -/
structure Request where
  id : Nat
  patientName : String
  studentId : String
  bloodType : String
  units : ℚ
  urgency : String
  status : String
  requestDate : ℤ
  deriving DecidableEq

/-- The four collections and the next fresh object id. -/
structure Store where
  donors : List Donor
  donations : List Donation
  inventory : List InventoryEntry
  requests : List Request
  nextId : Nat
  deriving DecidableEq

/-- What a handler reads from its surroundings: the clock, in milliseconds, and
the local time zone. -/
structure Env where
  now : ℤ
  tza : Zone

/-- The response of a handler: a status code with a bare text or with a
`message` object, or one of the documents sent back with status 200. -/
inductive Reply where
  | text (code : Nat) (body : String)
  | message (code : Nat) (message : String)
  | stock (entry : Option InventoryEntry)
  | recorded (message : String) (donor : Donor) (donation : Donation)
  | registered (message : String) (donor : Donor)
  | profile (donor : Donor)
  | photo (url : String)
  deriving DecidableEq

/-- The status code of a response. -/
def Reply.code : Reply → Nat
  | .text c _ => c
  | .message c _ => c
  | _ => 200

/-! ## Collection operations -/

/-- Truthiness of an optional text field: present and not empty. -/
def textTruthy : Option String → Bool
  | some t => decide (t ≠ "")
  | none => false

/-- The first document matching the filter is replaced by its update (the
others stay): `findOneAndUpdate` on an existing match. -/
def updateFirst {α : Type} (p : α → Bool) (f : α → α) : List α → List α
  | [] => []
  | x :: xs => if p x then f x :: xs else x :: updateFirst p f xs

/-- The query `Inventory.findOne({ bloodType })`. -/
def findStock (inv : List InventoryEntry) (bloodType : String) : Option InventoryEntry :=
  inv.find? (fun e => decide (e.bloodType = bloodType))

/-- The update `{ $inc: { units: k }, $set: { lastUpdated: now } }` on the first
entry of a blood type; the sum is a double. -/
def incStock (bloodType : String) (k : ℚ) (now : ℤ) (inv : List InventoryEntry) :
    List InventoryEntry :=
  updateFirst (fun e => decide (e.bloodType = bloodType))
    (fun e => { e with units := toDouble (e.units + k), lastUpdated := now }) inv

/-- The call `stock.save()`: the entry is written back under its id. -/
def saveStock (inv : List InventoryEntry) (x : InventoryEntry) : List InventoryEntry :=
  inv.map (fun e => if e.id = x.id then x else e)

/-- The query `Request.findById(id)`. -/
def findRequest (rs : List Request) (id : Nat) : Option Request :=
  rs.find? (fun r => decide (r.id = id))

/-- The call `request.save()`: the request is written back under its id. -/
def saveRequest (rs : List Request) (x : Request) : List Request :=
  rs.map (fun r => if r.id = x.id then x else r)

/-- The query `Donor.findById(id)`. -/
def findDonor (ds : List Donor) (id : Nat) : Option Donor :=
  ds.find? (fun d => decide (d.id = id))

/-- The query `Donor.findOne({ aadhaar })`. -/
def findDonorByAadhaar (ds : List Donor) (aadhaar : String) : Option Donor :=
  ds.find? (fun d => decide (d.aadhaar = some aadhaar))

/-- The call `donor.save()`: the donor is written back under its id. -/
def saveDonor (ds : List Donor) (x : Donor) : List Donor :=
  ds.map (fun d => if d.id = x.id then x else d)

/-- A donor document holding only the schema defaults. -/
def defaultDonor (id : Nat) : Donor :=
  { id := id, userId := none, aadhaar := none, name := none, email := none, phone := none,
    bloodType := none, address := none, age := none, weight := none,
    lastDonation := "Never", status := "Eligible", donateConsent := "No",
    nextEligibleDate := none, totalDonations := 0, points := 0, profilePhotoUrl := "" }

/-! ## Inventory handlers -/

/-- The handler of `POST /inventory/add`. -/
def inventoryAdd (env : Env) (s : Store) (bloodType : Option String) (units : JSValue) :
    Reply × Store :=
  if !textTruthy bloodType || !units.truthy || units.toNumber.le (.fin 0) then
    (.text 400 "Invalid data provided.", s)
  else
    match parseInt10 units with
    | none => (.text 400 "Error: CastError", s)
    | some k =>
      match findStock s.inventory (bloodType.getD "") with
      | some _ =>
        (.stock (findStock (incStock (bloodType.getD "") (toDouble k) env.now s.inventory)
            (bloodType.getD "")),
          { s with inventory := incStock (bloodType.getD "") (toDouble k) env.now s.inventory })
      | none =>
        (.stock (some { id := s.nextId, bloodType := bloodType.getD "", units := toDouble k,
                        lastUpdated := env.now }),
          { s with
            inventory := s.inventory ++ [{ id := s.nextId, bloodType := bloodType.getD "",
                                           units := toDouble k, lastUpdated := env.now }]
            nextId := s.nextId + 1 })

/-- The handler of `POST /inventory/remove`. -/
def inventoryRemove (env : Env) (s : Store) (bloodType : Option String) (units : JSValue) :
    Reply × Store :=
  if !textTruthy bloodType || !units.truthy || units.toNumber.le (.fin 0) then
    (.text 400 "Invalid data provided.", s)
  else
    match findStock s.inventory (bloodType.getD "") with
    | none => (.message 400 "Not enough stock to remove.", s)
    | some stock =>
      if JSNum.lt (.fin stock.units) units.toNumber then
        (.message 400 "Not enough stock to remove.", s)
      else
        match parseInt10 units with
        | none => (.text 400 "Error: CastError", s)
        | some k =>
          (.stock (findStock (incStock (bloodType.getD "") (-toDouble k) env.now s.inventory)
              (bloodType.getD "")),
            { s with inventory := incStock (bloodType.getD "") (-toDouble k) env.now s.inventory })

/-! ## Request handlers -/

/-- The handler of `PUT /requests/update/:id`, with `status` the body's status;
the difference `stock.units - units` is a double. -/
def updateRequest (env : Env) (s : Store) (id : Nat) (status : String) : Reply × Store :=
  match findRequest s.requests id with
  | none => (.text 404 "Request not found", s)
  | some request =>
    if status = "Approved" ∧ request.status ≠ "Approved" then
      match findStock s.inventory request.bloodType with
      | none => (.message 400 "Not enough stock available to approve this request.", s)
      | some stock =>
        if stock.units < request.units then
          (.message 400 "Not enough stock available to approve this request.", s)
        else
          (.message 200 "Request approved and inventory updated successfully!",
            { s with
              inventory := saveStock s.inventory
                { stock with
                  units := toDouble (stock.units - request.units), lastUpdated := env.now }
              requests := saveRequest s.requests { request with status := status } })
    else if status ≠ "Approved" then
      (.message 200 ("Request status updated to " ++ status ++ "!"),
        { s with requests := saveRequest s.requests { request with status := status } })
    else
      (.message 200 "Request is already approved.", s)

/-- The statuses the delete handler accepts. -/
def completedStatuses : List String := ["Approved", "Completed"]

/-- The handler of `DELETE /requests/:id`. -/
def deleteRequest (s : Store) (id : Nat) : Reply × Store :=
  match findRequest s.requests id with
  | none => (.message 404 "Request not found", s)
  | some request =>
    if !completedStatuses.contains request.status then
      (.message 400 "Only completed requests can be deleted.", s)
    else
      (.message 200 "Request deleted successfully.",
        { s with requests := s.requests.filter (fun r => decide (r.id ≠ request.id)) })

/-! ## Donor handlers -/

/-- The body of `POST /donors/add` and `POST /donors/create`. -/
structure DonorBody where
  aadhaar : String
  name : Option String
  email : Option String
  phone : Option String
  bloodType : Option String
  address : Option String
  age : Option ℚ
  weight : Option ℚ
  lastDonation : Option String

/-- The checks `save()` runs on a donor document: every required field is filled
in, and the consent is one of the two values of the schema. -/
def Donor.valid (d : Donor) : Bool :=
  textTruthy d.aadhaar && textTruthy d.name && textTruthy d.email && textTruthy d.phone
    && textTruthy d.bloodType && textTruthy d.address && d.age.isSome && d.weight.isSome
    && decide (d.donateConsent = "Yes" ∨ d.donateConsent = "No")

/-- The handler of `POST /donors/add`.  A document that `save()` refuses is
answered with 400 and nothing is written. -/
def donorsAdd (env : Env) (s : Store) (b : DonorBody) : Reply × Store :=
  match findDonorByAadhaar s.donors b.aadhaar with
  | some donor =>
    if Donor.valid
        { donor with
          name := b.name, email := b.email, phone := b.phone, bloodType := b.bloodType,
          address := b.address, age := b.age, weight := b.weight } then
      (.text 200 "Donor updated and donation recorded!",
        { s with
          donors := saveDonor s.donors
            { donor with
              name := b.name, email := b.email, phone := b.phone, bloodType := b.bloodType,
              address := b.address, age := b.age, weight := b.weight,
              totalDonations := donor.totalDonations + 1,
              points := (donor.totalDonations + 1) * 100,
              lastDonation := isoDate env.now,
              status := "Ineligible",
              nextEligibleDate := some (sixMonthsAfter env.tza env.now) } })
    else (.text 400 "Error: ValidationError", s)
  | none =>
    if Donor.valid
        { defaultDonor s.nextId with
          aadhaar := some b.aadhaar, name := b.name, email := b.email, phone := b.phone,
          bloodType := b.bloodType, address := b.address, age := b.age, weight := b.weight } then
      (.text 200 "New donor added and first donation recorded!",
        { s with
          donors := s.donors ++
            [{ defaultDonor s.nextId with
               aadhaar := some b.aadhaar, name := b.name, email := b.email, phone := b.phone,
               bloodType := b.bloodType, address := b.address, age := b.age, weight := b.weight,
               totalDonations := 1, points := 100,
               lastDonation := isoDate env.now,
               status := "Ineligible",
               nextEligibleDate := some (sixMonthsAfter env.tza env.now) }]
          nextId := s.nextId + 1 })
    else (.text 400 "Error: ValidationError", s)

/-- The `date` of the body of `POST /donors/:id/donations` after `new Date(date)`:
missing (or falsy), not a date, or a time value. -/
inductive DateArg where
  | absent
  | invalid
  | at (t : ℤ)

/-- The expression `date ? new Date(date) : new Date()`; `none` is an invalid
date, as is a time value outside the range of `Date`. -/
def donationDate (env : Env) : DateArg → Option ℤ
  | .absent => some env.now
  | .invalid => none
  | .at t => timeClip t

/-- The Donation document the handler builds for a donor. -/
def newDonation (env : Env) (s : Store) (donor : Donor) (amount : JSValue) (d : ℤ) : Donation :=
  { id := s.nextId, donor := donor.id, donorName := donor.name,
    amount := amount.toNumber, date := d, createdAt := env.now }

/-- The donor document after the assignments that follow `donation.save()`,
with `next` the end of the eligibility window. -/
def afterDonation (donor : Donor) (d next : ℤ) : Donor :=
  { donor with
    totalDonations := donor.totalDonations + 1,
    points := (donor.totalDonations + 1) * 100,
    lastDonation := isoDate d,
    status := "Ineligible",
    nextEligibleDate := some next }

/-- The handler of `POST /donors/:id/donations`.  A donation whose date or
amount cannot be cast, or whose donor has no name, is refused by
`donation.save()` before anything is written.  When `donor.save()` refuses the
donor document (a required field is missing, or the end of the eligibility
window lies outside the range of `Date`), the answer is 500 and the Donation
stays stored. -/
def recordDonation (env : Env) (s : Store) (id : Nat) (amount : JSValue) (date : DateArg) :
    Reply × Store :=
  if !amount.truthy || amount.toNumber.le (.fin 0) then
    (.message 400 "Amount is required and must be greater than 0", s)
  else
    match findDonor s.donors id with
    | none => (.message 404 "Donor not found", s)
    | some donor =>
      match donationDate env date with
      | none => (.message 500 "Failed to record donation", s)
      | some d =>
        if amount.toNumber = .nan ∨ textTruthy donor.name = false then
          (.message 500 "Failed to record donation", s)
        else
          match timeClip (sixMonthsAfter env.tza d) with
          | none =>
            (.message 500 "Failed to record donation",
              { s with
                donations := s.donations ++ [newDonation env s donor amount d]
                nextId := s.nextId + 1 })
          | some next =>
            if donor.valid then
              (.recorded "Donation recorded successfully" (afterDonation donor d next)
                  (newDonation env s donor amount d),
                { s with
                  donations := s.donations ++ [newDonation env s donor amount d]
                  donors := saveDonor s.donors (afterDonation donor d next)
                  nextId := s.nextId + 1 })
            else
              (.message 500 "Failed to record donation",
                { s with
                  donations := s.donations ++ [newDonation env s donor amount d]
                  nextId := s.nextId + 1 })

/-- The handler of `POST /donors/create`.  A document that `save()` refuses is
answered with 500 and nothing is written. -/
def donorsCreate (s : Store) (b : DonorBody) : Reply × Store :=
  match findDonorByAadhaar s.donors b.aadhaar with
  | some _ => (.message 400 "Donor with this Aadhaar already exists", s)
  | none =>
    if Donor.valid
        { defaultDonor s.nextId with
          aadhaar := some b.aadhaar, name := b.name, email := b.email, phone := b.phone,
          bloodType := b.bloodType, address := b.address, age := b.age, weight := b.weight,
          donateConsent := "Yes" } then
      (.registered "Donor registered successfully"
          { defaultDonor s.nextId with
            aadhaar := some b.aadhaar, name := b.name, email := b.email, phone := b.phone,
            bloodType := b.bloodType, address := b.address, age := b.age, weight := b.weight,
            totalDonations := 0, points := 0,
            lastDonation := if textTruthy b.lastDonation then b.lastDonation.getD "" else "Never",
            status := "Eligible", donateConsent := "Yes" },
        { s with
          donors := s.donors ++
            [{ defaultDonor s.nextId with
               aadhaar := some b.aadhaar, name := b.name, email := b.email, phone := b.phone,
               bloodType := b.bloodType, address := b.address, age := b.age, weight := b.weight,
               totalDonations := 0, points := 0,
               lastDonation := if textTruthy b.lastDonation then b.lastDonation.getD "" else "Never",
               status := "Eligible", donateConsent := "Yes" }]
          nextId := s.nextId + 1 })
    else (.message 500 "Failed to create donor", s)

/-- The body of `PUT /me/profile`: each field is set only when present. -/
structure ProfilePatch where
  aadhaar : Option String
  name : Option String
  email : Option String
  phone : Option String
  bloodType : Option String
  address : Option String
  age : Option ℚ
  weight : Option ℚ
  donateConsent : Option String

/-- The update `{ $set: update }` of `PUT /me/profile` for caller `uid`. -/
def applyPatch (uid : Nat) (p : ProfilePatch) (d : Donor) : Donor :=
  { d with
    aadhaar := if p.aadhaar.isSome then p.aadhaar else d.aadhaar,
    name := if p.name.isSome then p.name else d.name,
    email := if p.email.isSome then p.email else d.email,
    phone := if p.phone.isSome then p.phone else d.phone,
    bloodType := if p.bloodType.isSome then p.bloodType else d.bloodType,
    address := if p.address.isSome then p.address else d.address,
    age := if p.age.isSome then p.age else d.age,
    weight := if p.weight.isSome then p.weight else d.weight,
    donateConsent := p.donateConsent.getD d.donateConsent,
    userId := some uid }

/-- The handler of `PUT /me/profile` for the authenticated caller `uid`. -/
def updateProfile (s : Store) (uid : Nat) (p : ProfilePatch) : Reply × Store :=
  if textTruthy p.aadhaar ∧
      (s.donors.find? (fun d => decide (d.aadhaar = p.aadhaar ∧ d.userId ≠ some uid))).isSome then
    (.message 409 "Aadhaar already in use by another profile", s)
  else
    match s.donors.find? (fun d => decide (d.userId = some uid)) with
    | some d =>
      (.profile (applyPatch uid p d),
        { s with donors := updateFirst (fun d => decide (d.userId = some uid)) (applyPatch uid p)
                   s.donors })
    | none =>
      (.profile (applyPatch uid p (defaultDonor s.nextId)),
        { s with
          donors := s.donors ++ [applyPatch uid p (defaultDonor s.nextId)]
          nextId := s.nextId + 1 })

/-- The donor the photo handler attaches to: the caller's by `userId`, else the
one with the caller's account email. -/
def photoTarget (ds : List Donor) (uid : Nat) (userEmail : Option String) : Option Donor :=
  match ds.find? (fun d => decide (d.userId = some uid)) with
  | some d => some d
  | none =>
    if textTruthy userEmail then ds.find? (fun d => decide (d.email = userEmail)) else none

/-- The handler of `POST /me/profile/photo` for the authenticated caller `uid`,
with the email of the caller's account and the stored file name (if a file
came). -/
def uploadPhoto (s : Store) (uid : Nat) (userEmail : Option String) (file : Option String) :
    Reply × Store :=
  match file with
  | none => (.message 400 "No image uploaded", s)
  | some filename =>
    match photoTarget s.donors uid userEmail with
    | some donor =>
      (.photo ("/uploads/" ++ filename),
        { s with
          donors := updateFirst (fun d => decide (d.id = donor.id))
            (fun d => { d with userId := some uid, profilePhotoUrl := "/uploads/" ++ filename })
            s.donors })
    | none =>
      (.photo ("/uploads/" ++ filename),
        { s with
          donors := s.donors ++
            [{ defaultDonor s.nextId with
               userId := some uid, profilePhotoUrl := "/uploads/" ++ filename }]
          nextId := s.nextId + 1 })

/-- The units held for a blood type, read off its entry; no entry counts as no
stock. -/
def unitsOf (inv : List InventoryEntry) (bloodType : String) : ℚ :=
  match findStock inv bloodType with
  | some e => e.units
  | none => 0

/-! ## Donor operations as one step function -/

/-- The operations that create or change a donor document, with their inputs. -/
inductive DonorOp where
  | create (b : DonorBody)
  | add (b : DonorBody)
  | record (id : Nat) (amount : JSValue) (date : DateArg)
  | profile (uid : Nat) (p : ProfilePatch)
  | photo (uid : Nat) (userEmail : Option String) (file : Option String)

/-- Running a donor operation: the handler of its route. -/
def DonorOp.run (env : Env) (s : Store) : DonorOp → Reply × Store
  | .create b => donorsCreate s b
  | .add b => donorsAdd env s b
  | .record id amount date => recordDonation env s id amount date
  | .profile uid p => updateProfile s uid p
  | .photo uid userEmail file => uploadPhoto s uid userEmail file

/-- Every donor's points are a hundred times its donation count. -/
def pointsOk (s : Store) : Prop := ∀ d ∈ s.donors, d.points = d.totalDonations * 100

/-- The number of stored donations that reference a donor id. -/
def donationCount (s : Store) (donorId : Nat) : Nat :=
  (s.donations.filter (fun x => decide (x.donor = donorId))).length

/-- Every donor's donation count is the number of stored donations that
reference it. -/
def countsOk (s : Store) : Prop :=
  ∀ d ∈ s.donors, d.totalDonations = (donationCount s d.id : ℤ)

/-! ## Example data -/

/-- An environment with the clock at the epoch, in UTC. -/
def env0 : Env := { now := 0, tza := Zone.fixed 0 }

/-- A pending request for 2 units of AB-. -/
def exampleRequest : Request :=
  { id := 1, patientName := "P", studentId := "S1", bloodType := "AB-", units := 2,
    urgency := "High", status := "Pending", requestDate := 0 }

/-- The AB- inventory entry holding the given units. -/
def exampleStock (units : ℚ) : InventoryEntry :=
  { id := 2, bloodType := "AB-", units := units, lastUpdated := 0 }

/-- A store with one AB- entry of the given units and the example request in the
given status. -/
def exampleStore (units : ℚ) (status : String) : Store :=
  { donors := [], donations := [], inventory := [exampleStock units],
    requests := [{ exampleRequest with status := status }], nextId := 3 }

/-- A store with nothing in it. -/
def emptyStore : Store :=
  { donors := [], donations := [], inventory := [], requests := [], nextId := 0 }

/-- The body of an admin registration with every field filled in. -/
def exampleBody : DonorBody :=
  { aadhaar := "1234", name := some "Asha", email := some "asha@example.org",
    phone := some "555", bloodType := some "O+", address := some "Main Road",
    age := some 30, weight := some 60, lastDonation := none }

/-- A registered donor who has not donated yet. -/
def exampleDonor : Donor :=
  { defaultDonor 7 with
    aadhaar := some "1234", name := some "Asha", email := some "asha@example.org",
    phone := some "555", bloodType := some "O+", address := some "Main Road",
    age := some 30, weight := some 60, donateConsent := "Yes" }

/-- A store holding the example donor only. -/
def donorStore : Store :=
  { donors := [exampleDonor], donations := [], inventory := [], requests := [], nextId := 8 }

/-- Scenario A after the addition: O+ holds 5 units. -/
def scenarioAStore : Store :=
  { donors := [], donations := [],
    inventory := [{ id := 0, bloodType := "O+", units := 5, lastUpdated := 0 }],
    requests := [], nextId := 1 }

/-- No two donors that carry an identity ID carry the same one. -/
def aadhaarUnique (s : Store) : Prop := (s.donors.filterMap (fun d => d.aadhaar)).Nodup

/-- A profile patch that sets the identity ID of the example donor and a name. -/
def examplePatch : ProfilePatch :=
  { aadhaar := some "1234", name := some "Ravi", email := none, phone := none,
    bloodType := none, address := none, age := none, weight := none, donateConsent := none }

/-! ## Potential donors -/

/-- The statements `d = new Date(); d.setMonth(d.getMonth() - 6)`. -/
def sixMonthsBefore (z : Zone) (t : ℤ) : ℤ := setMonth z t (getMonth z t - 6)

/-- The filter of `GET /potential-donors` on one donor.  `parse` is the reading
of a text by `new Date(text)`, `none` when the text is not a date. -/
def isPotentialDonor (parse : String → Option ℤ) (env : Env) (d : Donor) : Bool :=
  if d.donateConsent = "No" then false
  else if d.lastDonation = "" ∨ d.lastDonation = "Never" then true
  else
    match parse d.lastDonation with
    | none => true
    | some ld =>
      if (match d.nextEligibleDate with
          | some next => decide (next ≤ env.now)
          | none => false) = true then true
      else decide (ld ≤ sixMonthsBefore env.tza env.now)

/-- The blood types every aggregation lists. -/
def allBloodTypes : List String := ["A+", "A-", "B+", "B-", "AB+", "AB-", "O+", "O-"]

/-- The statement `agg[bt] = (agg[bt] || 0) + 1` on an object kept as its
key/value pairs in insertion order. -/
def bump (bt : String) : List (String × Nat) → List (String × Nat)
  | [] => [(bt, 1)]
  | (k, v) :: rest => if k = bt then (k, v + 1) :: rest else (k, v) :: bump bt rest

/-- The key a donor is counted under: `(d.bloodType || 'Unknown').toUpperCase()`,
with `upper` the upper-casing of a text. -/
def bloodTypeKey (upper : String → String) (d : Donor) : String :=
  upper (if textTruthy d.bloodType then d.bloodType.getD "" else "Unknown")

/-- The object `agg` after the two `forEach` loops: zero for each listed blood
type, then one more per potential donor under its key. -/
def aggregate (upper : String → String) (potential : List Donor) : List (String × Nat) :=
  potential.foldl (fun agg d => bump (bloodTypeKey upper d) agg) (allBloodTypes.map (fun bt => (bt, 0)))

/-- An entry of the answer of `GET /potential-donors`. -/
structure PotentialEntry where
  bloodType : String
  units : Nat
  updatedAt : ℤ
  deriving DecidableEq

/-- The handler of `GET /potential-donors`: the donors that pass the filter,
counted per blood type, the entries in the order of their sorted keys. -/
def potentialDonors (parse : String → Option ℤ) (upper : String → String) (env : Env)
    (s : Store) : List PotentialEntry :=
  ((aggregate upper (s.donors.filter (isPotentialDonor parse env))).mergeSort
      (fun a b => decide (a.1 ≤ b.1))).map
    (fun kv => { bloodType := kv.1, units := kv.2, updatedAt := env.now })

/-! ## The leaderboard of the client -/

/-- A donor as the client holds it after `GET /donors`; a field may be missing. -/
structure DonorJson where
  id : Nat
  name : Option String
  bloodType : Option String
  totalDonations : Option ℤ
  points : Option ℤ
  deriving DecidableEq

/-- A row of the leaderboard: the donor with `points` and `badge` recomputed. -/
structure LeaderRow where
  donor : DonorJson
  points : ℤ
  badge : String
  deriving DecidableEq

/-- The function `getBadge` of the client. -/
def getBadge (donations : ℤ) : String :=
  if donations ≥ 20 then "Gold"
  else if donations ≥ 10 then "Silver"
  else if donations ≥ 5 then "Bronze"
  else "Beginner"

/-- The comparator of the leaderboard sort, as an order: `a` may come before `b`
when `(b.totalDonations || 0) - (a.totalDonations || 0) ≤ 0`; a missing
`totalDonations` reads as 0. -/
def leaderLe (a b : DonorJson) : Bool :=
  decide (b.totalDonations.getD 0 - a.totalDonations.getD 0 ≤ 0)

/-- The value `sortedDonors` of the client: a copy of the donors, stably sorted
with the comparator, each then annotated. -/
def leaderboard (donors : List DonorJson) : List LeaderRow :=
  (donors.mergeSort leaderLe).map
    (fun d => { donor := d, points := d.totalDonations.getD 0 * 100,
                badge := getBadge (d.totalDonations.getD 0) })

/-- A donor who opted out and has never donated (Scenario E). -/
def optedOutDonor : Donor :=
  { defaultDonor 9 with
    aadhaar := some "9999", name := some "Noor", email := some "noor@example.org",
    phone := some "777", bloodType := some "A+", address := some "Lake Road",
    age := some 41, weight := some 70, donateConsent := "No" }

/-- A consenting donor who has never donated and whose blood type is not one of
the eight listed. -/
def rareTypeDonor : Donor :=
  { exampleDonor with id := 10, aadhaar := some "5555", bloodType := some "Bombay" }

/-- A reading of date texts for the examples: `2024-01-10` only. -/
def exampleParse (t : String) : Option ℤ :=
  if t = "2024-01-10" then some 1704844800000 else none

/-- The count an aggregation object holds under a key, 0 when the key is absent. -/
def valueAt (k : String) : List (String × Nat) → Nat
  | [] => 0
  | (key, v) :: rest => if key = k then v else valueAt k rest

/-- Upper-casing of the ASCII letters of a text, as `toUpperCase` does on texts
made of ASCII characters. -/
def upperAscii (t : String) : String := String.mk (t.toList.map Char.toUpper)

/-- A store whose only donor consents, never donated, and has a blood type
outside the eight listed. -/
def rareTypeStore : Store :=
  { donors := [rareTypeDonor], donations := [], inventory := [], requests := [], nextId := 11 }

/-- A donor of the client with 12 donations and stale stored points. -/
def silverDonor : DonorJson :=
  { id := 3, name := some "Meera", bloodType := some "B+", totalDonations := some 12,
    points := some 7 }

/-! ## Further operations and measures -/

/-- The fields of a donor that belong to the donation ledger, with the donor's
id. -/
def ledgerFields (d : Donor) : Nat × ℤ × ℤ × String × String × Option ℤ :=
  (d.id, d.totalDonations, d.points, d.lastDonation, d.status, d.nextEligibleDate)

/-- The body of `POST /requests/add`, its units a number. -/
structure RequestBody where
  patientName : Option String
  studentId : Option String
  bloodType : Option String
  units : ℚ
  urgency : Option String

/-- The `required` check `save()` runs on the text fields of a new request. -/
def RequestBody.complete (b : RequestBody) : Bool :=
  textTruthy b.patientName && textTruthy b.studentId && textTruthy b.bloodType
    && textTruthy b.urgency

/-- The handler of `POST /requests/add`: a request that passes the `required`
check is stored with the schema defaults for status and request date; nothing
looks at the sign of the units. -/
def requestsAdd (env : Env) (s : Store) (b : RequestBody) : Reply × Store :=
  if b.complete then
    (.text 200 "Request added!",
      { s with
        requests := s.requests ++
          [{ id := s.nextId, patientName := b.patientName.getD "",
             studentId := b.studentId.getD "", bloodType := b.bloodType.getD "",
             units := b.units, urgency := b.urgency.getD "",
             status := "Pending", requestDate := env.now }]
        nextId := s.nextId + 1 })
  else
    (.text 400 "Error: ValidationError", s)

/-- The example donor linked to account 42, after one donation. -/
def linkedDonor : Donor :=
  { exampleDonor with
    userId := some 42, totalDonations := 1, points := 100, lastDonation := "2024-01-10",
    status := "Ineligible", nextEligibleDate := some 1720569600000 }

/-- A store holding the linked donor only. -/
def linkedStore : Store :=
  { donors := [linkedDonor], donations := [], inventory := [], requests := [], nextId := 8 }

/-- The body of a request for -3 units of AB-. -/
def negativeBody : RequestBody :=
  { patientName := some "P", studentId := some "S1", bloodType := some "AB-", units := -3,
    urgency := some "High" }

/-- A store with AB- at 1 unit and a pending request for -3 units of AB-. -/
def negativeStore : Store :=
  { donors := [], donations := [], inventory := [exampleStock 1],
    requests := [{ exampleRequest with units := -3 }], nextId := 3 }

/-- A consenting donor who has never donated and whose blood type is stored in
lower case. -/
def lowerCaseDonor : Donor :=
  { exampleDonor with id := 11, aadhaar := some "6666", bloodType := some "o+" }

/-- A store whose only donor is the one with the lower-case blood type. -/
def lowerCaseStore : Store :=
  { donors := [lowerCaseDonor], donations := [], inventory := [], requests := [], nextId := 12 }


/-- A store with O+ at 5 units and AB- at 4, the example request for AB- and a
pending request for O+. -/
def twoTypeStore : Store :=
  { donors := [], donations := [],
    inventory := [{ id := 0, bloodType := "O+", units := 5, lastUpdated := 0 }, exampleStock 4],
    requests := [exampleRequest,
      { exampleRequest with id := 5, bloodType := "O+", units := 1 }],
    nextId := 6 }


/-! ## Store writes that fail, and executions that overlap -/

/-- Which of the store writes of a handler is rejected, if any. -/
inductive WriteFault where
  | never
  | first
  | second
  deriving DecidableEq

/-- The handler of `POST /donors/:id/donations` where a store write may be
rejected by the store: the rejection of `donation.save()` or of `donor.save()`
is caught and answered with 500, and what was written before it stays
written. -/
def recordDonationFaulty (fault : WriteFault) (env : Env) (s : Store) (id : Nat)
    (amount : JSValue) (date : DateArg) : Reply × Store :=
  if !amount.truthy || amount.toNumber.le (.fin 0) then
    (.message 400 "Amount is required and must be greater than 0", s)
  else
    match findDonor s.donors id with
    | none => (.message 404 "Donor not found", s)
    | some donor =>
      match donationDate env date with
      | none => (.message 500 "Failed to record donation", s)
      | some d =>
        if amount.toNumber = .nan ∨ textTruthy donor.name = false then
          (.message 500 "Failed to record donation", s)
        else if fault = .first then (.message 500 "Failed to record donation", s)
        else
          match timeClip (sixMonthsAfter env.tza d) with
          | none =>
            (.message 500 "Failed to record donation",
              { s with
                donations := s.donations ++ [newDonation env s donor amount d]
                nextId := s.nextId + 1 })
          | some next =>
            if donor.valid ∧ fault ≠ .second then
              (.recorded "Donation recorded successfully" (afterDonation donor d next)
                  (newDonation env s donor amount d),
                { s with
                  donations := s.donations ++ [newDonation env s donor amount d]
                  donors := saveDonor s.donors (afterDonation donor d next)
                  nextId := s.nextId + 1 })
            else
              (.message 500 "Failed to record donation",
                { s with
                  donations := s.donations ++ [newDonation env s donor amount d]
                  nextId := s.nextId + 1 })

/-- The handler of `PUT /requests/update/:id` where a store write may be
rejected: the rejection of `stock.save()` or of `request.save()` is caught and
answered with 500, and what was written before it stays written.  A change to
a status other than Approved has one write only. -/
def updateRequestFaulty (fault : WriteFault) (env : Env) (s : Store) (id : Nat)
    (status : String) : Reply × Store :=
  match findRequest s.requests id with
  | none => (.text 404 "Request not found", s)
  | some request =>
    if status = "Approved" ∧ request.status ≠ "Approved" then
      match findStock s.inventory request.bloodType with
      | none => (.message 400 "Not enough stock available to approve this request.", s)
      | some stock =>
        if stock.units < request.units then
          (.message 400 "Not enough stock available to approve this request.", s)
        else if fault = .first then (.message 500 "Error updating request status.", s)
        else if fault = .second then
          (.message 500 "Error updating request status.",
            { s with
              inventory := saveStock s.inventory
                { stock with
                  units := toDouble (stock.units - request.units), lastUpdated := env.now } })
        else
          (.message 200 "Request approved and inventory updated successfully!",
            { s with
              inventory := saveStock s.inventory
                { stock with
                  units := toDouble (stock.units - request.units), lastUpdated := env.now }
              requests := saveRequest s.requests { request with status := status } })
    else if status ≠ "Approved" then
      if fault = .first then (.message 500 "Error updating request status.", s)
      else
        (.message 200 ("Request status updated to " ++ status ++ "!"),
          { s with requests := saveRequest s.requests { request with status := status } })
    else
      (.message 200 "Request is already approved.", s)

/-- Where one execution of the handler of `POST /donors/:id/donations` stands
between two store accesses, with the donor document it holds in memory. -/
inductive DonationRun where
  | start
  | loaded (donor : Donor)
  | saved (donor : Donor) (d : ℤ) (donation : Donation)
  | done (reply : Reply)
  deriving DecidableEq

/-- One store access of an execution, with the statements that follow it up to
the next access: `Donor.findById`, then `donation.save()`, then `donor.save()`,
which writes the document the execution holds. -/
def DonationRun.step (env : Env) (id : Nat) (amount : JSValue) (date : DateArg) :
    DonationRun → Store → DonationRun × Store
  | .start, s =>
    if !amount.truthy || amount.toNumber.le (.fin 0) then
      (.done (.message 400 "Amount is required and must be greater than 0"), s)
    else
      match findDonor s.donors id with
      | none => (.done (.message 404 "Donor not found"), s)
      | some donor => (.loaded donor, s)
  | .loaded donor, s =>
    match donationDate env date with
    | none => (.done (.message 500 "Failed to record donation"), s)
    | some d =>
      if amount.toNumber = .nan ∨ textTruthy donor.name = false then
        (.done (.message 500 "Failed to record donation"), s)
      else
        (.saved donor d (newDonation env s donor amount d),
          { s with
            donations := s.donations ++ [newDonation env s donor amount d]
            nextId := s.nextId + 1 })
  | .saved donor d donation, s =>
    match timeClip (sixMonthsAfter env.tza d) with
    | none => (.done (.message 500 "Failed to record donation"), s)
    | some next =>
      if donor.valid then
        (.done (.recorded "Donation recorded successfully" (afterDonation donor d next)
            donation),
          { s with donors := saveDonor s.donors (afterDonation donor d next) })
      else (.done (.message 500 "Failed to record donation"), s)
  | .done reply, s => (.done reply, s)

/-- An execution run alone from its start to its answer. -/
def DonationRun.alone (env : Env) (id : Nat) (amount : JSValue) (date : DateArg) (s : Store) :
    DonationRun × Store :=
  let p1 := DonationRun.step env id amount date .start s
  let p2 := DonationRun.step env id amount date p1.1 p1.2
  DonationRun.step env id amount date p2.1 p2.2

/-- Two executions of the handler for one donor against one store. -/
structure Race where
  first : DonationRun
  second : DonationRun
  store : Store
  deriving DecidableEq

/-- The two executions take their store accesses in the order of the schedule:
`true` lets the first take its next access, `false` the second. -/
def runSchedule (env : Env) (id : Nat) (amount : JSValue) (date : DateArg) :
    List Bool → Race → Race
  | [], r => r
  | true :: rest, r =>
    runSchedule env id amount date rest
      { r with
        first := (DonationRun.step env id amount date r.first r.store).1
        store := (DonationRun.step env id amount date r.first r.store).2 }
  | false :: rest, r =>
    runSchedule env id amount date rest
      { r with
        second := (DonationRun.step env id amount date r.second r.store).1
        store := (DonationRun.step env id amount date r.second r.store).2 }

/-- Every list of the given length of `true` and `false`. -/
def boolLists : Nat → List (List Bool)
  | 0 => [[]]
  | k + 1 => (boolLists k).map (fun l => true :: l) ++ (boolLists k).map (fun l => false :: l)

/-- The schedules of two executions of three store accesses each. -/
def schedules : List (List Bool) :=
  (boolLists 6).filter (fun l => decide (l.count true = 3))

/-- The example donor with `n` donations on record. -/
def raceDonor (n : ℤ) : Donor :=
  { exampleDonor with totalDonations := n, points := n * 100 }

/-- A store holding that donor only. -/
def raceStore (n : ℤ) : Store :=
  { donors := [raceDonor n], donations := [], inventory := [], requests := [], nextId := 8 }

/-- What two executions for the example donor leave under a schedule: the
donor's `totalDonations` and `points` and the number of Donation documents. -/
def raceOutcome (n : ℤ) (schedule : List Bool) : Option (ℤ × ℤ) × Nat :=
  let r := runSchedule env0 7 (.num 1) (.at 1704844800000) schedule
    { first := .start, second := .start, store := raceStore n }
  ((findDonor r.store.donors 7).map (fun d => (d.totalDonations, d.points)),
    r.store.donations.length)


/-- The donor document a photo upload creates for account 42 on the empty store:
the schema defaults, the account and the photo, and no profile field. -/
def photoDonor : Donor :=
  { defaultDonor 0 with userId := some 42, profilePhotoUrl := "/uploads/p.png" }

/-- The store after that photo upload. -/
def photoStore : Store :=
  { donors := [photoDonor], donations := [], inventory := [], requests := [], nextId := 1 }

/-- A store whose only inventory entry is O+ with the given units. -/
def stockStore (units : ℚ) : Store :=
  { donors := [], donations := [],
    inventory := [{ id := 0, bloodType := "O+", units := units, lastUpdated := 0 }],
    requests := [], nextId := 1 }

/-- The check `save()` runs on the document built from a body of
`POST /donors/create`, in terms of the body: every required field is filled
in. -/
def DonorBody.complete (b : DonorBody) : Bool :=
  decide (b.aadhaar ≠ "") && textTruthy b.name && textTruthy b.email && textTruthy b.phone
    && textTruthy b.bloodType && textTruthy b.address && b.age.isSome && b.weight.isSome

/-- The example body without the name. -/
def namelessBody : DonorBody := { exampleBody with name := none }

/-- A donor linked to account 5 whose identity ID is the empty text, as a profile
update with such a body stores it. -/
def emptyIdDonor : Donor := { defaultDonor 0 with userId := some 5, aadhaar := some "" }

/-- A store holding that donor only. -/
def emptyIdStore : Store :=
  { donors := [emptyIdDonor], donations := [], inventory := [], requests := [], nextId := 1 }

/-- A profile patch that carries the empty text as identity ID. -/
def emptyIdPatch : ProfilePatch :=
  { aadhaar := some "", name := none, email := none, phone := none,
    bloodType := none, address := none, age := none, weight := none, donateConsent := none }

/-- A profile patch that carries the consent text `Maybe` only. -/
def maybePatch : ProfilePatch :=
  { aadhaar := none, name := none, email := none, phone := none,
    bloodType := none, address := none, age := none, weight := none,
    donateConsent := some "Maybe" }

/-- The donor that patch creates for account 42 when the account has none. -/
def maybeDonor : Donor :=
  { defaultDonor 0 with userId := some 42, donateConsent := "Maybe" }

/-- A donor of the client whose `totalDonations` is missing. -/
def unknownDonor : DonorJson :=
  { id := 4, name := some "Kiran", bloodType := none, totalDonations := none, points := none }

/-- Two donors of the client with 3 donations each. -/
def firstThree : DonorJson :=
  { id := 5, name := some "Lata", bloodType := some "A+", totalDonations := some 3,
    points := some 300 }

/-- The second donor with 3 donations. -/
def secondThree : DonorJson :=
  { id := 6, name := some "Mohan", bloodType := some "O-", totalDonations := some 3,
    points := some 300 }

/-- A store with AB- at the given stock and the pending example request asking
the given units. -/
def requestStore (stock units : ℚ) : Store :=
  { donors := [], donations := [], inventory := [exampleStock stock],
    requests := [{ exampleRequest with units := units }], nextId := 3 }

/-- The zone of the eastern United States between the summers of 2023 and 2024:
four hours behind UTC until 2023-11-05 06:00 UTC, five hours behind until
2024-03-10 07:00 UTC, four hours behind after it.  A local time is read with
the later offset from the local time at which the clocks change on, that is
02:00 in November and, the hour from 02:00 being skipped, 03:00 in March. -/
def easternZone : Zone :=
  { offsetAt := fun t =>
      if t < 1699164000000 then -14400000
      else if t < 1710054000000 then -18000000
      else -14400000
    offsetOfLocal := fun x =>
      if x < 1699149600000 then -14400000
      else if x < 1710039600000 then -18000000
      else -14400000 }

/-- An environment in that zone. -/
def easternEnv : Env := { now := 0, tza := easternZone }

/-- A profile patch that carries a name only. -/
def namePatch : ProfilePatch :=
  { aadhaar := none, name := some "Ravi", email := none, phone := none,
    bloodType := none, address := none, age := none, weight := none, donateConsent := none }

/-- The donor that patch creates for account 42 when the account has none: it
has a name and lacks the other required fields. -/
def partialDonor : Donor :=
  { defaultDonor 0 with userId := some 42, name := some "Ravi" }

/-- The store after that profile update on the empty store. -/
def partialStore : Store :=
  { donors := [partialDonor], donations := [], inventory := [], requests := [], nextId := 1 }

/-- A store with the example donor, AB- at 4 units and the pending example
request. -/
def donorRequestStore : Store :=
  { donors := [exampleDonor], donations := [], inventory := [exampleStock 4],
    requests := [exampleRequest], nextId := 8 }

/-! ## Lookup after a write -/

theorem findRequest_id {rs : List Request} {id : Nat} {r : Request}
    (h : findRequest rs id = some r) : r.id = id := by
  have := List.find?_some h
  simpa using this

theorem findRequest_saveRequest {rs : List Request} {id : Nat} {r x : Request}
    (h : findRequest rs id = some r) (hx : x.id = id) :
    findRequest (saveRequest rs x) id = some x := by
  induction rs with
  | nil => simp [findRequest] at h
  | cons a as ih =>
    unfold findRequest saveRequest at *
    simp only [List.map_cons, List.find?_cons] at h ⊢
    by_cases ha : a.id = id
    · simp [ha, hx]
    · by_cases hax : a.id = x.id
      · simp [hax, hx]
      · simp only [ha, decide_False] at h
        simp [hax, ha, ih h]

theorem findStock_bloodType {inv : List InventoryEntry} {bt : String} {e : InventoryEntry}
    (h : findStock inv bt = some e) : e.bloodType = bt := by
  have := List.find?_some h
  simpa using this

theorem findStock_saveStock {inv : List InventoryEntry} {bt : String} {e x : InventoryEntry}
    (h : findStock inv bt = some e) (hid : x.id = e.id) (hbt : x.bloodType = bt) :
    findStock (saveStock inv x) bt = some x := by
  induction inv with
  | nil => simp [findStock] at h
  | cons a as ih =>
    unfold findStock saveStock at *
    simp only [List.map_cons, List.find?_cons] at h ⊢
    by_cases ha : a.bloodType = bt
    · simp only [ha, decide_True, Option.some.injEq] at h
      subst h
      simp [hid, hbt]
    · simp only [ha, decide_False] at h
      by_cases hax : a.id = x.id
      · simp [hax, hbt]
      · simp [hax, ha, ih h]

/-! ## Double precision -/

theorem roundHalfEven_intCast (m : ℤ) : roundHalfEven (m : ℚ) = m := by
  unfold roundHalfEven
  simp

theorem roundHalfEven_near {x : ℚ} {m : ℤ} (h : |x - m| < 1 / 2) : roundHalfEven x = m := by
  rw [abs_lt] at h
  obtain ⟨h1, h2⟩ := h
  unfold roundHalfEven
  by_cases hx : (m : ℚ) ≤ x
  · have hf : ⌊x⌋ = m := by
      rw [Int.floor_eq_iff]
      constructor
      · exact hx
      · linarith
    rw [hf, if_pos (by linarith)]
  · have hf : ⌊x⌋ = m - 1 := by
      rw [Int.floor_eq_iff]
      push_cast
      constructor <;> linarith
    rw [hf]
    push_cast
    rw [if_neg (by linarith), if_pos (by linarith)]
    ring

theorem log2_eq {x : ℚ} {e : ℤ} (h1 : (2 : ℚ) ^ e ≤ x) (h2 : x < (2 : ℚ) ^ (e + 1)) :
    Int.log 2 x = e := by
  have hx : 0 < x := lt_of_lt_of_le (by positivity) h1
  apply le_antisymm
  · have := (Int.lt_zpow_iff_log_lt (b := 2) (by norm_num) hx (x := e + 1)).mp (by exact_mod_cast h2)
    omega
  · exact (Int.zpow_le_iff_le_log (b := 2) (by norm_num) hx).mp (by exact_mod_cast h1)

theorem toDouble_near {q : ℚ} {e m : ℤ} (h1 : (2 : ℚ) ^ e ≤ |q|) (h2 : |q| < (2 : ℚ) ^ (e + 1))
    (he : -1022 ≤ e) (hm : |q / (2 : ℚ) ^ (e - 52) - m| < 1 / 2) :
    toDouble q = m * (2 : ℚ) ^ (e - 52) := by
  have hq : q ≠ 0 := by
    intro h0
    rw [h0, abs_zero] at h1
    have : (0 : ℚ) < (2 : ℚ) ^ e := by positivity
    linarith
  have hu : ulp q = (2 : ℚ) ^ (e - 52) := by
    unfold ulp
    rw [log2_eq h1 h2, max_eq_left he]
  unfold toDouble
  rw [if_neg hq, hu, roundHalfEven_near hm]

theorem toDouble_intCast (n : ℤ) (h : |n| ≤ 9007199254740992) : toDouble (n : ℚ) = n := by
  by_cases hn : n = 0
  · subst hn; simp [toDouble]
  have hpos : (0 : ℚ) < |(n : ℚ)| := abs_pos.mpr (by exact_mod_cast hn)
  have hone : (1 : ℚ) ≤ |(n : ℚ)| := by
    rw [← Int.cast_abs]
    exact_mod_cast Int.one_le_abs hn
  have hle : |(n : ℚ)| ≤ 9007199254740992 := by
    rw [← Int.cast_abs]
    exact_mod_cast h
  have he0 : 0 ≤ Int.log 2 |(n : ℚ)| := by
    have := (Int.zpow_le_iff_le_log (b := 2) (by norm_num) hpos (x := 0)).mp (by simpa using hone)
    exact this
  have he1 : Int.log 2 |(n : ℚ)| ≤ 53 := by
    have hlt : |(n : ℚ)| < ((2 : ℕ) : ℚ) ^ (54 : ℤ) := by
      have : (((2 : ℕ) : ℚ)) ^ (54 : ℤ) = 18014398509481984 := by norm_num
      rw [this]; linarith
    have := (Int.lt_zpow_iff_log_lt (b := 2) (by norm_num) hpos (x := 54)).mp hlt
    omega
  have hlow := Int.zpow_log_le_self (b := 2) (r := |(n : ℚ)|) (by norm_num) hpos
  generalize he : Int.log 2 |(n : ℚ)| = e at *
  have hu : ulp (n : ℚ) = (2 : ℚ) ^ (e - 52) := by
    unfold ulp
    rw [he, max_eq_left (by omega)]
  have hnq : (n : ℚ) ≠ 0 := by exact_mod_cast hn
  unfold toDouble
  rw [if_neg hnq, hu]
  have hup : (0 : ℚ) < (2 : ℚ) ^ (e - 52) := by positivity
  by_cases h52 : e ≤ 52
  · obtain ⟨k, hk⟩ : ∃ k : ℕ, (k : ℤ) = 52 - e := ⟨(52 - e).toNat, by omega⟩
    have hpow : (2 : ℚ) ^ (e - 52) = ((2 : ℚ) ^ k)⁻¹ := by
      have : e - 52 = -(k : ℤ) := by omega
      rw [this, zpow_neg, zpow_natCast]
    have hdiv : (n : ℚ) / (2 : ℚ) ^ (e - 52) = ((n * 2 ^ k : ℤ) : ℚ) := by
      rw [hpow]
      push_cast
      field_simp
    rw [hdiv, roundHalfEven_intCast, hpow]
    push_cast
    field_simp
  · have he53 : e = 53 := by omega
    subst he53
    have h253 : |(n : ℚ)| = 9007199254740992 := by
      apply le_antisymm hle
      have : ((2 : ℕ) : ℚ) ^ (53 : ℤ) = 9007199254740992 := by norm_num
      rw [← this]
      exact hlow
    have hpow : (2 : ℚ) ^ ((53 : ℤ) - 52) = 2 := by norm_num
    rw [hpow]
    have hnabs : |n| = 9007199254740992 := by
      have : ((|n| : ℤ) : ℚ) = 9007199254740992 := by rw [Int.cast_abs]; exact h253
      exact_mod_cast this
    obtain ⟨m, hm⟩ : ∃ m : ℤ, n = 2 * m := by
      rcases abs_cases n with ⟨h1, _⟩ | ⟨h1, _⟩
      · exact ⟨4503599627370496, by omega⟩
      · exact ⟨-4503599627370496, by omega⟩
    have hdiv : (n : ℚ) / 2 = (m : ℚ) := by
      rw [hm]; push_cast; ring
    rw [hdiv, roundHalfEven_intCast, hm]
    push_cast
    ring

theorem toDouble_of_wholeSafe {q : ℚ} (h : wholeSafe q) : toDouble q = q := by
  obtain ⟨n, rfl, hn⟩ := h
  exact toDouble_intCast n hn

theorem wholeSafe_intCast {n : ℤ} (h : |n| ≤ 9007199254740992) : wholeSafe (n : ℚ) :=
  ⟨n, rfl, h⟩

/-! ## Approving a request -/

theorem updateRequest_approve_eq (env : Env) (s : Store) (id : Nat) (r : Request)
    (e : InventoryEntry)
    (hr : findRequest s.requests id = some r) (hst : r.status ≠ "Approved")
    (he : findStock s.inventory r.bloodType = some e) (hu : r.units ≤ e.units) :
    updateRequest env s id "Approved"
      = (.message 200 "Request approved and inventory updated successfully!",
          { s with
            inventory := saveStock s.inventory
              { e with units := toDouble (e.units - r.units), lastUpdated := env.now }
            requests := saveRequest s.requests { r with status := "Approved" } }) := by
  have hlt : ¬ e.units < r.units := not_lt.mpr hu
  simp only [updateRequest, hr, he, hst, hlt, ne_eq, not_false_eq_true, and_self, if_true,
    if_false]

theorem updateRequest_other_eq (env : Env) (s : Store) (id : Nat) (r : Request)
    (status : String)
    (hr : findRequest s.requests id = some r) (hst : status ≠ "Approved") :
    updateRequest env s id status
      = (.message 200 ("Request status updated to " ++ status ++ "!"),
          { s with requests := saveRequest s.requests { r with status := status } }) := by
  simp only [updateRequest, hr, hst, false_and, if_false, ne_eq, not_false_eq_true, if_true]

theorem updateRequest_again_eq (env : Env) (s : Store) (id : Nat) (r : Request)
    (hr : findRequest s.requests id = some r) (hst : r.status = "Approved") :
    updateRequest env s id "Approved" = (.message 200 "Request is already approved.", s) := by
  simp [updateRequest, hr, hst]

/-- C1 (counterexample): AB- holds 10^20 units and the pending request asks 2;
approving answers 200, but the difference is computed in double precision,
where 10^20 - 2 rounds to 10^20: the entry is left with 10^20 units, not with
10^20 - 2. -/
theorem approval_of_large_stock_not_exact :
    findRequest (exampleStore 100000000000000000000 "Pending").requests 1
      = some exampleRequest ∧
    exampleRequest.status ≠ "Approved" ∧
    findStock (exampleStore 100000000000000000000 "Pending").inventory exampleRequest.bloodType
      = some (exampleStock 100000000000000000000) ∧
    exampleRequest.units ≤ (exampleStock 100000000000000000000).units ∧
    (updateRequest env0 (exampleStore 100000000000000000000 "Pending") 1 "Approved").1
      = .message 200 "Request approved and inventory updated successfully!" ∧
    unitsOf (updateRequest env0 (exampleStore 100000000000000000000 "Pending") 1
      "Approved").2.inventory "AB-" = 100000000000000000000 ∧
    unitsOf (updateRequest env0 (exampleStore 100000000000000000000 "Pending") 1
      "Approved").2.inventory "AB-"
      ≠ (exampleStock 100000000000000000000).units - exampleRequest.units := by
  have hr : findRequest (exampleStore 100000000000000000000 "Pending").requests 1
      = some exampleRequest := by decide
  have he : findStock (exampleStore 100000000000000000000 "Pending").inventory
      exampleRequest.bloodType = some (exampleStock 100000000000000000000) := by decide
  have hle : exampleRequest.units ≤ (exampleStock 100000000000000000000).units := by decide
  have hst : exampleRequest.status ≠ "Approved" := by decide
  have hd : toDouble ((exampleStock 100000000000000000000).units - exampleRequest.units)
      = 100000000000000000000 := by
    have h := toDouble_near (q := 100000000000000000000 - 2) (e := 66) (m := 6103515625000000)
      (by norm_num [abs_of_pos]) (by norm_num [abs_of_pos]) (by norm_num)
      (by rw [abs_lt]; constructor <;> norm_num)
    simp only [exampleStock, exampleRequest]
    rw [h]
    norm_num
  have hrun := updateRequest_approve_eq env0 (exampleStore 100000000000000000000 "Pending") 1
    exampleRequest (exampleStock 100000000000000000000) hr hst he hle
  have hu : unitsOf (updateRequest env0 (exampleStore 100000000000000000000 "Pending") 1
      "Approved").2.inventory "AB-" = 100000000000000000000 := by
    have hf := findStock_saveStock he
      (x := { exampleStock 100000000000000000000 with
              units := toDouble ((exampleStock 100000000000000000000).units
                - exampleRequest.units),
              lastUpdated := env0.now }) rfl rfl
    have hb : ("AB-" : String) = exampleRequest.bloodType := rfl
    rw [hrun]
    unfold unitsOf
    simp only
    rw [hb, hf]
    exact hd
  refine ⟨hr, hst, he, hle, ?_, hu, ?_⟩
  · rw [hrun]
  · rw [hu]
    norm_num [exampleStock, exampleRequest]

/-- C1 (amended): for a stored request that is not yet Approved, asking `u` units
of a blood type whose inventory entry holds `s ≥ u` units, where `s - u` is a
whole number of magnitude at most 2^53, the update to Approved answers 200,
stores the request as Approved, and leaves the entry of that blood type with
exactly `s - u` units. -/
theorem updateRequest_approve_debits (env : Env) (s : Store) (id : Nat) (r : Request)
    (e : InventoryEntry)
    (hr : findRequest s.requests id = some r) (hst : r.status ≠ "Approved")
    (he : findStock s.inventory r.bloodType = some e) (hu : r.units ≤ e.units)
    (hw : wholeSafe (e.units - r.units)) :
    (updateRequest env s id "Approved").1
        = .message 200 "Request approved and inventory updated successfully!" ∧
    findRequest (updateRequest env s id "Approved").2.requests id
        = some { r with status := "Approved" } ∧
    findStock (updateRequest env s id "Approved").2.inventory r.bloodType
        = some { e with units := e.units - r.units, lastUpdated := env.now } := by
  have hid : r.id = id := findRequest_id hr
  have hbt : e.bloodType = r.bloodType := findStock_bloodType he
  rw [updateRequest_approve_eq env s id r e hr hst he hu]
  have hst2 : findStock (saveStock s.inventory
      { e with units := toDouble (e.units - r.units), lastUpdated := env.now }) r.bloodType
      = some { e with units := toDouble (e.units - r.units), lastUpdated := env.now } :=
    findStock_saveStock he
      (x := { e with units := toDouble (e.units - r.units), lastUpdated := env.now }) rfl hbt
  refine ⟨rfl, findRequest_saveRequest hr (x := { r with status := "Approved" }) hid, ?_⟩
  simp only
  rw [hst2, toDouble_of_wholeSafe hw]

/-- Scenario D: AB- holds 3 units and the pending request asks 2; approving
leaves 3 - 2 units and the request Approved. -/
theorem updateRequest_approve_debits_witness :
    findRequest (exampleStore 3 "Pending").requests 1 = some exampleRequest ∧
    exampleRequest.status ≠ "Approved" ∧
    findStock (exampleStore 3 "Pending").inventory exampleRequest.bloodType
        = some (exampleStock 3) ∧
    exampleRequest.units ≤ (exampleStock 3).units ∧
    wholeSafe ((exampleStock 3).units - exampleRequest.units) ∧
    (updateRequest env0 (exampleStore 3 "Pending") 1 "Approved").1
        = .message 200 "Request approved and inventory updated successfully!" ∧
    findRequest (updateRequest env0 (exampleStore 3 "Pending") 1 "Approved").2.requests 1
        = some { exampleRequest with status := "Approved" } ∧
    findStock (updateRequest env0 (exampleStore 3 "Pending") 1 "Approved").2.inventory
          exampleRequest.bloodType
        = some { exampleStock 3 with
                 units := (exampleStock 3).units - exampleRequest.units,
                 lastUpdated := env0.now } :=
  have hw : wholeSafe ((exampleStock 3).units - exampleRequest.units) :=
    ⟨1, by norm_num [exampleStock, exampleRequest], by norm_num⟩
  ⟨by decide, by decide, by decide, by decide, hw,
    updateRequest_approve_debits env0 (exampleStore 3 "Pending") 1 exampleRequest
      (exampleStock 3) (by decide) (by decide) (by decide) (by decide) hw⟩

/-- C2: for a stored request that is not yet Approved and asks more units than
its blood type holds (no entry counting as no stock), the update to Approved
is refused with the insufficient-stock answer and the whole store, hence the
request's status and every inventory entry, is as before. -/
theorem updateRequest_approve_insufficient (env : Env) (s : Store) (id : Nat) (r : Request)
    (hr : findRequest s.requests id = some r) (hst : r.status ≠ "Approved")
    (hu : unitsOf s.inventory r.bloodType < r.units) :
    updateRequest env s id "Approved"
      = (.message 400 "Not enough stock available to approve this request.", s) := by
  unfold unitsOf at hu
  cases he : findStock s.inventory r.bloodType with
  | none => simp [updateRequest, hr, he, hst]
  | some e =>
    rw [he] at hu
    simp [updateRequest, hr, he, hst, hu]

/-- Scenario C: AB- holds 1 unit and the pending request asks 2; approving is
refused and nothing changes. -/
theorem updateRequest_approve_insufficient_witness :
    findRequest (exampleStore 1 "Pending").requests 1 = some exampleRequest ∧
    exampleRequest.status ≠ "Approved" ∧
    unitsOf (exampleStore 1 "Pending").inventory exampleRequest.bloodType
      < exampleRequest.units ∧
    updateRequest env0 (exampleStore 1 "Pending") 1 "Approved"
      = (.message 400 "Not enough stock available to approve this request.",
          exampleStore 1 "Pending") :=
  ⟨by decide, by decide, by decide,
    updateRequest_approve_insufficient env0 (exampleStore 1 "Pending") 1 exampleRequest
      (by decide) (by decide) (by decide)⟩

/-- C3: for a request that is already Approved, and whatever the inventory
holds, the update to Approved answers 200 and leaves the whole store, hence
the request and the units of every inventory entry, as before. -/
theorem updateRequest_approve_again (env : Env) (s : Store) (id : Nat) (r : Request)
    (hr : findRequest s.requests id = some r) (hst : r.status = "Approved") :
    updateRequest env s id "Approved" = (.message 200 "Request is already approved.", s) := by
  simp [updateRequest, hr, hst]

/-- An approved request for 2 units of AB- while AB- holds nothing: approving
again succeeds and changes nothing. -/
theorem updateRequest_approve_again_witness :
    findRequest (exampleStore 0 "Approved").requests 1
      = some { exampleRequest with status := "Approved" } ∧
    ({ exampleRequest with status := "Approved" } : Request).status = "Approved" ∧
    updateRequest env0 (exampleStore 0 "Approved") 1 "Approved"
      = (.message 200 "Request is already approved.", exampleStore 0 "Approved") :=
  ⟨by decide, by decide,
    updateRequest_approve_again env0 (exampleStore 0 "Approved") 1
      { exampleRequest with status := "Approved" } (by decide) (by decide)⟩

/-! ## The stock never below zero -/

/-- C4 (evaluation at the failing input): with AB- at 5 units, a removal whose
`units` is the text `7px` passes both guards, because the text compares as NaN,
and is then applied as `parseInt` reads it: the handler answers 200 and the
entry is left with -2 units. -/
theorem inventoryRemove_text_units_goes_negative :
    (∀ e ∈ (exampleStore 5 "Pending").inventory, 0 ≤ e.units) ∧
    inventoryRemove env0 (exampleStore 5 "Pending") (some "AB-") (.str "7px")
      = (.stock (some (exampleStock (-2))),
          { exampleStore 5 "Pending" with inventory := [exampleStock (-2)] }) ∧
    ¬ (∀ e ∈ (inventoryRemove env0 (exampleStore 5 "Pending") (some "AB-")
          (.str "7px")).2.inventory, 0 ≤ e.units) := by
  have hnum : (JSValue.str "7px").toNumber = .nan := by decide
  have hint : parseInt10 (.str "7px") = some 7 := by decide
  have hrun : inventoryRemove env0 (exampleStore 5 "Pending") (some "AB-") (.str "7px")
      = (.stock (some (exampleStock (-2))),
          { exampleStore 5 "Pending" with inventory := [exampleStock (-2)] }) := by
    have h7 : toDouble ((7 : ℤ) : ℚ) = 7 := by
      simpa using toDouble_intCast 7 (by norm_num)
    have h2 : toDouble ((5 : ℚ) + -7) = -2 := by
      have h := toDouble_intCast (-2) (by norm_num)
      have e : ((5 : ℚ) + -7) = ((-2 : ℤ) : ℚ) := by norm_num
      rw [e, h]
      norm_num
    simp only [inventoryRemove, hnum, hint, JSNum.le, JSNum.lt, textTruthy, JSValue.truthy,
      exampleStore, exampleStock, findStock, incStock, updateFirst, env0, Option.getD, h7, h2]
    norm_num
    exact ⟨by decide, by decide⟩
  refine ⟨?_, hrun, ?_⟩
  · intro e he
    simp only [exampleStore, exampleStock, List.mem_singleton] at he
    subst he
    norm_num
  · rw [hrun]
    intro h
    have := h (exampleStock (-2)) (by simp)
    norm_num [exampleStock] at this

/-! ## Deleting a request -/

/-- C10 (evaluation at the failing input): a stored request whose status is
Rejected is not deleted; the handler answers 400 and the store is as before. -/
theorem deleteRequest_rejected_refused :
    findRequest (exampleStore 3 "Rejected").requests 1
      = some { exampleRequest with status := "Rejected" } ∧
    deleteRequest (exampleStore 3 "Rejected") 1
      = (.message 400 "Only completed requests can be deleted.", exampleStore 3 "Rejected") := by
  exact ⟨by decide, by decide⟩

/-! ## Donor counters -/

theorem mem_saveDonor {ds : List Donor} {x d : Donor} (h : d ∈ saveDonor ds x) :
    d = x ∨ d ∈ ds := by
  unfold saveDonor at h
  obtain ⟨a, ha, rfl⟩ := List.mem_map.mp h
  by_cases hax : a.id = x.id
  · left; simp [hax]
  · right; simpa [hax] using ha

theorem mem_updateFirst {α : Type} {p : α → Bool} {f : α → α} {l : List α} {d : α}
    (h : d ∈ updateFirst p f l) : d ∈ l ∨ ∃ x ∈ l, d = f x := by
  induction l with
  | nil => simp [updateFirst] at h
  | cons a as ih =>
    rw [updateFirst] at h
    split at h
    · rcases List.mem_cons.mp h with h1 | h1
      · exact Or.inr ⟨a, List.mem_cons_self _ _, h1⟩
      · exact Or.inl (List.mem_cons_of_mem _ h1)
    · rcases List.mem_cons.mp h with h1 | h1
      · exact Or.inl (h1 ▸ List.mem_cons_self _ _)
      · rcases ih h1 with h2 | ⟨x, hx, hd⟩
        · exact Or.inl (List.mem_cons_of_mem _ h2)
        · exact Or.inr ⟨x, List.mem_cons_of_mem _ hx, hd⟩

theorem pointsOk_donorsCreate (s : Store) (b : DonorBody) (h : pointsOk s) :
    pointsOk (donorsCreate s b).2 := by
  unfold donorsCreate
  split
  · exact h
  · split
    · intro d hd
      simp only [List.mem_append, List.mem_singleton] at hd
      rcases hd with hd | hd
      · exact h d hd
      · subst hd; simp
    · exact h

theorem pointsOk_donorsAdd (env : Env) (s : Store) (b : DonorBody) (h : pointsOk s) :
    pointsOk (donorsAdd env s b).2 := by
  unfold donorsAdd
  split
  · split
    · intro d hd
      rcases mem_saveDonor hd with hd | hd
      · subst hd; simp
      · exact h d hd
    · exact h
  · split
    · intro d hd
      simp only [List.mem_append, List.mem_singleton] at hd
      rcases hd with hd | hd
      · exact h d hd
      · subst hd; simp
    · exact h

theorem pointsOk_recordDonation (env : Env) (s : Store) (id : Nat) (amount : JSValue)
    (date : DateArg) (h : pointsOk s) : pointsOk (recordDonation env s id amount date).2 := by
  unfold recordDonation
  split
  · exact h
  · split
    · exact h
    · split
      · exact h
      · split
        · exact h
        · split
          · exact h
          · split
            · intro d hd
              rcases mem_saveDonor hd with hd | hd
              · subst hd; simp [afterDonation]
              · exact h d hd
            · exact h

theorem pointsOk_updateProfile (s : Store) (uid : Nat) (p : ProfilePatch) (h : pointsOk s) :
    pointsOk (updateProfile s uid p).2 := by
  unfold updateProfile
  split
  · exact h
  · split
    · intro d hd
      rcases mem_updateFirst hd with hd | ⟨x, hx, rfl⟩
      · exact h d hd
      · simpa [applyPatch] using h x hx
    · intro d hd
      simp only [List.mem_append, List.mem_singleton] at hd
      rcases hd with hd | hd
      · exact h d hd
      · subst hd; simp [applyPatch, defaultDonor]

theorem pointsOk_uploadPhoto (s : Store) (uid : Nat) (userEmail file : Option String)
    (h : pointsOk s) : pointsOk (uploadPhoto s uid userEmail file).2 := by
  unfold uploadPhoto
  split
  · exact h
  · split
    · intro d hd
      rcases mem_updateFirst hd with hd | ⟨x, hx, rfl⟩
      · exact h d hd
      · simpa using h x hx
    · intro d hd
      simp only [List.mem_append, List.mem_singleton] at hd
      rcases hd with hd | hd
      · exact h d hd
      · subst hd; simp [defaultDonor]

/-- C5: if every donor has `points = totalDonations * 100`, then after any
operation that creates or changes a donor (admin creation, admin
add-with-donation, recording a donation by id, profile update, photo upload),
whether it succeeds or fails, every donor still has
`points = totalDonations * 100`. -/
theorem donorOp_preserves_points (env : Env) (s : Store) (op : DonorOp) (h : pointsOk s) :
    pointsOk (op.run env s).2 := by
  cases op with
  | create b => exact pointsOk_donorsCreate s b h
  | add b => exact pointsOk_donorsAdd env s b h
  | record id amount date => exact pointsOk_recordDonation env s id amount date h
  | profile uid p => exact pointsOk_updateProfile s uid p h
  | photo uid userEmail file => exact pointsOk_uploadPhoto s uid userEmail file h

/-- Recording one unit for the example donor keeps the points invariant. -/
theorem donorOp_preserves_points_witness :
    pointsOk donorStore ∧
    pointsOk ((DonorOp.record 7 (.num 1) (.at 1704844800000)).run env0 donorStore).2 :=
  ⟨by intro d hd; simp only [donorStore, List.mem_singleton] at hd; subst hd; decide,
    donorOp_preserves_points env0 donorStore (.record 7 (.num 1) (.at 1704844800000))
      (by intro d hd; simp only [donorStore, List.mem_singleton] at hd; subst hd; decide)⟩

/-- C6 (evaluation at the failing input): on the empty store, where the counts
agree, the admin add-with-donation of a new identity stores a donor with
`totalDonations = 1` and no donation document, so the count no longer equals
the number of donations that reference the donor. -/
theorem donorsAdd_counts_without_donation :
    countsOk emptyStore ∧
    (donorsAdd env0 emptyStore exampleBody).1
      = .text 200 "New donor added and first donation recorded!" ∧
    (donorsAdd env0 emptyStore exampleBody).2.donations = [] ∧
    (donorsAdd env0 emptyStore exampleBody).2.donors.map (fun d => d.totalDonations) = [1] ∧
    ¬ countsOk (donorsAdd env0 emptyStore exampleBody).2 := by
  have hv : Donor.valid { defaultDonor emptyStore.nextId with
      aadhaar := some exampleBody.aadhaar, name := exampleBody.name, email := exampleBody.email,
      phone := exampleBody.phone, bloodType := exampleBody.bloodType,
      address := exampleBody.address, age := exampleBody.age, weight := exampleBody.weight }
      = true := by decide
  have hf : findDonorByAadhaar emptyStore.donors exampleBody.aadhaar = none := by decide
  have hrun : donorsAdd env0 emptyStore exampleBody
      = (.text 200 "New donor added and first donation recorded!",
          { emptyStore with
            donors := emptyStore.donors ++
              [{ defaultDonor emptyStore.nextId with
                 aadhaar := some exampleBody.aadhaar, name := exampleBody.name,
                 email := exampleBody.email, phone := exampleBody.phone,
                 bloodType := exampleBody.bloodType, address := exampleBody.address,
                 age := exampleBody.age, weight := exampleBody.weight,
                 totalDonations := 1, points := 100,
                 lastDonation := isoDate env0.now,
                 status := "Ineligible",
                 nextEligibleDate := some (sixMonthsAfter env0.tza env0.now) }]
            nextId := emptyStore.nextId + 1 }) := by
    simp only [donorsAdd, hf, hv, if_true]
  rw [hrun]
  refine ⟨?_, rfl, rfl, rfl, ?_⟩
  · intro d hd; simp [emptyStore] at hd
  · intro h
    have h1 := h { defaultDonor 0 with
        aadhaar := some exampleBody.aadhaar, name := exampleBody.name, email := exampleBody.email,
        phone := exampleBody.phone, bloodType := exampleBody.bloodType,
        address := exampleBody.address, age := exampleBody.age, weight := exampleBody.weight,
        totalDonations := 1, points := 100, lastDonation := isoDate env0.now,
        status := "Ineligible",
        nextEligibleDate := some (sixMonthsAfter env0.tza env0.now) }
      (by simp [emptyStore])
    simp [donationCount, emptyStore] at h1

/-! ## Recording a donation -/

theorem findDonor_id {ds : List Donor} {id : Nat} {d : Donor}
    (h : findDonor ds id = some d) : d.id = id := by
  have := List.find?_some h
  simpa using this

theorem findDonor_saveDonor {ds : List Donor} {id : Nat} {d x : Donor}
    (h : findDonor ds id = some d) (hx : x.id = id) :
    findDonor (saveDonor ds x) id = some x := by
  induction ds with
  | nil => simp [findDonor] at h
  | cons a as ih =>
    unfold findDonor saveDonor at *
    simp only [List.map_cons, List.find?_cons] at h ⊢
    by_cases ha : a.id = id
    · simp [ha, hx]
    · by_cases hax : a.id = x.id
      · simp [hax, hx]
      · simp only [ha, decide_False] at h
        simp [hax, ha, ih h]

theorem truthy_of_toNumber_pos {v : JSValue} {q : ℚ} (h : v.toNumber = .fin q) (hq : 0 < q) :
    v.truthy = true := by
  cases v with
  | undefined => simp [JSValue.toNumber] at h
  | null =>
    simp only [JSValue.toNumber, JSNum.fin.injEq] at h
    subst h; exact absurd hq (lt_irrefl _)
  | bool b =>
    cases b with
    | true => rfl
    | false =>
      simp only [JSValue.toNumber, JSNum.fin.injEq] at h
      simp at h
      subst h; exact absurd hq (lt_irrefl _)
  | num x =>
    simp only [JSValue.toNumber, JSNum.fin.injEq] at h
    subst h
    simp [JSValue.truthy, ne_of_gt hq]
  | str t =>
    by_cases ht : t = ""
    · subst ht
      have h0 : (JSValue.str "").toNumber = .fin 0 := by decide
      rw [h0, JSNum.fin.injEq] at h
      subst h; exact absurd hq (lt_irrefl _)
    · simp [JSValue.truthy, ht]

theorem name_of_valid {d : Donor} (h : d.valid = true) : textTruthy d.name = true := by
  simp only [Donor.valid, Bool.and_eq_true] at h
  exact h.1.1.1.1.1.1.1.2

theorem recordDonation_success (env : Env) (s : Store) (id : Nat) (donor : Donor)
    (amount : JSValue) (q : ℚ) (date : DateArg) (d next : ℤ)
    (hd : findDonor s.donors id = some donor)
    (ha : amount.toNumber = .fin q) (hq : 0 < q) (ht : donationDate env date = some d)
    (hv : donor.valid = true) (hn : timeClip (sixMonthsAfter env.tza d) = some next) :
    recordDonation env s id amount date
      = (.recorded "Donation recorded successfully" (afterDonation donor d next)
            (newDonation env s donor amount d),
          { s with
            donations := s.donations ++ [newDonation env s donor amount d]
            donors := saveDonor s.donors (afterDonation donor d next)
            nextId := s.nextId + 1 }) := by
  have htr : amount.truthy = true := truthy_of_toNumber_pos ha hq
  have hle : JSNum.le (.fin q) (.fin 0) = false := by
    simp [JSNum.le, JSNum.lt, hq]
  have hname : textTruthy donor.name = true := name_of_valid hv
  simp only [recordDonation, htr, ha, hle, hd, ht, hn, hv, hname, Bool.not_true, Bool.or_self,
    Bool.false_eq_true, if_false, if_true, reduceCtorEq, or_self]

theorem timeClip_of_le {t : ℤ} (h : |t| ≤ maxTime) : timeClip t = some t := by
  simp [timeClip, h]

/-- C7 (counterexample): the donor document that a photo upload creates on the
empty store exists but has no name; recording a donation of 1 unit on
2024-01-10 for it is answered with 500, and no Donation is appended and the
donor is as before. -/
theorem recordDonation_refuses_nameless_donor :
    (uploadPhoto emptyStore 42 none (some "p.png")).2 = photoStore ∧
    findDonor photoStore.donors 0 = some photoDonor ∧
    photoDonor.totalDonations = 0 ∧
    (JSValue.num 1).toNumber = .fin 1 ∧
    donationDate env0 (.at 1704844800000) = some 1704844800000 ∧
    recordDonation env0 photoStore 0 (.num 1) (.at 1704844800000)
      = (.message 500 "Failed to record donation", photoStore) ∧
    (recordDonation env0 photoStore 0 (.num 1) (.at 1704844800000)).2.donations = [] := by
  have hrun : recordDonation env0 photoStore 0 (.num 1) (.at 1704844800000)
      = (.message 500 "Failed to record donation", photoStore) := by decide
  refine ⟨by decide, by decide, rfl, rfl, by decide, hrun, ?_⟩
  rw [hrun]
  rfl

/-- C7 (amended): for an existing donor whose document passes the checks of
`save()` (every required field filled in) and has `totalDonations = n` with
`0 ≤ n` and `(n + 1) * 100 ≤ 2^53`, an amount that reads as a number `q > 0`,
and a date `t` such that `t` and the end of the eligibility window computed
from it lie within the range of `Date`: recording a donation answers with the
donor and the donation, appends exactly that one donation (referencing the
donor, with the donor's name, the amount and the date), and the returned and
stored donor has `totalDonations = n + 1`, `points = (n + 1) * 100`,
`lastDonation` the calendar date of `t`, and status Ineligible. -/
theorem recordDonation_updates_donor (env : Env) (s : Store) (id : Nat) (donor : Donor)
    (amount : JSValue) (q : ℚ) (t n : ℤ)
    (hd : findDonor s.donors id = some donor) (hv : donor.valid = true)
    (hn : donor.totalDonations = n) (_hn0 : 0 ≤ n) (_hn1 : (n + 1) * 100 ≤ 9007199254740992)
    (ha : amount.toNumber = .fin q) (hq : 0 < q)
    (ht : |t| ≤ maxTime) (hnext : |sixMonthsAfter env.tza t| ≤ maxTime) :
    ∃ donor' donation,
      (recordDonation env s id amount (.at t)).1
        = .recorded "Donation recorded successfully" donor' donation ∧
      (recordDonation env s id amount (.at t)).2.donations = s.donations ++ [donation] ∧
      donation.donor = id ∧ donation.donorName = donor.name ∧
      donation.amount = .fin q ∧ donation.date = t ∧
      donor'.totalDonations = n + 1 ∧
      donor'.points = (n + 1) * 100 ∧
      donor'.lastDonation = isoDate t ∧
      donor'.status = "Ineligible" ∧
      findDonor (recordDonation env s id amount (.at t)).2.donors id = some donor' := by
  have hid : donor.id = id := findDonor_id hd
  have hdate : donationDate env (.at t) = some t := timeClip_of_le ht
  rw [recordDonation_success env s id donor amount q (.at t) t (sixMonthsAfter env.tza t)
    hd ha hq hdate hv (timeClip_of_le hnext)]
  refine ⟨afterDonation donor t (sixMonthsAfter env.tza t), newDonation env s donor amount t,
    rfl, rfl, hid, rfl, ha, rfl, ?_, ?_, rfl, rfl, ?_⟩
  · simp [afterDonation, hn]
  · simp [afterDonation, hn]
  · exact findDonor_saveDonor hd (x := afterDonation donor t (sixMonthsAfter env.tza t)) hid

/-- Scenario B: a donor with no donations gives one unit on 2024-01-10 and ends
with one donation, 100 points, `lastDonation` 2024-01-10 and status
Ineligible. -/
theorem recordDonation_updates_donor_witness :
    findDonor donorStore.donors 7 = some exampleDonor ∧
    exampleDonor.valid = true ∧
    (JSValue.num 1).toNumber = .fin 1 ∧ (0 : ℚ) < 1 ∧
    exampleDonor.totalDonations = 0 ∧
    |(1704844800000 : ℤ)| ≤ maxTime ∧ |sixMonthsAfter env0.tza 1704844800000| ≤ maxTime ∧
    isoDate 1704844800000 = "2024-01-10" ∧
    ∃ donor' donation,
      (recordDonation env0 donorStore 7 (.num 1) (.at 1704844800000)).1
        = .recorded "Donation recorded successfully" donor' donation ∧
      (recordDonation env0 donorStore 7 (.num 1) (.at 1704844800000)).2.donations
        = donorStore.donations ++ [donation] ∧
      donation.donor = 7 ∧ donation.donorName = exampleDonor.name ∧
      donation.amount = .fin 1 ∧ donation.date = 1704844800000 ∧
      donor'.totalDonations = 0 + 1 ∧
      donor'.points = (0 + 1) * 100 ∧
      donor'.lastDonation = isoDate 1704844800000 ∧
      donor'.status = "Ineligible" ∧
      findDonor (recordDonation env0 donorStore 7 (.num 1) (.at 1704844800000)).2.donors 7
        = some donor' :=
  ⟨by decide, by decide, rfl, by decide, rfl, by decide, by decide, by decide,
    recordDonation_updates_donor env0 donorStore 7 exampleDonor (.num 1) 1 1704844800000 0
      (by decide) (by decide) rfl (by decide) (by decide) rfl (by decide) (by decide)
      (by decide)⟩

/-- C9: for every donor id, existing or not, an amount that is missing or reads
as a number `q ≤ 0` (zero or negative) is refused with the invalid-argument
answer and the whole store, hence every donation and every donor field, is as
before. -/
theorem recordDonation_rejects_nonpositive (env : Env) (s : Store) (id : Nat)
    (amount : JSValue) (date : DateArg)
    (h : amount = .undefined ∨ ∃ q : ℚ, amount.toNumber = .fin q ∧ q ≤ 0) :
    recordDonation env s id amount date
      = (.message 400 "Amount is required and must be greater than 0", s) := by
  rcases h with h | ⟨q, hq, hle⟩
  · subst h
    simp [recordDonation, JSValue.truthy]
  · have : JSNum.le (.fin q) (.fin 0) = true := by
      simp [JSNum.le, JSNum.lt, not_lt.mpr hle]
    simp [recordDonation, hq, this]

/-- A negative amount for the example donor: refused, nothing changes. -/
theorem recordDonation_rejects_nonpositive_witness :
    ((JSValue.num (-3)) = .undefined ∨
      ∃ q : ℚ, (JSValue.num (-3)).toNumber = .fin q ∧ q ≤ 0) ∧
    recordDonation env0 donorStore 7 (.num (-3)) (.at 1704844800000)
      = (.message 400 "Amount is required and must be greater than 0", donorStore) :=
  ⟨Or.inr ⟨-3, rfl, by decide⟩,
    recordDonation_rejects_nonpositive env0 donorStore 7 (.num (-3)) (.at 1704844800000)
      (Or.inr ⟨-3, rfl, by decide⟩)⟩

/-! ## The calendar: years, months and days -/

theorem DayFromYear_succ (y : ℤ) : DayFromYear (y + 1) = DayFromYear y + DaysInYear y := by
  unfold DayFromYear DaysInYear
  split_ifs <;> omega

theorem DayFromYear_add_400 (y : ℤ) : DayFromYear (y + 400) = DayFromYear y + 146097 := by
  unfold DayFromYear
  omega

theorem DaysInYear_pos (y : ℤ) : 365 ≤ DaysInYear y ∧ DaysInYear y ≤ 366 := by
  unfold DaysInYear
  split_ifs <;> omega

theorem DayFromYear_mono {a b : ℤ} (h : a ≤ b) : DayFromYear a ≤ DayFromYear b := by
  unfold DayFromYear
  omega

theorem yearScan_spec (d : ℤ) : ∀ (fuel : Nat) (y : ℤ), DayFromYear y ≤ d →
    d < DayFromYear (y + fuel) →
    DayFromYear (yearScan d fuel y) ≤ d ∧ d < DayFromYear (yearScan d fuel y + 1) := by
  intro fuel
  induction fuel with
  | zero =>
    intro y h1 h2
    simp at h2
    omega
  | succ n ih =>
    intro y h1 h2
    unfold yearScan
    by_cases hc : DayFromYear (y + 1) ≤ d
    · rw [if_pos hc]
      apply ih (y + 1) hc
      have : y + 1 + (n : ℤ) = y + ((n + 1 : ℕ) : ℤ) := by push_cast; ring
      rw [this]; exact h2
    · rw [if_neg hc]
      exact ⟨h1, not_le.mp hc⟩

theorem YearFromDay_spec (d : ℤ) :
    DayFromYear (YearFromDay d) ≤ d ∧ d < DayFromYear (YearFromDay d + 1) := by
  unfold YearFromDay
  apply yearScan_spec
  · unfold DayFromYear; omega
  · have := DayFromYear_add_400 (2000 + 400 * ((d - 10957) / 146097))
    simp only [Nat.cast_ofNat]
    rw [this]
    unfold DayFromYear; omega

theorem YearFromDay_eq {d y : ℤ} (h1 : DayFromYear y ≤ d) (h2 : d < DayFromYear (y + 1)) :
    YearFromDay d = y := by
  obtain ⟨s1, s2⟩ := YearFromDay_spec d
  by_contra hne
  rcases lt_or_gt_of_ne hne with hlt | hgt
  · have := DayFromYear_mono (show YearFromDay d + 1 ≤ y by omega)
    omega
  · have := DayFromYear_mono (show y + 1 ≤ YearFromDay d by omega)
    omega
theorem leapDays_eq (y : ℤ) : (leapDays y = 0 ∨ leapDays y = 1) ∧ DaysInYear y = 365 + leapDays y := by
  unfold leapDays DaysInYear
  split_ifs <;> omega

theorem Day_MakeDate {d r : ℤ} (h0 : 0 ≤ r) (h1 : r < msPerDay) :
    Day (MakeDate d r) = d ∧ TimeWithinDay (MakeDate d r) = r := by
  unfold Day TimeWithinDay MakeDate msPerDay at *
  omega

theorem TimeWithinDay_range (t : ℤ) : 0 ≤ TimeWithinDay t ∧ TimeWithinDay t < msPerDay := by
  unfold TimeWithinDay msPerDay
  omega


theorem monthStart_0 (l : ℤ) : monthStart l 0 = 0 := rfl
theorem monthStart_1 (l : ℤ) : monthStart l 1 = 31 := rfl
theorem monthStart_2 (l : ℤ) : monthStart l 2 = 59 + l := rfl
theorem monthStart_3 (l : ℤ) : monthStart l 3 = 90 + l := rfl
theorem monthStart_4 (l : ℤ) : monthStart l 4 = 120 + l := rfl
theorem monthStart_5 (l : ℤ) : monthStart l 5 = 151 + l := rfl
theorem monthStart_6 (l : ℤ) : monthStart l 6 = 181 + l := rfl
theorem monthStart_7 (l : ℤ) : monthStart l 7 = 212 + l := rfl
theorem monthStart_8 (l : ℤ) : monthStart l 8 = 243 + l := rfl
theorem monthStart_9 (l : ℤ) : monthStart l 9 = 273 + l := rfl
theorem monthStart_10 (l : ℤ) : monthStart l 10 = 304 + l := rfl
theorem monthStart_11 (l : ℤ) : monthStart l 11 = 334 + l := rfl
theorem monthLength_0 (l : ℤ) : monthLength l 0 = 31 := rfl
theorem monthLength_1 (l : ℤ) : monthLength l 1 = 28 + l := rfl
theorem monthLength_2 (l : ℤ) : monthLength l 2 = 31 := rfl
theorem monthLength_3 (l : ℤ) : monthLength l 3 = 30 := rfl
theorem monthLength_4 (l : ℤ) : monthLength l 4 = 31 := rfl
theorem monthLength_5 (l : ℤ) : monthLength l 5 = 30 := rfl
theorem monthLength_6 (l : ℤ) : monthLength l 6 = 31 := rfl
theorem monthLength_7 (l : ℤ) : monthLength l 7 = 31 := rfl
theorem monthLength_8 (l : ℤ) : monthLength l 8 = 30 := rfl
theorem monthLength_9 (l : ℤ) : monthLength l 9 = 31 := rfl
theorem monthLength_10 (l : ℤ) : monthLength l 10 = 30 := rfl
theorem monthLength_11 (l : ℤ) : monthLength l 11 = 31 := rfl


theorem month_cases {m : ℤ} (hm0 : 0 ≤ m) (hm1 : m ≤ 11) :
    m = 0 ∨ m = 1 ∨ m = 2 ∨ m = 3 ∨ m = 4 ∨ m = 5 ∨ m = 6 ∨ m = 7 ∨ m = 8 ∨ m = 9 ∨
      m = 10 ∨ m = 11 := by omega


theorem monthOfYearDay_0 {l x : ℤ} (_hl : 0 ≤ l) (h1 : x < 31) :
    monthOfYearDay l x = 0 := by
  unfold monthOfYearDay
  rw [if_pos h1]

theorem monthOfYearDay_1 {l x : ℤ} (_hl : 0 ≤ l) (h0 : 31 ≤ x) (h1 : x < 59 + l) :
    monthOfYearDay l x = 1 := by
  unfold monthOfYearDay
  rw [if_neg (by omega), if_pos h1]

theorem monthOfYearDay_2 {l x : ℤ} (hl : 0 ≤ l) (h0 : 59 + l ≤ x) (h1 : x < 90 + l) :
    monthOfYearDay l x = 2 := by
  unfold monthOfYearDay
  rw [if_neg (by omega), if_neg (by omega), if_pos h1]

theorem monthOfYearDay_3 {l x : ℤ} (hl : 0 ≤ l) (h0 : 90 + l ≤ x) (h1 : x < 120 + l) :
    monthOfYearDay l x = 3 := by
  unfold monthOfYearDay
  rw [if_neg (by omega), if_neg (by omega), if_neg (by omega), if_pos h1]

theorem monthOfYearDay_4 {l x : ℤ} (hl : 0 ≤ l) (h0 : 120 + l ≤ x) (h1 : x < 151 + l) :
    monthOfYearDay l x = 4 := by
  unfold monthOfYearDay
  rw [if_neg (by omega), if_neg (by omega), if_neg (by omega), if_neg (by omega), if_pos h1]

theorem monthOfYearDay_5 {l x : ℤ} (hl : 0 ≤ l) (h0 : 151 + l ≤ x) (h1 : x < 181 + l) :
    monthOfYearDay l x = 5 := by
  unfold monthOfYearDay
  rw [if_neg (by omega), if_neg (by omega), if_neg (by omega), if_neg (by omega), if_neg (by omega), if_pos h1]

theorem monthOfYearDay_6 {l x : ℤ} (hl : 0 ≤ l) (h0 : 181 + l ≤ x) (h1 : x < 212 + l) :
    monthOfYearDay l x = 6 := by
  unfold monthOfYearDay
  rw [if_neg (by omega), if_neg (by omega), if_neg (by omega), if_neg (by omega), if_neg (by omega), if_neg (by omega), if_pos h1]

theorem monthOfYearDay_7 {l x : ℤ} (hl : 0 ≤ l) (h0 : 212 + l ≤ x) (h1 : x < 243 + l) :
    monthOfYearDay l x = 7 := by
  unfold monthOfYearDay
  rw [if_neg (by omega), if_neg (by omega), if_neg (by omega), if_neg (by omega), if_neg (by omega), if_neg (by omega), if_neg (by omega), if_pos h1]

theorem monthOfYearDay_8 {l x : ℤ} (hl : 0 ≤ l) (h0 : 243 + l ≤ x) (h1 : x < 273 + l) :
    monthOfYearDay l x = 8 := by
  unfold monthOfYearDay
  rw [if_neg (by omega), if_neg (by omega), if_neg (by omega), if_neg (by omega), if_neg (by omega), if_neg (by omega), if_neg (by omega), if_neg (by omega), if_pos h1]

theorem monthOfYearDay_9 {l x : ℤ} (hl : 0 ≤ l) (h0 : 273 + l ≤ x) (h1 : x < 304 + l) :
    monthOfYearDay l x = 9 := by
  unfold monthOfYearDay
  rw [if_neg (by omega), if_neg (by omega), if_neg (by omega), if_neg (by omega), if_neg (by omega), if_neg (by omega), if_neg (by omega), if_neg (by omega), if_neg (by omega), if_pos h1]

theorem monthOfYearDay_10 {l x : ℤ} (hl : 0 ≤ l) (h0 : 304 + l ≤ x) (h1 : x < 334 + l) :
    monthOfYearDay l x = 10 := by
  unfold monthOfYearDay
  rw [if_neg (by omega), if_neg (by omega), if_neg (by omega), if_neg (by omega), if_neg (by omega), if_neg (by omega), if_neg (by omega), if_neg (by omega), if_neg (by omega), if_neg (by omega), if_pos h1]

theorem monthOfYearDay_11 {l x : ℤ} (hl : 0 ≤ l) (h0 : 334 + l ≤ x) :
    monthOfYearDay l x = 11 := by
  unfold monthOfYearDay
  rw [if_neg (by omega), if_neg (by omega), if_neg (by omega), if_neg (by omega), if_neg (by omega), if_neg (by omega), if_neg (by omega), if_neg (by omega), if_neg (by omega), if_neg (by omega), if_neg (by omega)]

theorem monthOfYearDay_monthStart {l m dd : ℤ} (hl0 : 0 ≤ l) (hl1 : l ≤ 1) (hm0 : 0 ≤ m)
    (hm1 : m ≤ 11) (hd0 : 1 ≤ dd) (hd1 : dd ≤ monthLength l m) :
    monthOfYearDay l (monthStart l m + dd - 1) = m ∧
      0 ≤ monthStart l m + dd - 1 ∧ monthStart l m + dd - 1 < 365 + l := by
  rcases month_cases hm0 hm1 with h | h | h | h | h | h | h | h | h | h | h | h
  · subst h
    rw [monthLength_0] at hd1
    rw [monthStart_0]
    exact ⟨monthOfYearDay_0 hl0 (by omega), by omega, by omega⟩
  · subst h
    rw [monthLength_1] at hd1
    rw [monthStart_1]
    exact ⟨monthOfYearDay_1 hl0 (by omega) (by omega), by omega, by omega⟩
  · subst h
    rw [monthLength_2] at hd1
    rw [monthStart_2]
    exact ⟨monthOfYearDay_2 hl0 (by omega) (by omega), by omega, by omega⟩
  · subst h
    rw [monthLength_3] at hd1
    rw [monthStart_3]
    exact ⟨monthOfYearDay_3 hl0 (by omega) (by omega), by omega, by omega⟩
  · subst h
    rw [monthLength_4] at hd1
    rw [monthStart_4]
    exact ⟨monthOfYearDay_4 hl0 (by omega) (by omega), by omega, by omega⟩
  · subst h
    rw [monthLength_5] at hd1
    rw [monthStart_5]
    exact ⟨monthOfYearDay_5 hl0 (by omega) (by omega), by omega, by omega⟩
  · subst h
    rw [monthLength_6] at hd1
    rw [monthStart_6]
    exact ⟨monthOfYearDay_6 hl0 (by omega) (by omega), by omega, by omega⟩
  · subst h
    rw [monthLength_7] at hd1
    rw [monthStart_7]
    exact ⟨monthOfYearDay_7 hl0 (by omega) (by omega), by omega, by omega⟩
  · subst h
    rw [monthLength_8] at hd1
    rw [monthStart_8]
    exact ⟨monthOfYearDay_8 hl0 (by omega) (by omega), by omega, by omega⟩
  · subst h
    rw [monthLength_9] at hd1
    rw [monthStart_9]
    exact ⟨monthOfYearDay_9 hl0 (by omega) (by omega), by omega, by omega⟩
  · subst h
    rw [monthLength_10] at hd1
    rw [monthStart_10]
    exact ⟨monthOfYearDay_10 hl0 (by omega) (by omega), by omega, by omega⟩
  · subst h
    rw [monthLength_11] at hd1
    rw [monthStart_11]
    exact ⟨monthOfYearDay_11 hl0 (by omega) , by omega, by omega⟩

theorem monthOfYearDay_range {l x : ℤ} (hl0 : 0 ≤ l) (h0 : 0 ≤ x) (h1 : x < 365 + l) :
    0 ≤ monthOfYearDay l x ∧ monthOfYearDay l x ≤ 11 ∧
    1 ≤ x - monthStart l (monthOfYearDay l x) + 1 ∧
    x - monthStart l (monthOfYearDay l x) + 1 ≤ monthLength l (monthOfYearDay l x) := by
  by_cases c0 : x < 31
  · rw [monthOfYearDay_0 hl0 c0, monthStart_0, monthLength_0]
    omega
  by_cases c1 : x < 59 + l
  · rw [monthOfYearDay_1 hl0 (by omega) c1, monthStart_1, monthLength_1]
    omega
  by_cases c2 : x < 90 + l
  · rw [monthOfYearDay_2 hl0 (by omega) c2, monthStart_2, monthLength_2]
    omega
  by_cases c3 : x < 120 + l
  · rw [monthOfYearDay_3 hl0 (by omega) c3, monthStart_3, monthLength_3]
    omega
  by_cases c4 : x < 151 + l
  · rw [monthOfYearDay_4 hl0 (by omega) c4, monthStart_4, monthLength_4]
    omega
  by_cases c5 : x < 181 + l
  · rw [monthOfYearDay_5 hl0 (by omega) c5, monthStart_5, monthLength_5]
    omega
  by_cases c6 : x < 212 + l
  · rw [monthOfYearDay_6 hl0 (by omega) c6, monthStart_6, monthLength_6]
    omega
  by_cases c7 : x < 243 + l
  · rw [monthOfYearDay_7 hl0 (by omega) c7, monthStart_7, monthLength_7]
    omega
  by_cases c8 : x < 273 + l
  · rw [monthOfYearDay_8 hl0 (by omega) c8, monthStart_8, monthLength_8]
    omega
  by_cases c9 : x < 304 + l
  · rw [monthOfYearDay_9 hl0 (by omega) c9, monthStart_9, monthLength_9]
    omega
  by_cases c10 : x < 334 + l
  · rw [monthOfYearDay_10 hl0 (by omega) c10, monthStart_10, monthLength_10]
    omega
  rw [monthOfYearDay_11 hl0 (by omega), monthStart_11, monthLength_11]
  omega

theorem monthStart_succ {l m : ℤ} (hm0 : 0 ≤ m) (hm1 : m ≤ 10) :
    monthStart l (m + 1) = monthStart l m + monthLength l m := by
  rcases month_cases hm0 (show m ≤ 11 by omega) with
    h | h | h | h | h | h | h | h | h | h | h | h
  · subst h
    rw [show (((0 : ℤ)) + 1) = 1 from rfl, monthStart_0, monthStart_1, monthLength_0]
    omega
  · subst h
    rw [show (((1 : ℤ)) + 1) = 2 from rfl, monthStart_1, monthStart_2, monthLength_1]
    omega
  · subst h
    rw [show (((2 : ℤ)) + 1) = 3 from rfl, monthStart_2, monthStart_3, monthLength_2]
    omega
  · subst h
    rw [show (((3 : ℤ)) + 1) = 4 from rfl, monthStart_3, monthStart_4, monthLength_3]
    omega
  · subst h
    rw [show (((4 : ℤ)) + 1) = 5 from rfl, monthStart_4, monthStart_5, monthLength_4]
    omega
  · subst h
    rw [show (((5 : ℤ)) + 1) = 6 from rfl, monthStart_5, monthStart_6, monthLength_5]
    omega
  · subst h
    rw [show (((6 : ℤ)) + 1) = 7 from rfl, monthStart_6, monthStart_7, monthLength_6]
    omega
  · subst h
    rw [show (((7 : ℤ)) + 1) = 8 from rfl, monthStart_7, monthStart_8, monthLength_7]
    omega
  · subst h
    rw [show (((8 : ℤ)) + 1) = 9 from rfl, monthStart_8, monthStart_9, monthLength_8]
    omega
  · subst h
    rw [show (((9 : ℤ)) + 1) = 10 from rfl, monthStart_9, monthStart_10, monthLength_9]
    omega
  · subst h
    rw [show (((10 : ℤ)) + 1) = 11 from rfl, monthStart_10, monthStart_11, monthLength_10]
    omega
  · omega


theorem fields_of_MakeDate {y m : ℤ} (dd tod : ℤ) (hm0 : 0 ≤ m) (hm1 : m ≤ 11) (hd0 : 1 ≤ dd)
    (hd1 : dd ≤ DaysInMonth y m) (h0 : 0 ≤ tod) (h1 : tod < msPerDay) :
    YearFromTime (MakeDate (DayFromYear y + monthStart (leapDays y) m + dd - 1) tod) = y ∧
    MonthFromTime (MakeDate (DayFromYear y + monthStart (leapDays y) m + dd - 1) tod) = m ∧
    DateFromTime (MakeDate (DayFromYear y + monthStart (leapDays y) m + dd - 1) tod) = dd ∧
    TimeWithinDay (MakeDate (DayFromYear y + monthStart (leapDays y) m + dd - 1) tod) = tod := by
  obtain ⟨hD, hT⟩ := Day_MakeDate (d := DayFromYear y + monthStart (leapDays y) m + dd - 1) h0 h1
  obtain ⟨hl, hdy⟩ := leapDays_eq y
  obtain ⟨hmo, hr0, hr1⟩ := monthOfYearDay_monthStart (l := leapDays y) (by omega) (by omega)
    hm0 hm1 hd0 hd1
  have hsucc := DayFromYear_succ y
  have hy : YearFromTime (MakeDate (DayFromYear y + monthStart (leapDays y) m + dd - 1) tod)
      = y := by
    unfold YearFromTime
    rw [hD]
    exact YearFromDay_eq (by omega) (by omega)
  have hw : DayWithinYear (MakeDate (DayFromYear y + monthStart (leapDays y) m + dd - 1) tod)
      = monthStart (leapDays y) m + dd - 1 := by
    unfold DayWithinYear
    rw [hy, hD]
    omega
  have hmon : MonthFromTime (MakeDate (DayFromYear y + monthStart (leapDays y) m + dd - 1) tod)
      = m := by
    unfold MonthFromTime
    rw [hy, hw]
    exact hmo
  refine ⟨hy, hmon, ?_, hT⟩
  unfold DateFromTime
  rw [hmon, hy, hw]
  omega

theorem fields_range (t : ℤ) :
    0 ≤ MonthFromTime t ∧ MonthFromTime t ≤ 11 ∧ 1 ≤ DateFromTime t ∧
      DateFromTime t ≤ DaysInMonth (YearFromTime t) (MonthFromTime t) := by
  obtain ⟨s1, s2⟩ := YearFromDay_spec (Day t)
  obtain ⟨hl, hdy⟩ := leapDays_eq (YearFromDay (Day t))
  have hsucc := DayFromYear_succ (YearFromDay (Day t))
  have hr := monthOfYearDay_range (l := leapDays (YearFromTime t)) (x := DayWithinYear t)
    (by unfold YearFromTime; omega) (by unfold DayWithinYear YearFromTime; omega)
    (by unfold DayWithinYear YearFromTime; omega)
  unfold MonthFromTime DateFromTime DaysInMonth MonthFromTime
  exact hr

theorem monthLength_bounds {l : ℤ} (m : ℤ) (hl0 : 0 ≤ l) (hl1 : l ≤ 1) :
    28 ≤ monthLength l m ∧ monthLength l m ≤ 31 := by
  unfold monthLength
  split_ifs <;> omega

theorem setMonthLocal_fields (tl mm : ℤ) :
    TimeWithinDay (setMonthLocal tl mm) = TimeWithinDay tl ∧
    (DateFromTime tl ≤ DaysInMonth (YearFromTime tl + mm / 12) (mm % 12) →
      YearFromTime (setMonthLocal tl mm) = YearFromTime tl + mm / 12 ∧
      MonthFromTime (setMonthLocal tl mm) = mm % 12 ∧
      DateFromTime (setMonthLocal tl mm) = DateFromTime tl) ∧
    (DaysInMonth (YearFromTime tl + mm / 12) (mm % 12) < DateFromTime tl →
      YearFromTime (setMonthLocal tl mm) = YearFromTime tl + mm / 12 ∧
      MonthFromTime (setMonthLocal tl mm) = mm % 12 + 1 ∧
      DateFromTime (setMonthLocal tl mm)
          = DateFromTime tl - DaysInMonth (YearFromTime tl + mm / 12) (mm % 12)) := by
  have hloc : setMonthLocal tl mm
      = MakeDate
          (DayFromYear (YearFromTime tl + mm / 12)
            + monthStart (leapDays (YearFromTime tl + mm / 12)) (mm % 12)
            + DateFromTime tl - 1)
          (TimeWithinDay tl) := rfl
  rw [hloc]
  obtain ⟨hm0, hm1, hd0, hd1⟩ := fields_range tl
  obtain ⟨ht0, ht1⟩ := TimeWithinDay_range tl
  generalize hy : YearFromTime tl + mm / 12 = y at *
  generalize hm : mm % 12 = m at *
  generalize hdd : DateFromTime tl = dd at *
  generalize htod : TimeWithinDay tl = tod at *
  have hm0' : 0 ≤ m := by omega
  have hm1' : m ≤ 11 := by omega
  obtain ⟨hl, -⟩ := leapDays_eq y
  obtain ⟨hl2, -⟩ := leapDays_eq (YearFromTime tl)
  have hb := monthLength_bounds (l := leapDays (YearFromTime tl)) (MonthFromTime tl)
    (by omega) (by omega)
  have hb' := monthLength_bounds (l := leapDays y) m (by omega) (by omega)
  have hdd31 : dd ≤ 31 := by unfold DaysInMonth at hd1; omega
  refine ⟨?_, ?_, ?_⟩
  · exact (Day_MakeDate ht0 ht1).2
  · intro hc
    obtain ⟨a, b, c, -⟩ := fields_of_MakeDate dd tod hm0' hm1' hd0 hc ht0 ht1
    exact ⟨a, b, c⟩
  · intro hc
    have hm10 : m ≤ 10 := by
      by_contra h
      have : m = 11 := by omega
      subst this
      unfold DaysInMonth at hc
      rw [monthLength_11] at hc
      omega
    have hs := monthStart_succ (l := leapDays y) hm0' hm10
    have hb'' := monthLength_bounds (l := leapDays y) (m + 1) (by omega) (by omega)
    have heq : DayFromYear y + monthStart (leapDays y) m + dd - 1
        = DayFromYear y + monthStart (leapDays y) (m + 1) + (dd - DaysInMonth y m) - 1 := by
      unfold DaysInMonth; omega
    rw [heq]
    obtain ⟨a, b, c, -⟩ := fields_of_MakeDate (y := y) (m := m + 1) (dd - DaysInMonth y m)
      tod (by omega) (by omega) (by omega) (by unfold DaysInMonth at *; omega) ht0 ht1
    exact ⟨a, b, c⟩

theorem LocalTime_UTC {z : Zone} {x : ℤ} (h : z.offsetAt (UTC z x) = z.offsetOfLocal x) :
    LocalTime z (UTC z x) = x := by
  unfold LocalTime
  rw [h]
  unfold UTC
  omega

theorem LocalTime_UTC_fixed (k x : ℤ) :
    (Zone.fixed k).offsetAt (UTC (Zone.fixed k) x) = (Zone.fixed k).offsetOfLocal x := rfl

/-! ## The end of the eligibility window -/

/-- C8 (evaluation at the failing input): a donation on 31 August 2023 (UTC)
stores `nextEligibleDate` 2 March 2024, while six calendar months later clipped
to the month's last day is 29 February 2024. -/
theorem august_donation_not_clipped :
    isoDate 1693440000000 = "2023-08-31" ∧
    (findDonor (recordDonation env0 donorStore 7 (.num 1) (.at 1693440000000)).2.donors 7).map
        (fun d => d.nextEligibleDate) = some (some 1709337600000) ∧
    isoDate 1709337600000 = "2024-03-02" ∧
    clippedSixMonthsAfter env0.tza 1693440000000 = 1709164800000 ∧
    isoDate 1709164800000 = "2024-02-29" ∧
    (findDonor (recordDonation env0 donorStore 7 (.num 1) (.at 1693440000000)).2.donors 7).map
        (fun d => d.nextEligibleDate)
      ≠ some (some (clippedSixMonthsAfter env0.tza 1693440000000)) := by
  have h1 : (findDonor (recordDonation env0 donorStore 7 (.num 1)
      (.at 1693440000000)).2.donors 7).map (fun d => d.nextEligibleDate)
      = some (some 1709337600000) := by decide
  have h2 : clippedSixMonthsAfter env0.tza 1693440000000 = 1709164800000 := by decide
  refine ⟨by decide, h1, by decide, h2, by decide, ?_⟩
  rw [h1, h2]
  decide

/-! ## Numbers as `parseInt` reads them -/

theorem leadingDigit_scale : ∀ (k fuel : Nat) (a : ℚ), k < fuel →
    (∀ j < k, a * 10 ^ j < 1) → 1 ≤ a * 10 ^ k → leadingDigit fuel a = ⌊a * 10 ^ k⌋ := by
  intro k
  induction k with
  | zero =>
    intro fuel a hk _ h1
    obtain ⟨n, rfl⟩ : ∃ n, fuel = n + 1 := ⟨fuel - 1, by omega⟩
    rw [leadingDigit]
    simp only [pow_zero, mul_one] at h1 ⊢
    rw [if_pos h1]
  | succ k ih =>
    intro fuel a hk hlt h1
    obtain ⟨n, rfl⟩ : ∃ n, fuel = n + 1 := ⟨fuel - 1, by omega⟩
    rw [leadingDigit]
    have h0 : ¬ 1 ≤ a := by
      have := hlt 0 (by omega)
      simpa using this
    rw [if_neg h0]
    have e : ∀ j : Nat, a * 10 * 10 ^ j = a * 10 ^ (j + 1) := by
      intro j; rw [pow_succ]; ring
    rw [ih n (a * 10) (by omega)
      (by intro j hj; rw [e]; exact hlt (j + 1) (by omega))
      (by rw [e]; exact h1), e]

theorem leadingDigitDown_scale : ∀ (k fuel : Nat) (a : ℚ), k < fuel →
    (∀ j < k, 10 ≤ a / 10 ^ j) → a / 10 ^ k < 10 → leadingDigitDown fuel a = ⌊a / 10 ^ k⌋ := by
  intro k
  induction k with
  | zero =>
    intro fuel a hk _ h1
    obtain ⟨n, rfl⟩ : ∃ n, fuel = n + 1 := ⟨fuel - 1, by omega⟩
    rw [leadingDigitDown]
    simp only [pow_zero, div_one] at h1 ⊢
    rw [if_pos h1]
  | succ k ih =>
    intro fuel a hk hlt h1
    obtain ⟨n, rfl⟩ : ∃ n, fuel = n + 1 := ⟨fuel - 1, by omega⟩
    rw [leadingDigitDown]
    have h0 : ¬ a < 10 := by
      have := hlt 0 (by omega)
      simpa using this
    rw [if_neg h0]
    have e : ∀ j : Nat, a / 10 / 10 ^ j = a / 10 ^ (j + 1) := by
      intro j; rw [div_div, pow_succ, mul_comm]
    rw [ih n (a / 10) (by omega)
      (by intro j hj; rw [e]; exact hlt (j + 1) (by omega))
      (by rw [e]; exact h1), e]

theorem numberToInt_of_ge {q : ℚ} (h : 1 / 1000000 ≤ q) (h1 : q < 1000000000000000000000) :
    numberToInt q = ⌊q⌋ := by
  have hq : 0 < q := lt_of_lt_of_le (by norm_num) h
  unfold numberToInt truncQ
  rw [abs_of_pos hq, if_neg (by intro hc; exact absurd h (not_le.mpr hc.2)),
    if_neg (not_le.mpr h1), if_pos (le_of_lt hq)]

theorem numberToInt_small : numberToInt (1 / 2000000) = 5 := by
  have habs : |(1 / 2000000 : ℚ)| = 1 / 2000000 := abs_of_pos (by norm_num)
  unfold numberToInt
  rw [habs, if_pos (by norm_num), if_neg (by norm_num), one_mul]
  have hfuel : (7 : ℕ) < (⌈(1 : ℚ) / (1 / 2000000)⌉).toNat := by
    have : (1 : ℚ) / (1 / 2000000) = ((2000000 : ℤ) : ℚ) := by norm_num
    rw [this, Int.ceil_intCast]
    decide
  rw [leadingDigit_scale 7 _ _ hfuel
    (by intro j hj; interval_cases j <;> norm_num)
    (by norm_num)]
  have : (1 / 2000000 : ℚ) * 10 ^ 7 = ((5 : ℤ) : ℚ) := by norm_num
  rw [this, Int.floor_intCast]

theorem numberToInt_sextillion : numberToInt 1000000000000000000000 = 1 := by
  have habs : |(1000000000000000000000 : ℚ)| = 1000000000000000000000 :=
    abs_of_pos (by norm_num)
  unfold numberToInt
  rw [habs, if_neg (by norm_num), if_pos (le_refl _), if_neg (by norm_num), one_mul]
  have hfuel : (21 : ℕ) < (⌈(1000000000000000000000 : ℚ)⌉).toNat := by
    have : (1000000000000000000000 : ℚ) = ((1000000000000000000000 : ℤ) : ℚ) := by norm_num
    rw [this, Int.ceil_intCast]
    decide
  rw [leadingDigitDown_scale 21 _ _ hfuel
    (by intro j hj; interval_cases j <;> norm_num)
    (by norm_num)]
  have : (1000000000000000000000 : ℚ) / 10 ^ 21 = ((1 : ℤ) : ℚ) := by norm_num
  rw [this, Int.floor_intCast]

theorem truncQ_intCast (n : ℤ) : truncQ (n : ℚ) = n := by
  unfold truncQ
  split
  · exact Int.floor_intCast n
  · exact Int.ceil_intCast n

theorem numberToInt_intCast (n : ℤ) (h : |n| < 1000000000000000000000) :
    numberToInt (n : ℚ) = n := by
  have hq : |(n : ℚ)| < 1000000000000000000000 := by
    rw [← Int.cast_abs]
    exact_mod_cast h
  unfold numberToInt
  rw [if_neg, if_neg (not_le.mpr hq), truncQ_intCast]
  rintro ⟨h0, h1⟩
  have hn : n ≠ 0 := by
    rintro rfl
    simp at h0
  have : (1 : ℚ) ≤ |(n : ℚ)| := by
    rw [← Int.cast_abs]
    exact_mod_cast Int.one_le_abs hn
  linarith

theorem toDouble_sextillion : toDouble 1000000000000000000000 = 1000000000000000000000 := by
  have h := toDouble_near (q := 1000000000000000000000) (e := 69) (m := 7629394531250000)
    (by norm_num [abs_of_pos]) (by norm_num [abs_of_pos]) (by norm_num)
    (by rw [abs_lt]; constructor <;> norm_num)
  rw [h]
  norm_num

theorem toDouble_sextillion_pred :
    toDouble (1000000000000000000000 + -1) = 1000000000000000000000 := by
  have h := toDouble_near (q := 1000000000000000000000 + -1) (e := 69) (m := 7629394531250000)
    (by norm_num [abs_of_pos]) (by norm_num [abs_of_pos]) (by norm_num)
    (by rw [abs_lt]; constructor <;> norm_num)
  rw [h]
  norm_num

/-! ## Additions and removals of numeric units -/

theorem findStock_incStock {inv : List InventoryEntry} {bt : String} {e : InventoryEntry}
    (k : ℚ) (now : ℤ) (h : findStock inv bt = some e) :
    findStock (incStock bt k now inv) bt
      = some { e with units := toDouble (e.units + k), lastUpdated := now } := by
  induction inv with
  | nil => simp [findStock] at h
  | cons a as ih =>
    unfold findStock incStock at *
    rw [updateFirst]
    simp only [List.find?_cons] at h
    by_cases ha : a.bloodType = bt
    · simp only [ha, decide_True, Option.some.injEq] at h
      subst h
      simp [ha, List.find?_cons]
    · simp only [ha, decide_False] at h
      simp [ha, List.find?_cons, ih h]

theorem findStock_append_new {inv : List InventoryEntry} {bt : String} (x : InventoryEntry)
    (h : findStock inv bt = none) (hx : x.bloodType = bt) :
    findStock (inv ++ [x]) bt = some x := by
  unfold findStock at *
  rw [List.find?_append, h]
  simp [List.find?_cons, hx]

theorem inventory_guard_num {b : String} {q : ℚ} (hb : b ≠ "") (hq : 0 < q) :
    (!textTruthy (some b) || !(JSValue.num q).truthy
      || (JSValue.num q).toNumber.le (.fin 0)) = false := by
  have hne : q ≠ 0 := ne_of_gt hq
  simp [textTruthy, JSValue.truthy, JSValue.toNumber, JSNum.le, JSNum.lt, hb, hne, hq]

theorem inventoryAdd_num_some (env : Env) (s : Store) (b : String) (q : ℚ)
    (e : InventoryEntry) (hb : b ≠ "") (hq : 0 < q) (he : findStock s.inventory b = some e) :
    (inventoryAdd env s (some b) (.num q)).1.code = 200 ∧
    findStock (inventoryAdd env s (some b) (.num q)).2.inventory b
      = some { e with units := toDouble (e.units + toDouble (numberToInt q)),
                      lastUpdated := env.now } := by
  unfold inventoryAdd
  rw [inventory_guard_num hb hq]
  simp only [Bool.false_eq_true, if_false, parseInt10, Option.getD_some, he, Reply.code,
    true_and]
  exact findStock_incStock _ _ he

theorem inventoryAdd_num_none (env : Env) (s : Store) (b : String) (q : ℚ)
    (hb : b ≠ "") (hq : 0 < q) (he : findStock s.inventory b = none) :
    (inventoryAdd env s (some b) (.num q)).1.code = 200 ∧
    findStock (inventoryAdd env s (some b) (.num q)).2.inventory b
      = some { id := s.nextId, bloodType := b, units := toDouble (numberToInt q),
               lastUpdated := env.now } := by
  unfold inventoryAdd
  rw [inventory_guard_num hb hq]
  simp only [Bool.false_eq_true, if_false, parseInt10, Option.getD_some, he, Reply.code,
    true_and]
  exact findStock_append_new _ he rfl

theorem inventoryRemove_num_some (env : Env) (s : Store) (b : String) (q : ℚ)
    (e : InventoryEntry) (hb : b ≠ "") (hq : 0 < q)
    (he : findStock s.inventory b = some e) (hle : q ≤ e.units) :
    (inventoryRemove env s (some b) (.num q)).1.code = 200 ∧
    findStock (inventoryRemove env s (some b) (.num q)).2.inventory b
      = some { e with units := toDouble (e.units + -toDouble (numberToInt q)),
                      lastUpdated := env.now } := by
  have hnl : ¬ e.units < q := not_lt.mpr hle
  unfold inventoryRemove
  rw [inventory_guard_num hb hq]
  simp only [Option.getD_some, he, JSValue.toNumber, JSNum.lt, hnl, decide_False,
    Bool.false_eq_true, if_false, parseInt10, Reply.code, true_and]
  exact findStock_incStock _ _ he

theorem inventoryRemove_num_refused (env : Env) (s : Store) (b : String) (q : ℚ)
    (hb : b ≠ "") (hq : 0 < q) (hlt : unitsOf s.inventory b < q) :
    inventoryRemove env s (some b) (.num q)
      = (.message 400 "Not enough stock to remove.", s) := by
  unfold unitsOf at hlt
  unfold inventoryRemove
  rw [inventory_guard_num hb hq]
  cases he : findStock s.inventory b with
  | none => simp [he]
  | some e =>
    rw [he] at hlt
    simp [he, JSValue.toNumber, JSNum.lt, hlt]

theorem unitsOf_of_findStock {inv : List InventoryEntry} {b : String} {e : InventoryEntry}
    (h : findStock inv b = some e) : unitsOf inv b = e.units := by
  unfold unitsOf
  rw [h]

theorem toDouble_whole {n : ℤ} (h0 : 0 < n) (h1 : n ≤ 9007199254740992) :
    toDouble (n : ℚ) = n :=
  toDouble_intCast n (by rw [abs_of_pos h0]; exact h1)

theorem numberToInt_whole {n : ℤ} (h0 : 0 < n) (h1 : n ≤ 9007199254740992) :
    numberToInt (n : ℚ) = n :=
  numberToInt_intCast n (by rw [abs_of_pos h0]; omega)

/-! ## Deleting a pending request -/

/-- C11: for a stored request whose status is Pending, the delete is refused
with the invalid-state answer and the whole store is as before, so the request
is still there with status Pending. -/
theorem deleteRequest_pending_refused (s : Store) (id : Nat) (r : Request)
    (hr : findRequest s.requests id = some r) (hst : r.status = "Pending") :
    deleteRequest s id = (.message 400 "Only completed requests can be deleted.", s) ∧
    findRequest (deleteRequest s id).2.requests id = some r := by
  have hc : r.status ∉ completedStatuses := by
    rw [hst]; decide
  have h1 : deleteRequest s id
      = (.message 400 "Only completed requests can be deleted.", s) := by
    simp [deleteRequest, hr, hc]
  rw [h1]
  exact ⟨rfl, hr⟩

/-- The pending example request cannot be deleted. -/
theorem deleteRequest_pending_refused_witness :
    findRequest (exampleStore 3 "Pending").requests 1 = some exampleRequest ∧
    exampleRequest.status = "Pending" ∧
    (deleteRequest (exampleStore 3 "Pending") 1
        = (.message 400 "Only completed requests can be deleted.", exampleStore 3 "Pending") ∧
      findRequest (deleteRequest (exampleStore 3 "Pending") 1).2.requests 1
        = some exampleRequest) :=
  ⟨by decide, by decide,
    deleteRequest_pending_refused (exampleStore 3 "Pending") 1 exampleRequest
      (by decide) (by decide)⟩

/-! ## Inventory removal and addition of whole units -/

/-- C12 (counterexample): O+ holds 10^21 units and 10^21 units are removed.  The
removal is accepted, since the stock is not below the units, but the stock is
lowered by what `parseInt` reads of the units, whose text is `1e+21`: by 1,
and in double precision 10^21 - 1 is 10^21.  The entry is left with 10^21
units, not with 10^21 - 10^21 = 0. -/
theorem inventoryRemove_sextillion_units :
    (0 : ℤ) < 1000000000000000000000 ∧
    unitsOf (stockStore 1000000000000000000000).inventory "O+" = 1000000000000000000000 ∧
    (inventoryRemove env0 (stockStore 1000000000000000000000) (some "O+")
      (.num 1000000000000000000000)).1.code = 200 ∧
    unitsOf (inventoryRemove env0 (stockStore 1000000000000000000000) (some "O+")
      (.num 1000000000000000000000)).2.inventory "O+" = 1000000000000000000000 ∧
    unitsOf (inventoryRemove env0 (stockStore 1000000000000000000000) (some "O+")
      (.num 1000000000000000000000)).2.inventory "O+"
      ≠ unitsOf (stockStore 1000000000000000000000).inventory "O+"
        - 1000000000000000000000 := by
  have he : findStock (stockStore 1000000000000000000000).inventory "O+"
      = some { id := 0, bloodType := "O+", units := 1000000000000000000000,
               lastUpdated := 0 } := by decide
  have hu : unitsOf (stockStore 1000000000000000000000).inventory "O+"
      = 1000000000000000000000 := unitsOf_of_findStock he
  obtain ⟨r1, r2⟩ := inventoryRemove_num_some env0 (stockStore 1000000000000000000000) "O+"
    1000000000000000000000 _ (by decide) (by norm_num) he (le_refl _)
  have h1 : toDouble (((1 : ℤ) : ℚ)) = 1 := by
    simpa using toDouble_intCast 1 (by norm_num)
  have hr : unitsOf (inventoryRemove env0 (stockStore 1000000000000000000000) (some "O+")
      (.num 1000000000000000000000)).2.inventory "O+" = 1000000000000000000000 := by
    rw [unitsOf_of_findStock r2, numberToInt_sextillion, h1]
    exact toDouble_sextillion_pred
  refine ⟨by decide, hu, r1, hr, ?_⟩
  rw [hr, hu]
  norm_num

/-- C12 (amended): for every non-empty blood type `b` holding `s` units (0 when
it has no entry) and every integer `n` with `0 < n ≤ 2^53`, the removal of `n`
units is refused with the insufficient-stock answer and changes nothing when
`s < n`; and when `n ≤ s` and `s - n` is a whole number of magnitude at most
2^53, it answers 200 and leaves exactly `s - n` units. -/
theorem inventoryRemove_whole_units (env : Env) (s : Store) (b : String) (n : ℤ)
    (hb : b ≠ "") (hn : 0 < n) (hn1 : n ≤ 9007199254740992) :
    (unitsOf s.inventory b < n →
      inventoryRemove env s (some b) (.num n)
        = (.message 400 "Not enough stock to remove.", s)) ∧
    ((n : ℚ) ≤ unitsOf s.inventory b → wholeSafe (unitsOf s.inventory b - n) →
      (inventoryRemove env s (some b) (.num n)).1.code = 200 ∧
      unitsOf (inventoryRemove env s (some b) (.num n)).2.inventory b
        = unitsOf s.inventory b - n) := by
  have hq : (0 : ℚ) < (n : ℚ) := by exact_mod_cast hn
  refine ⟨inventoryRemove_num_refused env s b n hb hq, ?_⟩
  intro hle hw
  cases he : findStock s.inventory b with
  | none =>
    unfold unitsOf at hle
    rw [he] at hle
    exact absurd hle (not_le.mpr hq)
  | some e =>
    rw [unitsOf_of_findStock he] at hle hw ⊢
    obtain ⟨r1, r2⟩ := inventoryRemove_num_some env s b n e hb hq he hle
    refine ⟨r1, ?_⟩
    rw [unitsOf_of_findStock r2, numberToInt_whole hn hn1, toDouble_whole hn hn1]
    simp only
    rw [← sub_eq_add_neg]
    exact toDouble_of_wholeSafe hw

/-- Scenario A, second half: with O+ at 5 units, removing 6 is refused and
changes nothing, and removing 5 succeeds and leaves 5 - 5 units. -/
theorem inventoryRemove_whole_units_witness :
    ("O+" : String) ≠ "" ∧ (0 : ℤ) < 6 ∧ (0 : ℤ) < 5 ∧
    (6 : ℤ) ≤ 9007199254740992 ∧ (5 : ℤ) ≤ 9007199254740992 ∧
    unitsOf scenarioAStore.inventory "O+" < ((6 : ℤ) : ℚ) ∧
    ((5 : ℤ) : ℚ) ≤ unitsOf scenarioAStore.inventory "O+" ∧
    wholeSafe (unitsOf scenarioAStore.inventory "O+" - ((5 : ℤ) : ℚ)) ∧
    inventoryRemove env0 scenarioAStore (some "O+") (.num ((6 : ℤ) : ℚ))
      = (.message 400 "Not enough stock to remove.", scenarioAStore) ∧
    ((inventoryRemove env0 scenarioAStore (some "O+") (.num ((5 : ℤ) : ℚ))).1.code = 200 ∧
      unitsOf (inventoryRemove env0 scenarioAStore (some "O+")
          (.num ((5 : ℤ) : ℚ))).2.inventory "O+"
        = unitsOf scenarioAStore.inventory "O+" - ((5 : ℤ) : ℚ)) :=
  have hw : wholeSafe (unitsOf scenarioAStore.inventory "O+" - ((5 : ℤ) : ℚ)) :=
    ⟨0, by norm_num [unitsOf, findStock, scenarioAStore], by norm_num⟩
  ⟨by decide, by decide, by decide, by decide, by decide,
    by norm_num [unitsOf, findStock, scenarioAStore],
    by norm_num [unitsOf, findStock, scenarioAStore], hw,
    (inventoryRemove_whole_units env0 scenarioAStore "O+" 6 (by decide) (by decide)
      (by decide)).1 (by norm_num [unitsOf, findStock, scenarioAStore]),
    (inventoryRemove_whole_units env0 scenarioAStore "O+" 5 (by decide) (by decide)
      (by decide)).2 (by norm_num [unitsOf, findStock, scenarioAStore]) hw⟩

/-- C13 (counterexample): O+ holds 5 units and 10^21 units are added.  The
addition answers 200, but the stock is raised by what `parseInt` reads of the
units, whose text is `1e+21`: by 1.  The entry is left with 6 units, not with
5 + 10^21. -/
theorem inventoryAdd_sextillion_units :
    (0 : ℤ) < 1000000000000000000000 ∧
    unitsOf scenarioAStore.inventory "O+" = 5 ∧
    (inventoryAdd env0 scenarioAStore (some "O+") (.num 1000000000000000000000)).1.code
      = 200 ∧
    unitsOf (inventoryAdd env0 scenarioAStore (some "O+")
      (.num 1000000000000000000000)).2.inventory "O+" = 6 ∧
    unitsOf (inventoryAdd env0 scenarioAStore (some "O+")
      (.num 1000000000000000000000)).2.inventory "O+"
      ≠ unitsOf scenarioAStore.inventory "O+" + 1000000000000000000000 := by
  have he : findStock scenarioAStore.inventory "O+"
      = some { id := 0, bloodType := "O+", units := 5, lastUpdated := 0 } := by decide
  have hu : unitsOf scenarioAStore.inventory "O+" = 5 := unitsOf_of_findStock he
  obtain ⟨a1, a2⟩ := inventoryAdd_num_some env0 scenarioAStore "O+"
    1000000000000000000000 _ (by decide) (by norm_num) he
  have h1 : toDouble (((1 : ℤ) : ℚ)) = 1 := by
    simpa using toDouble_intCast 1 (by norm_num)
  have h6 : toDouble ((5 : ℚ) + 1) = 6 := by
    have h := toDouble_intCast 6 (by norm_num)
    have e : ((5 : ℚ) + 1) = ((6 : ℤ) : ℚ) := by norm_num
    rw [e, h]
    norm_num
  have hr : unitsOf (inventoryAdd env0 scenarioAStore (some "O+")
      (.num 1000000000000000000000)).2.inventory "O+" = 6 := by
    rw [unitsOf_of_findStock a2, numberToInt_sextillion, h1]
    exact h6
  refine ⟨by decide, hu, a1, hr, ?_⟩
  rw [hr, hu]
  norm_num

/-- C13 (amended): for every non-empty blood type `b` holding `s` units (0 when
it has no entry yet) and every integer `n` with `0 < n ≤ 2^53` such that
`s + n` is a whole number of magnitude at most 2^53, the addition of `n`
answers 200 and leaves an entry for `b` with exactly `s + n` units; and an
addition whose units are missing, zero or negative is refused with the
invalid-argument answer and changes nothing. -/
theorem inventoryAdd_whole_units (env : Env) (s : Store) (b : String) (n : ℤ) (q : ℚ)
    (hb : b ≠ "") (hn : 0 < n) (hn1 : n ≤ 9007199254740992)
    (hw : wholeSafe (unitsOf s.inventory b + n)) (hq : q ≤ 0) :
    ((inventoryAdd env s (some b) (.num n)).1.code = 200 ∧
      (findStock (inventoryAdd env s (some b) (.num n)).2.inventory b).isSome = true ∧
      unitsOf (inventoryAdd env s (some b) (.num n)).2.inventory b
        = unitsOf s.inventory b + n) ∧
    inventoryAdd env s (some b) .undefined = (.text 400 "Invalid data provided.", s) ∧
    inventoryAdd env s (some b) (.num q) = (.text 400 "Invalid data provided.", s) := by
  have hnq : (0 : ℚ) < (n : ℚ) := by exact_mod_cast hn
  refine ⟨?_, ?_, ?_⟩
  · cases he : findStock s.inventory b with
    | some e =>
      rw [unitsOf_of_findStock he] at hw ⊢
      obtain ⟨a1, a2⟩ := inventoryAdd_num_some env s b n e hb hnq he
      refine ⟨a1, by rw [a2]; rfl, ?_⟩
      rw [unitsOf_of_findStock a2, numberToInt_whole hn hn1, toDouble_whole hn hn1]
      exact toDouble_of_wholeSafe hw
    | none =>
      obtain ⟨a1, a2⟩ := inventoryAdd_num_none env s b n hb hnq he
      refine ⟨a1, by rw [a2]; rfl, ?_⟩
      rw [unitsOf_of_findStock a2, numberToInt_whole hn hn1, toDouble_whole hn hn1]
      unfold unitsOf
      rw [he]
      simp
  · simp [inventoryAdd, JSValue.truthy]
  · have : JSNum.le (.fin q) (.fin 0) = true := by
      simp [JSNum.le, JSNum.lt, not_lt.mpr hq]
    simp [inventoryAdd, JSValue.toNumber, this]

/-- Scenario A, first half: O+ has no stock yet; adding 5 leaves 5 units, and
adding 0 is refused. -/
theorem inventoryAdd_whole_units_witness :
    ("O+" : String) ≠ "" ∧ (0 : ℤ) < 5 ∧ (5 : ℤ) ≤ 9007199254740992 ∧
    wholeSafe (unitsOf emptyStore.inventory "O+" + ((5 : ℤ) : ℚ)) ∧ (0 : ℚ) ≤ 0 ∧
    (((inventoryAdd env0 emptyStore (some "O+") (.num ((5 : ℤ) : ℚ))).1.code = 200 ∧
      (findStock (inventoryAdd env0 emptyStore (some "O+")
          (.num ((5 : ℤ) : ℚ))).2.inventory "O+").isSome = true ∧
      unitsOf (inventoryAdd env0 emptyStore (some "O+") (.num ((5 : ℤ) : ℚ))).2.inventory "O+"
        = unitsOf emptyStore.inventory "O+" + ((5 : ℤ) : ℚ)) ∧
    inventoryAdd env0 emptyStore (some "O+") .undefined
      = (.text 400 "Invalid data provided.", emptyStore) ∧
    inventoryAdd env0 emptyStore (some "O+") (.num 0)
      = (.text 400 "Invalid data provided.", emptyStore)) :=
  have hw : wholeSafe (unitsOf emptyStore.inventory "O+" + ((5 : ℤ) : ℚ)) :=
    ⟨5, by norm_num [unitsOf, findStock, emptyStore], by norm_num⟩
  ⟨by decide, by decide, by decide, hw, le_refl 0,
    inventoryAdd_whole_units env0 emptyStore "O+" 5 0 (by decide) (by decide) (by decide) hw
      (le_refl 0)⟩

/-! ## Status updates other than approval -/

/-- C14: for a stored request in any prior status and every target status other
than Approved, the update answers 200, the request is stored with the target
status, and the inventory is as before. -/
theorem updateRequest_other_status (env : Env) (s : Store) (id : Nat) (r : Request)
    (status : String)
    (hr : findRequest s.requests id = some r) (hst : status ≠ "Approved") :
    (updateRequest env s id status).1
      = .message 200 ("Request status updated to " ++ status ++ "!") ∧
    findRequest (updateRequest env s id status).2.requests id
      = some { r with status := status } ∧
    (updateRequest env s id status).2.inventory = s.inventory := by
  have hid : r.id = id := findRequest_id hr
  simp only [updateRequest, hr, hst, false_and, if_false, ne_eq, not_false_eq_true, if_true,
    true_and, and_true]
  exact findRequest_saveRequest hr (x := { r with status := status }) hid

/-- Rejecting the approved example request: stored as Rejected, stock as before. -/
theorem updateRequest_other_status_witness :
    findRequest (exampleStore 3 "Approved").requests 1
      = some { exampleRequest with status := "Approved" } ∧
    ("Rejected" : String) ≠ "Approved" ∧
    ((updateRequest env0 (exampleStore 3 "Approved") 1 "Rejected").1
      = .message 200 ("Request status updated to " ++ "Rejected" ++ "!") ∧
    findRequest (updateRequest env0 (exampleStore 3 "Approved") 1 "Rejected").2.requests 1
      = some { ({ exampleRequest with status := "Approved" } : Request) with
               status := "Rejected" } ∧
    (updateRequest env0 (exampleStore 3 "Approved") 1 "Rejected").2.inventory
      = (exampleStore 3 "Approved").inventory) :=
  ⟨by decide, by decide,
    updateRequest_other_status env0 (exampleStore 3 "Approved") 1
      { exampleRequest with status := "Approved" } "Rejected" (by decide) (by decide)⟩

/-! ## Identity uniqueness -/

theorem findDonorByAadhaar_isSome {ds : List Donor} {a : String}
    (h : ∃ d ∈ ds, d.aadhaar = some a) : ∃ x, findDonorByAadhaar ds a = some x := by
  obtain ⟨d, hd, hda⟩ := h
  cases hf : findDonorByAadhaar ds a with
  | some x => exact ⟨x, rfl⟩
  | none =>
    unfold findDonorByAadhaar at hf
    have := List.find?_eq_none.mp hf d hd
    simp [hda] at this

theorem findDonorByAadhaar_none {ds : List Donor} {a : String}
    (h : ∀ d ∈ ds, d.aadhaar ≠ some a) : findDonorByAadhaar ds a = none := by
  unfold findDonorByAadhaar
  apply List.find?_eq_none.mpr
  intro d hd
  simpa using h d hd

/-- C19 (counterexample): on the empty store, where no donor holds the identity ID
of the body, a creation whose body has no name adds no donor: `save()` refuses
the document, the answer is 500 and the store is as before. -/
theorem donorsCreate_refuses_incomplete_body :
    (∀ d ∈ emptyStore.donors, d.aadhaar ≠ some namelessBody.aadhaar) ∧
    namelessBody.aadhaar = "1234" ∧ namelessBody.name = none ∧
    donorsCreate emptyStore namelessBody
      = (.message 500 "Failed to create donor", emptyStore) ∧
    (donorsCreate emptyStore namelessBody).2.donors = [] := by
  have hrun : donorsCreate emptyStore namelessBody
      = (.message 500 "Failed to create donor", emptyStore) := by decide
  refine ⟨by simp [emptyStore], rfl, rfl, hrun, ?_⟩
  rw [hrun]
  rfl

/-- C19 (amended): admin donor creation is refused with the conflict answer and
changes nothing when a donor with the identity ID exists; otherwise, when the
body fills in every required field (identity ID, name, email, phone, blood
type and address not empty, age and weight present), it answers 200 and
appends exactly one donor, with that identity ID, no donations, no points and
status Eligible, and identity IDs that were unique across the store stay
unique. -/
theorem donorsCreate_conflict_or_one_new (s : Store) (b : DonorBody) :
    ((∃ d ∈ s.donors, d.aadhaar = some b.aadhaar) →
      donorsCreate s b = (.message 400 "Donor with this Aadhaar already exists", s)) ∧
    ((∀ d ∈ s.donors, d.aadhaar ≠ some b.aadhaar) → b.complete = true →
      ∃ d, (donorsCreate s b).1 = .registered "Donor registered successfully" d ∧
        (donorsCreate s b).2.donors = s.donors ++ [d] ∧
        d.aadhaar = some b.aadhaar ∧ d.totalDonations = 0 ∧ d.points = 0 ∧
        d.status = "Eligible" ∧
        (aadhaarUnique s → aadhaarUnique (donorsCreate s b).2)) := by
  constructor
  · intro h
    obtain ⟨x, hx⟩ := findDonorByAadhaar_isSome h
    simp [donorsCreate, hx]
  · intro h hc
    have hn := findDonorByAadhaar_none h
    have hv : Donor.valid
        { defaultDonor s.nextId with
          aadhaar := some b.aadhaar, name := b.name, email := b.email, phone := b.phone,
          bloodType := b.bloodType, address := b.address, age := b.age, weight := b.weight,
          donateConsent := "Yes" } = true := by
      simpa [Donor.valid, DonorBody.complete, textTruthy] using hc
    refine ⟨{ defaultDonor s.nextId with
          aadhaar := some b.aadhaar, name := b.name, email := b.email, phone := b.phone,
          bloodType := b.bloodType, address := b.address, age := b.age, weight := b.weight,
          totalDonations := 0, points := 0,
          lastDonation := if textTruthy b.lastDonation then b.lastDonation.getD "" else "Never",
          status := "Eligible", donateConsent := "Yes" }, ?_, ?_, ?_, ?_, ?_, ?_, ?_⟩
    · simp only [donorsCreate, hn, hv, if_true]
    · simp only [donorsCreate, hn, hv, if_true]
    · rfl
    · rfl
    · rfl
    · rfl
    · intro hu
      unfold aadhaarUnique at *
      simp only [donorsCreate, hn, hv, if_true, List.filterMap_append, List.filterMap_cons,
        List.filterMap_nil]
      refine List.Nodup.append hu (List.nodup_singleton _) ?_
      intro a ha1 ha2
      simp only [List.mem_singleton] at ha2
      subst ha2
      obtain ⟨d, hd, hda⟩ := List.mem_filterMap.mp ha1
      exact h d hd hda

/-- Registering the example identity in the empty store adds one donor; in the
store that already holds it, the registration is refused. -/
theorem donorsCreate_conflict_or_one_new_witness :
    (∃ d ∈ donorStore.donors, d.aadhaar = some exampleBody.aadhaar) ∧
    donorsCreate donorStore exampleBody
      = (.message 400 "Donor with this Aadhaar already exists", donorStore) ∧
    (∀ d ∈ emptyStore.donors, d.aadhaar ≠ some exampleBody.aadhaar) ∧
    exampleBody.complete = true ∧
    (∃ d, (donorsCreate emptyStore exampleBody).1
          = .registered "Donor registered successfully" d ∧
        (donorsCreate emptyStore exampleBody).2.donors = emptyStore.donors ++ [d] ∧
        d.aadhaar = some exampleBody.aadhaar ∧ d.totalDonations = 0 ∧ d.points = 0 ∧
        d.status = "Eligible" ∧
        (aadhaarUnique emptyStore → aadhaarUnique (donorsCreate emptyStore exampleBody).2)) :=
  ⟨⟨exampleDonor, by simp [donorStore], rfl⟩,
    (donorsCreate_conflict_or_one_new donorStore exampleBody).1
      ⟨exampleDonor, by simp [donorStore], rfl⟩,
    by simp [emptyStore], by decide,
    (donorsCreate_conflict_or_one_new emptyStore exampleBody).2 (by simp [emptyStore])
      (by decide)⟩

/-- C20 (counterexample): a donor that is not linked to caller 42 holds the empty
text as identity ID, and caller 42 sends a patch whose identity ID is the
empty text.  The handler looks for another holder only when the identity ID of
the patch is truthy, so the lookup is skipped and the answer is not the
conflict answer. -/
theorem updateProfile_empty_identity_not_refused :
    emptyIdPatch.aadhaar = some "" ∧
    (∃ d ∈ emptyIdStore.donors, d.aadhaar = emptyIdPatch.aadhaar ∧ d.userId ≠ some 42) ∧
    textTruthy emptyIdPatch.aadhaar = false ∧
    (updateProfile emptyIdStore 42 emptyIdPatch).1
      ≠ .message 409 "Aadhaar already in use by another profile" ∧
    (updateProfile emptyIdStore 42 emptyIdPatch).1.code ≠ 409 := by
  refine ⟨rfl, ⟨emptyIdDonor, by simp [emptyIdStore], rfl, by decide⟩, rfl, ?_, ?_⟩
  · simp [updateProfile, emptyIdPatch, textTruthy]
    split <;> simp
  · simp [updateProfile, emptyIdPatch, textTruthy]
    split <;> simp [Reply.code]

/-- C20 (amended): for every caller `uid` and every profile patch whose identity
ID `a` is not the empty text and is held by a donor that is not linked to the
caller, the profile update is refused with the conflict answer and the whole
store, hence every donor, is as before. -/
theorem updateProfile_conflict (s : Store) (uid : Nat) (p : ProfilePatch) (a : String)
    (hp : p.aadhaar = some a) (ha : a ≠ "")
    (hex : ∃ d ∈ s.donors, d.aadhaar = some a ∧ d.userId ≠ some uid) :
    updateProfile s uid p = (.message 409 "Aadhaar already in use by another profile", s) := by
  obtain ⟨d, hd, hda, hdu⟩ := hex
  have hfind : (s.donors.find?
      (fun d => decide (d.aadhaar = p.aadhaar ∧ d.userId ≠ some uid))).isSome = true := by
    cases hf : s.donors.find? (fun d => decide (d.aadhaar = p.aadhaar ∧ d.userId ≠ some uid)) with
    | some x => rfl
    | none =>
      have := List.find?_eq_none.mp hf d hd
      simp [hp, hda, hdu] at this
  have htr : textTruthy p.aadhaar = true := by
    simp [hp, textTruthy, ha]
  unfold updateProfile
  rw [if_pos ⟨htr, hfind⟩]

/-- The example donor is linked to no account; caller 42 patching its identity
ID onto an own profile is refused. -/
theorem updateProfile_conflict_witness :
    examplePatch.aadhaar = some "1234" ∧ ("1234" : String) ≠ "" ∧
    (∃ d ∈ donorStore.donors, d.aadhaar = some "1234" ∧ d.userId ≠ some 42) ∧
    updateProfile donorStore 42 examplePatch
      = (.message 409 "Aadhaar already in use by another profile", donorStore) :=
  ⟨rfl, by decide, ⟨exampleDonor, by simp [donorStore], rfl, by decide⟩,
    updateProfile_conflict donorStore 42 examplePatch "1234" rfl (by decide)
      ⟨exampleDonor, by simp [donorStore], rfl, by decide⟩⟩

/-! ## The potential-donor filter -/

theorem isPotentialDonor_iff (parse : String → Option ℤ) (env : Env) (d : Donor) :
    isPotentialDonor parse env d = true ↔
      d.donateConsent ≠ "No" ∧
      ((d.lastDonation = "" ∨ d.lastDonation = "Never") ∨
        parse d.lastDonation = none ∨
        (∃ n, d.nextEligibleDate = some n ∧ n ≤ env.now) ∨
        (∃ ld, parse d.lastDonation = some ld ∧ ld ≤ sixMonthsBefore env.tza env.now)) := by
  unfold isPotentialDonor
  by_cases hc : d.donateConsent = "No"
  · simp [hc]
  · by_cases hn : d.lastDonation = "" ∨ d.lastDonation = "Never"
    · simp [hc, hn]
    · rw [if_neg hc, if_neg hn]
      cases hp : parse d.lastDonation with
      | none => simp [hc]
      | some ld =>
        cases hx : d.nextEligibleDate with
        | none => simp [hc, hn]
        | some next =>
          by_cases hle : next ≤ env.now
          · simp [hc, hle]
          · simp [hc, hn, hle]

/-- C15 (counterexample): the profile update stores whatever consent text the
body carries.  The donor it creates on the empty store for the patch with
consent `Maybe` has never donated and is kept by the filter, although its
consent is not Yes. -/
theorem isPotentialDonor_keeps_other_consent :
    (updateProfile emptyStore 42 maybePatch).2.donors = [maybeDonor] ∧
    maybeDonor.donateConsent = "Maybe" ∧ maybeDonor.donateConsent ≠ "Yes" ∧
    maybeDonor.lastDonation = "Never" ∧
    isPotentialDonor exampleParse env0 maybeDonor = true := by
  exact ⟨by decide, rfl, by decide, rfl, by decide⟩

/-- C15 (amended): for every donor and every current time, the filter keeps the
donor exactly when its consent is not No and the donor never donated, or
`lastDonation` is not a date, or `nextEligibleDate` is set and at or before
now, or `lastDonation` is at or before the threshold; a donor with consent No
is never kept.  The threshold is the instant of the local time `x` that has
the time of day of now and lies six months before the month of now: on the
day of the month of now when that month has such a day, and otherwise in the
month after it, on the day that many days past its end. -/
theorem isPotentialDonor_spec (parse : String → Option ℤ) (env : Env) (d : Donor) :
    (isPotentialDonor parse env d = true ↔
      d.donateConsent ≠ "No" ∧
      ((d.lastDonation = "" ∨ d.lastDonation = "Never") ∨
        parse d.lastDonation = none ∨
        (∃ n, d.nextEligibleDate = some n ∧ n ≤ env.now) ∨
        (∃ ld, parse d.lastDonation = some ld ∧ ld ≤ sixMonthsBefore env.tza env.now))) ∧
    (d.donateConsent = "No" → isPotentialDonor parse env d = false) ∧
    (∃ x,
      sixMonthsBefore env.tza env.now = UTC env.tza x ∧
      TimeWithinDay x = TimeWithinDay (LocalTime env.tza env.now) ∧
      (DateFromTime (LocalTime env.tza env.now)
          ≤ DaysInMonth
              (YearFromTime (LocalTime env.tza env.now)
                + (MonthFromTime (LocalTime env.tza env.now) - 6) / 12)
              ((MonthFromTime (LocalTime env.tza env.now) - 6) % 12) →
        YearFromTime x
            = YearFromTime (LocalTime env.tza env.now)
              + (MonthFromTime (LocalTime env.tza env.now) - 6) / 12 ∧
        MonthFromTime x = (MonthFromTime (LocalTime env.tza env.now) - 6) % 12 ∧
        DateFromTime x = DateFromTime (LocalTime env.tza env.now)) ∧
      (DaysInMonth
            (YearFromTime (LocalTime env.tza env.now)
              + (MonthFromTime (LocalTime env.tza env.now) - 6) / 12)
            ((MonthFromTime (LocalTime env.tza env.now) - 6) % 12)
          < DateFromTime (LocalTime env.tza env.now) →
        YearFromTime x
            = YearFromTime (LocalTime env.tza env.now)
              + (MonthFromTime (LocalTime env.tza env.now) - 6) / 12 ∧
        MonthFromTime x = (MonthFromTime (LocalTime env.tza env.now) - 6) % 12 + 1 ∧
        DateFromTime x
            = DateFromTime (LocalTime env.tza env.now)
              - DaysInMonth
                  (YearFromTime (LocalTime env.tza env.now)
                    + (MonthFromTime (LocalTime env.tza env.now) - 6) / 12)
                  ((MonthFromTime (LocalTime env.tza env.now) - 6) % 12))) := by
  refine ⟨isPotentialDonor_iff parse env d, ?_, ?_⟩
  · intro hno
    simp [isPotentialDonor, hno]
  · exact ⟨setMonthLocal (LocalTime env.tza env.now)
        (MonthFromTime (LocalTime env.tza env.now) - 6), rfl,
      setMonthLocal_fields (LocalTime env.tza env.now)
        (MonthFromTime (LocalTime env.tza env.now) - 6)⟩

/-- Scenario E: consent No and `lastDonation` Never is excluded, while the
consenting example donor, who never donated, is kept; and on 2023-08-31 in UTC
the threshold is 2023-03-03, since February 2023 has no day 31. -/
theorem isPotentialDonor_spec_witness :
    optedOutDonor.donateConsent = "No" ∧ optedOutDonor.lastDonation = "Never" ∧
    isPotentialDonor exampleParse env0 optedOutDonor = false ∧
    isPotentialDonor exampleParse env0 exampleDonor = true ∧
    isoDate 1693440000000 = "2023-08-31" ∧
    sixMonthsBefore (Zone.fixed 0) 1693440000000 = 1677801600000 ∧
    isoDate 1677801600000 = "2023-03-03" :=
  ⟨rfl, rfl,
    (isPotentialDonor_spec exampleParse env0 optedOutDonor).2.1 rfl,
    (isPotentialDonor_spec exampleParse env0 exampleDonor).1.mpr
      ⟨by decide, Or.inl (Or.inr rfl)⟩,
    by decide, by decide, by decide⟩

/-! ## The potential-donor aggregation -/

theorem keys_bump_of_mem {k : String} {l : List (String × Nat)}
    (h : k ∈ l.map Prod.fst) : (bump k l).map Prod.fst = l.map Prod.fst := by
  induction l with
  | nil => simp at h
  | cons a as ih =>
    obtain ⟨key, v⟩ := a
    rw [bump]
    by_cases hk : key = k
    · simp [hk]
    · have : k ∈ as.map Prod.fst := by
        simp only [List.map_cons, List.mem_cons] at h
        rcases h with h | h
        · exact absurd h.symm hk
        · exact h
      simp [hk, ih this]

theorem keys_bump_of_not_mem {k : String} {l : List (String × Nat)}
    (h : k ∉ l.map Prod.fst) : (bump k l).map Prod.fst = l.map Prod.fst ++ [k] := by
  induction l with
  | nil => simp [bump]
  | cons a as ih =>
    obtain ⟨key, v⟩ := a
    rw [bump]
    simp only [List.map_cons, List.mem_cons, not_or] at h
    have hk : ¬ key = k := fun e => h.1 e.symm
    simp [hk, ih h.2]

theorem nodup_keys_bump {k : String} {l : List (String × Nat)}
    (h : (l.map Prod.fst).Nodup) : ((bump k l).map Prod.fst).Nodup := by
  by_cases hk : k ∈ l.map Prod.fst
  · rw [keys_bump_of_mem hk]; exact h
  · rw [keys_bump_of_not_mem hk]
    refine List.Nodup.append h (List.nodup_singleton _) ?_
    intro a ha1 ha2
    simp only [List.mem_singleton] at ha2
    subst ha2
    exact hk ha1

theorem keys_subset_bump (k : String) (l : List (String × Nat)) :
    ∀ x ∈ l.map Prod.fst, x ∈ (bump k l).map Prod.fst := by
  intro x hx
  by_cases hk : k ∈ l.map Prod.fst
  · rw [keys_bump_of_mem hk]; exact hx
  · rw [keys_bump_of_not_mem hk]; exact List.mem_append_left _ hx

theorem valueAt_bump (k x : String) (l : List (String × Nat)) :
    valueAt x (bump k l) = valueAt x l + (if k = x then 1 else 0) := by
  induction l with
  | nil =>
    by_cases hkx : k = x
    · simp [bump, valueAt, hkx]
    · simp [bump, valueAt, hkx]
  | cons a as ih =>
    obtain ⟨key, v⟩ := a
    rw [bump]
    by_cases hk : key = k
    · by_cases hkx : k = x
      · subst hk; subst hkx; simp [valueAt]
      · have : ¬ key = x := by rw [hk]; exact hkx
        simp [hk, valueAt, hkx]
    · by_cases hx : key = x
      · subst hx
        have : ¬ k = key := fun e => hk e.symm
        simp [hk, valueAt, this]
      · simp [hk, valueAt, hx, ih]

theorem valueAt_of_mem {k : String} {v : Nat} {l : List (String × Nat)}
    (hn : (l.map Prod.fst).Nodup) (h : (k, v) ∈ l) : valueAt k l = v := by
  induction l with
  | nil => simp at h
  | cons a as ih =>
    obtain ⟨key, w⟩ := a
    simp only [List.map_cons, List.nodup_cons] at hn
    rcases List.mem_cons.mp h with h1 | h1
    · injection h1 with h2 h3
      subst h2; subst h3
      simp [valueAt]
    · have hne : ¬ key = k := by
        intro e
        apply hn.1
        rw [e]
        exact List.mem_map.mpr ⟨(k, v), h1, rfl⟩
      simp [valueAt, hne, ih hn.2 h1]

theorem foldl_bump_spec (key : Donor → String) (ds : List Donor) :
    ∀ agg : List (String × Nat), (agg.map Prod.fst).Nodup →
      ((ds.foldl (fun acc d => bump (key d) acc) agg).map Prod.fst).Nodup ∧
      (∀ x ∈ agg.map Prod.fst, x ∈ (ds.foldl (fun acc d => bump (key d) acc) agg).map Prod.fst) ∧
      (∀ x, valueAt x (ds.foldl (fun acc d => bump (key d) acc) agg)
          = valueAt x agg + (ds.filter (fun d => decide (key d = x))).length) ∧
      ((∀ d ∈ ds, key d ∈ agg.map Prod.fst) →
        (ds.foldl (fun acc d => bump (key d) acc) agg).map Prod.fst = agg.map Prod.fst) := by
  induction ds with
  | nil => intro agg h; simp [h]
  | cons d ds ih =>
    intro agg h
    obtain ⟨i1, i2, i3, i4⟩ := ih (bump (key d) agg) (nodup_keys_bump h)
    simp only [List.foldl_cons]
    refine ⟨i1, ?_, ?_, ?_⟩
    · intro x hx
      exact i2 x (keys_subset_bump _ _ x hx)
    · intro x
      rw [i3 x, valueAt_bump, List.filter_cons]
      by_cases hkx : key d = x
      · simp [hkx]; omega
      · simp [hkx]
    · intro hall
      have hd : key d ∈ agg.map Prod.fst := hall d (List.mem_cons_self _ _)
      have hk := keys_bump_of_mem hd
      rw [i4 (by
        intro d' hd'
        rw [hk]
        exact hall d' (List.mem_cons_of_mem _ hd')), hk]

theorem valueAt_zeros (x : String) (l : List String) :
    valueAt x (l.map (fun bt => (bt, 0))) = 0 := by
  induction l with
  | nil => rfl
  | cons a as ih =>
    simp only [List.map_cons, valueAt]
    split
    · rfl
    · exact ih

theorem aggregate_spec (upper : String → String) (ds : List Donor) :
    ((aggregate upper ds).map Prod.fst).Nodup ∧
    (∀ x ∈ allBloodTypes, x ∈ (aggregate upper ds).map Prod.fst) ∧
    (∀ x, valueAt x (aggregate upper ds)
        = (ds.filter (fun d => decide (bloodTypeKey upper d = x))).length) ∧
    ((∀ d ∈ ds, bloodTypeKey upper d ∈ allBloodTypes) →
      (aggregate upper ds).map Prod.fst = allBloodTypes) := by
  have hkeys : (allBloodTypes.map (fun bt => (bt, 0))).map Prod.fst = allBloodTypes := by
    simp [List.map_map, Function.comp_def]
  have hnd : ((allBloodTypes.map (fun bt => (bt, 0))).map Prod.fst).Nodup := by
    rw [hkeys]; decide
  obtain ⟨n1, n2, n3, n4⟩ := foldl_bump_spec (bloodTypeKey upper) ds _ hnd
  unfold aggregate
  refine ⟨n1, ?_, ?_, ?_⟩
  · intro x hx
    exact n2 x (by rw [hkeys]; exact hx)
  · intro x
    rw [n3 x, valueAt_zeros, Nat.zero_add]
  · intro hall
    rw [n4 (by rw [hkeys]; exact hall), hkeys]

theorem potentialDonors_keys (parse : String → Option ℤ) (upper : String → String) (env : Env)
    (s : Store) :
    ((potentialDonors parse upper env s).map (fun e => e.bloodType)).Perm
      ((aggregate upper (s.donors.filter (isPotentialDonor parse env))).map Prod.fst) := by
  unfold potentialDonors
  rw [List.map_map]
  exact (List.mergeSort_perm _ _).map _

theorem mem_potentialDonors (parse : String → Option ℤ) (upper : String → String) (env : Env)
    (s : Store) {k : String} {v : Nat}
    (h : (k, v) ∈ aggregate upper (s.donors.filter (isPotentialDonor parse env))) :
    ({ bloodType := k, units := v, updatedAt := env.now } : PotentialEntry)
      ∈ potentialDonors parse upper env s := by
  unfold potentialDonors
  exact List.mem_map.mpr ⟨(k, v), (List.mergeSort_perm _ _).mem_iff.mpr h, rfl⟩

/-- C16 (counterexample): one consenting donor who never donated and whose blood
type is `Bombay` gives nine entries, the ninth under `BOMBAY`. -/
theorem potentialDonors_ninth_entry :
    rareTypeStore.donors.filter (isPotentialDonor exampleParse env0) = [rareTypeDonor] ∧
    (potentialDonors exampleParse upperAscii env0 rareTypeStore).length = 9 ∧
    ({ bloodType := "BOMBAY", units := 1, updatedAt := env0.now } : PotentialEntry)
      ∈ potentialDonors exampleParse upperAscii env0 rareTypeStore ∧
    "BOMBAY" ∉ allBloodTypes ∧
    ¬ ((potentialDonors exampleParse upperAscii env0 rareTypeStore).map
        (fun e => e.bloodType)).Perm allBloodTypes := by
  have hk : rareTypeStore.donors.filter (isPotentialDonor exampleParse env0)
      = [rareTypeDonor] := by decide
  have hagg : aggregate upperAscii [rareTypeDonor]
      = [("A+", 0), ("A-", 0), ("B+", 0), ("B-", 0), ("AB+", 0), ("AB-", 0), ("O+", 0),
         ("O-", 0), ("BOMBAY", 1)] := by decide
  have hlen : (potentialDonors exampleParse upperAscii env0 rareTypeStore).length = 9 := by
    have := (potentialDonors_keys exampleParse upperAscii env0 rareTypeStore).length_eq
    rw [List.length_map, hk, hagg] at this
    simpa using this
  refine ⟨hk, hlen, ?_, by decide, ?_⟩
  · apply mem_potentialDonors
    rw [hk, hagg]
    simp
  · intro hp
    have := hp.length_eq
    rw [List.length_map, hlen] at this
    simp [allBloodTypes] at this

/-- C16 (amended): for every donor collection the aggregation returns, for each
of the eight listed blood types, an entry whose count is the number of
potential donors under that type (0 when there is none), and no blood type
twice; when every potential donor's key is one of the eight, as in the empty
collection, the entries are exactly these eight. -/
theorem potentialDonors_lists_eight (parse : String → Option ℤ) (upper : String → String)
    (env : Env) (s : Store) :
    (∀ bt ∈ allBloodTypes, ∃ e ∈ potentialDonors parse upper env s,
      e.bloodType = bt ∧
      e.units = ((s.donors.filter (isPotentialDonor parse env)).filter
        (fun d => decide (bloodTypeKey upper d = bt))).length) ∧
    ((potentialDonors parse upper env s).map (fun e => e.bloodType)).Nodup ∧
    ((∀ d ∈ s.donors, isPotentialDonor parse env d = true →
        bloodTypeKey upper d ∈ allBloodTypes) →
      ((potentialDonors parse upper env s).map (fun e => e.bloodType)).Perm allBloodTypes ∧
      (potentialDonors parse upper env s).length = 8) := by
  obtain ⟨a1, a2, a3, a4⟩ :=
    aggregate_spec upper (s.donors.filter (isPotentialDonor parse env))
  have hp := potentialDonors_keys parse upper env s
  refine ⟨?_, ?_, ?_⟩
  · intro bt hbt
    obtain ⟨kv, hkv, hfst⟩ := List.mem_map.mp (a2 bt hbt)
    obtain ⟨k, v⟩ := kv
    simp only at hfst
    subst hfst
    refine ⟨_, mem_potentialDonors parse upper env s hkv, rfl, ?_⟩
    simp only
    rw [← a3 k, valueAt_of_mem a1 hkv]
  · exact hp.nodup_iff.mpr a1
  · intro hall
    have hkeys := a4 (by
      intro d hd
      obtain ⟨hd1, hd2⟩ := List.mem_filter.mp hd
      exact hall d hd1 hd2)
    rw [hkeys] at hp
    refine ⟨hp, ?_⟩
    have := hp.length_eq
    rw [List.length_map] at this
    rw [this]
    rfl

/-- The empty donor collection gives exactly the eight listed blood types. -/
theorem potentialDonors_lists_eight_witness :
    (∀ d ∈ emptyStore.donors, isPotentialDonor exampleParse env0 d = true →
      bloodTypeKey upperAscii d ∈ allBloodTypes) ∧
    (((potentialDonors exampleParse upperAscii env0 emptyStore).map
        (fun e => e.bloodType)).Perm allBloodTypes ∧
      (potentialDonors exampleParse upperAscii env0 emptyStore).length = 8) :=
  ⟨by simp [emptyStore],
    (potentialDonors_lists_eight exampleParse upperAscii env0 emptyStore).2.2
      (by simp [emptyStore])⟩

/-! ## The leaderboard -/

theorem leaderLe_iff (a b : DonorJson) : leaderLe a b = true ↔ b.totalDonations.getD 0 ≤ a.totalDonations.getD 0 := by
  unfold leaderLe
  rw [decide_eq_true_iff]
  omega

theorem leaderLe_trans (a b c : DonorJson) (h1 : leaderLe a b = true) (h2 : leaderLe b c = true) :
    leaderLe a c = true := by
  rw [leaderLe_iff] at *
  omega

theorem leaderLe_total (a b : DonorJson) : (leaderLe a b || leaderLe b a) = true := by
  rw [Bool.or_eq_true, leaderLe_iff, leaderLe_iff]
  omega

theorem leaderboard_donors (donors : List DonorJson) :
    (leaderboard donors).map (fun r => r.donor) = donors.mergeSort leaderLe := by
  unfold leaderboard
  rw [List.map_map]
  exact List.map_id _

/-- C17: for every list of donors, the leaderboard is a permutation of the list,
ordered by `totalDonations` non-increasing (a missing one counting as 0), and
the donors with any one `totalDonations` value appear in their order of the
input list. -/
theorem leaderboard_sorted_stable (donors : List DonorJson) :
    ((leaderboard donors).map (fun r => r.donor)).Perm donors ∧
    ((leaderboard donors).map (fun r => r.donor)).Pairwise
      (fun a b => b.totalDonations.getD 0 ≤ a.totalDonations.getD 0) ∧
    ∀ n : ℤ, ((leaderboard donors).map (fun r => r.donor)).filter
        (fun d => decide (d.totalDonations.getD 0 = n))
      = donors.filter (fun d => decide (d.totalDonations.getD 0 = n)) := by
  rw [leaderboard_donors]
  refine ⟨List.mergeSort_perm _ _, ?_, ?_⟩
  · have := List.sorted_mergeSort leaderLe_trans leaderLe_total donors
    exact this.imp (fun h => (leaderLe_iff _ _).mp h)
  · intro n
    have hsub : (donors.filter (fun d => decide (d.totalDonations.getD 0 = n))).Sublist
        (donors.mergeSort leaderLe) := by
      apply List.sublist_mergeSort leaderLe_trans leaderLe_total
      · rw [List.pairwise_iff_forall_sublist]
        intro a b hab
        have ha := hab.subset (List.mem_cons_self _ _)
        have hb := hab.subset (List.mem_cons_of_mem _ (List.mem_cons_self _ _))
        have ha2 := (List.mem_filter.mp ha).2
        have hb2 := (List.mem_filter.mp hb).2
        simp only [decide_eq_true_eq] at ha2 hb2
        rw [leaderLe_iff, ha2, hb2]
      · exact List.filter_sublist _
    have hsub2 := hsub.filter (fun d => decide (d.totalDonations.getD 0 = n))
    rw [List.filter_filter] at hsub2
    simp only [Bool.and_self] at hsub2
    have hlen := ((List.mergeSort_perm donors leaderLe).filter
      (fun d => decide (d.totalDonations.getD 0 = n))).length_eq
    exact (hsub2.eq_of_length hlen.symm).symm

/-- Four donors with 3, no, 12 and 3 donations are shown in the order 12, 3, 3,
none, the two donors with 3 donations in their order of the input. -/
theorem leaderboard_sorted_stable_witness :
    (leaderboard [firstThree, unknownDonor, silverDonor, secondThree]).map (fun r => r.donor)
      = [silverDonor, firstThree, secondThree, unknownDonor] ∧
    ((leaderboard [firstThree, unknownDonor, silverDonor, secondThree]).map
        (fun r => r.donor)).Perm [firstThree, unknownDonor, silverDonor, secondThree] ∧
    ((leaderboard [firstThree, unknownDonor, silverDonor, secondThree]).map
        (fun r => r.donor)).Pairwise
      (fun a b => b.totalDonations.getD 0 ≤ a.totalDonations.getD 0) ∧
    ((leaderboard [firstThree, unknownDonor, silverDonor, secondThree]).map
        (fun r => r.donor)).filter (fun d => decide (d.totalDonations.getD 0 = 3))
      = [firstThree, secondThree] :=
  ⟨by simp [leaderboard, List.mergeSort, List.splitInTwo, List.merge,
      leaderLe, firstThree, unknownDonor, silverDonor, secondThree],
    (leaderboard_sorted_stable [firstThree, unknownDonor, silverDonor, secondThree]).1,
    (leaderboard_sorted_stable [firstThree, unknownDonor, silverDonor, secondThree]).2.1,
    ((leaderboard_sorted_stable [firstThree, unknownDonor, silverDonor, secondThree]).2.2
      3).trans (by decide)⟩

/-- C18: every row of the leaderboard, for a donor with `totalDonations = n`
(a missing one counting as 0), carries `points = n * 100` whatever the stored
points are, and the badge Gold when `n ≥ 20`, Silver when `10 ≤ n < 20`, Bronze
when `5 ≤ n < 10` and Beginner when `n < 5`. -/
theorem leaderboard_points_badge (donors : List DonorJson) (row : LeaderRow)
    (h : row ∈ leaderboard donors) :
    row.points = row.donor.totalDonations.getD 0 * 100 ∧
    (20 ≤ row.donor.totalDonations.getD 0 → row.badge = "Gold") ∧
    (10 ≤ row.donor.totalDonations.getD 0 → row.donor.totalDonations.getD 0 < 20 → row.badge = "Silver") ∧
    (5 ≤ row.donor.totalDonations.getD 0 → row.donor.totalDonations.getD 0 < 10 → row.badge = "Bronze") ∧
    (row.donor.totalDonations.getD 0 < 5 → row.badge = "Beginner") := by
  unfold leaderboard at h
  obtain ⟨d, -, rfl⟩ := List.mem_map.mp h
  simp only [getBadge, ge_iff_le, true_and]
  refine ⟨?_, ?_, ?_, ?_⟩
  · intro h20
    rw [if_pos h20]
  · intro h10 h20
    rw [if_neg (by omega), if_pos h10]
  · intro h5 h10
    rw [if_neg (by omega), if_neg (by omega), if_pos h5]
  · intro h5
    rw [if_neg (by omega), if_neg (by omega), if_neg (by omega)]

/-- A donor with 12 donations and 7 stored points is shown with 1200 points and
the badge Silver. -/
theorem leaderboard_points_badge_witness :
    ({ donor := silverDonor, points := 1200, badge := "Silver" } : LeaderRow)
      ∈ leaderboard [silverDonor] ∧
    silverDonor.totalDonations.getD 0 = 12 ∧ silverDonor.points = some 7 ∧
    ((1200 : ℤ) = silverDonor.totalDonations.getD 0 * 100 ∧
    (20 ≤ silverDonor.totalDonations.getD 0 → "Silver" = "Gold") ∧
    (10 ≤ silverDonor.totalDonations.getD 0 → silverDonor.totalDonations.getD 0 < 20 → "Silver" = "Silver") ∧
    (5 ≤ silverDonor.totalDonations.getD 0 → silverDonor.totalDonations.getD 0 < 10 → "Silver" = "Bronze") ∧
    (silverDonor.totalDonations.getD 0 < 5 → "Silver" = "Beginner")) :=
  ⟨by simp [leaderboard, List.mergeSort, silverDonor, getBadge], rfl, rfl,
    leaderboard_points_badge [silverDonor]
      { donor := silverDonor, points := 1200, badge := "Silver" }
      (by simp [leaderboard, List.mergeSort, silverDonor, getBadge])⟩

/-! ## The ledger fields under self-service updates -/

theorem map_updateFirst_of_preserved {α β : Type} (g : α → β) (p : α → Bool) (f : α → α)
    (h : ∀ x, g (f x) = g x) (l : List α) : (updateFirst p f l).map g = l.map g := by
  induction l with
  | nil => rfl
  | cons a as ih =>
    rw [updateFirst]
    split
    · simp [h]
    · simp [ih]

/-- C21: for every store, caller and profile patch, and every photo upload, the
self-service update leaves `totalDonations`, `points`, `lastDonation`,
`status` and `nextEligibleDate` of every donor as they were: the donors after
the call carry the same ledger fields, in the same order, followed by the
caller's new profile with the defaults when the call inserts one, and by
nothing when the caller already had a profile. -/
theorem selfService_keeps_ledgerFields (s : Store) (uid : Nat) (p : ProfilePatch)
    (userEmail file : Option String) :
    (∃ extra, (updateProfile s uid p).2.donors.map ledgerFields
        = s.donors.map ledgerFields ++ extra ∧
      ((∃ d ∈ s.donors, d.userId = some uid) → extra = [])) ∧
    (∃ extra, (uploadPhoto s uid userEmail file).2.donors.map ledgerFields
        = s.donors.map ledgerFields ++ extra ∧
      ((∃ d ∈ s.donors, d.userId = some uid) → extra = [])) := by
  have hfind : (∃ d ∈ s.donors, d.userId = some uid) →
      s.donors.find? (fun d => decide (d.userId = some uid)) ≠ none := by
    rintro ⟨d, hd, hu⟩ hn
    have := List.find?_eq_none.mp hn d hd
    simp [hu] at this
  constructor
  · unfold updateProfile
    split
    · exact ⟨[], by simp, fun _ => rfl⟩
    · split
      · refine ⟨[], ?_, fun _ => rfl⟩
        rw [List.append_nil]
        exact map_updateFirst_of_preserved ledgerFields _ _ (fun _ => by rfl) _
      · rename_i hn
        refine ⟨[ledgerFields (applyPatch uid p (defaultDonor s.nextId))], ?_, ?_⟩
        · simp
        · intro hex
          exact absurd hn (hfind hex)
  · unfold uploadPhoto
    split
    · exact ⟨[], by simp, fun _ => rfl⟩
    · split
      · refine ⟨[], ?_, fun _ => rfl⟩
        rw [List.append_nil]
        exact map_updateFirst_of_preserved ledgerFields _ _ (fun _ => by rfl) _
      · rename_i hn
        refine ⟨[ledgerFields (defaultDonor s.nextId)], ?_, ?_⟩
        · simp [ledgerFields]
        · intro hex
          exfalso
          unfold photoTarget at hn
          cases hf : s.donors.find? (fun d => decide (d.userId = some uid)) with
          | none => exact hfind hex hf
          | some d => rw [hf] at hn; simp at hn

/-- The linked example donor, after one donation, sets a new name and uploads a
photo: the ledger fields of the store's donors are as before. -/
theorem selfService_keeps_ledgerFields_witness :
    (∃ d ∈ linkedStore.donors, d.userId = some 42) ∧
    (updateProfile linkedStore 42 examplePatch).2.donors.map ledgerFields
      = linkedStore.donors.map ledgerFields ∧
    (uploadPhoto linkedStore 42 none (some "a.png")).2.donors.map ledgerFields
      = linkedStore.donors.map ledgerFields := by
  have hex : ∃ d ∈ linkedStore.donors, d.userId = some 42 :=
    ⟨linkedDonor, by simp [linkedStore], rfl⟩
  obtain ⟨⟨e1, h1, h2⟩, ⟨e2, h3, h4⟩⟩ :=
    selfService_keeps_ledgerFields linkedStore 42 examplePatch none (some "a.png")
  rw [h2 hex, List.append_nil] at h1
  rw [h4 hex, List.append_nil] at h3
  exact ⟨hex, h1, h3⟩

/-! ## Approve, reject, approve again -/

/-- C24 (counterexample): for a request for 2 units that is already Approved and
a stock of 4, the sequence Approved, Rejected, Approved succeeds at each step
and leaves 2 units, not 4 - 2 * 2. -/
theorem approve_reject_approve_from_approved :
    findRequest (exampleStore 4 "Approved").requests 1
      = some { exampleRequest with status := "Approved" } ∧
    (0 : ℚ) < exampleRequest.units ∧
    2 * exampleRequest.units ≤ unitsOf (exampleStore 4 "Approved").inventory "AB-" ∧
    unitsOf (updateRequest env0 (updateRequest env0 (updateRequest env0
        (exampleStore 4 "Approved") 1 "Approved").2 1 "Rejected").2 1 "Approved").2.inventory
      "AB-" = 2 ∧
    unitsOf (updateRequest env0 (updateRequest env0 (updateRequest env0
        (exampleStore 4 "Approved") 1 "Approved").2 1 "Rejected").2 1 "Approved").2.inventory
      "AB-" ≠ unitsOf (exampleStore 4 "Approved").inventory "AB-" - 2 * exampleRequest.units := by
  have h0 : findRequest (exampleStore 4 "Approved").requests 1
      = some { exampleRequest with status := "Approved" } := by decide
  have h1 : updateRequest env0 (exampleStore 4 "Approved") 1 "Approved"
      = (.message 200 "Request is already approved.", exampleStore 4 "Approved") :=
    updateRequest_again_eq env0 _ 1 _ h0 rfl
  have h2 := updateRequest_other_eq env0 (exampleStore 4 "Approved") 1 _ "Rejected" h0
    (by decide)
  have h3 : findRequest (saveRequest (exampleStore 4 "Approved").requests
      { ({ exampleRequest with status := "Approved" } : Request) with status := "Rejected" }) 1
      = some { exampleRequest with status := "Rejected" } := by decide
  have h4 := updateRequest_approve_eq env0
    { exampleStore 4 "Approved" with
      requests := saveRequest (exampleStore 4 "Approved").requests
        { ({ exampleRequest with status := "Approved" } : Request) with status := "Rejected" } }
    1 { exampleRequest with status := "Rejected" } (exampleStock 4) h3 (by decide) (by decide)
    (by decide)
  have hd : toDouble ((exampleStock 4).units
      - ({ exampleRequest with status := "Rejected" } : Request).units) = 2 := by
    rw [toDouble_of_wholeSafe ⟨2, by norm_num [exampleStock, exampleRequest], by norm_num⟩]
    norm_num [exampleStock, exampleRequest]
  have hu : unitsOf (updateRequest env0 (updateRequest env0 (updateRequest env0
        (exampleStore 4 "Approved") 1 "Approved").2 1 "Rejected").2 1 "Approved").2.inventory
      "AB-" = 2 := by
    rw [h1, h2, h4, hd]
    norm_num [unitsOf, findStock, saveStock, exampleStore, exampleStock, exampleRequest]
  refine ⟨h0, by decide, by norm_num [unitsOf, findStock, exampleStore, exampleStock,
    exampleRequest], hu, ?_⟩
  rw [hu]
  norm_num [unitsOf, findStock, exampleStore, exampleStock, exampleRequest]

/-- C24 (amended): for a stored request that is not yet Approved, asking `u > 0`
units of a blood type whose entry holds `s ≥ 2u`, where `s - u` and `s - 2u`
are whole numbers of magnitude at most 2^53, the status sequence Approved,
Rejected, Approved answers 200 at each step and leaves the entry at `s - 2u`:
the rejection returns nothing and the second approval debits again. -/
theorem approve_reject_approve_debits_twice (env : Env) (s : Store) (id : Nat) (r : Request)
    (e : InventoryEntry)
    (hr : findRequest s.requests id = some r) (hst : r.status ≠ "Approved")
    (he : findStock s.inventory r.bloodType = some e) (hu : 0 < r.units)
    (hs : 2 * r.units ≤ e.units)
    (hw1 : wholeSafe (e.units - r.units)) (hw2 : wholeSafe (e.units - 2 * r.units)) :
    (updateRequest env s id "Approved").1.code = 200 ∧
    (updateRequest env (updateRequest env s id "Approved").2 id "Rejected").1.code = 200 ∧
    unitsOf (updateRequest env (updateRequest env s id "Approved").2 id "Rejected").2.inventory
      r.bloodType = e.units - r.units ∧
    (updateRequest env (updateRequest env (updateRequest env s id "Approved").2 id
      "Rejected").2 id "Approved").1.code = 200 ∧
    unitsOf (updateRequest env (updateRequest env (updateRequest env s id "Approved").2 id
      "Rejected").2 id "Approved").2.inventory r.bloodType = e.units - 2 * r.units := by
  have hid : r.id = id := findRequest_id hr
  have hbt : e.bloodType = r.bloodType := findStock_bloodType he
  have hd1 : toDouble (e.units - r.units) = e.units - r.units := toDouble_of_wholeSafe hw1
  have hd2 : toDouble (e.units - r.units - r.units) = e.units - 2 * r.units := by
    have e2 : e.units - r.units - r.units = e.units - 2 * r.units := by ring
    rw [e2]
    exact toDouble_of_wholeSafe hw2
  have h1 := updateRequest_approve_eq env s id r e hr hst he (by linarith)
  rw [hd1] at h1
  have hr1 : findRequest (saveRequest s.requests { r with status := "Approved" }) id
      = some { r with status := "Approved" } :=
    findRequest_saveRequest hr (x := { r with status := "Approved" }) hid
  have he1 : findStock (saveStock s.inventory
      { e with units := e.units - r.units, lastUpdated := env.now }) r.bloodType
      = some { e with units := e.units - r.units, lastUpdated := env.now } :=
    findStock_saveStock he (x := { e with units := e.units - r.units, lastUpdated := env.now })
      rfl hbt
  rw [h1]
  have h2 := updateRequest_other_eq env
    { s with
      inventory := saveStock s.inventory
        { e with units := e.units - r.units, lastUpdated := env.now }
      requests := saveRequest s.requests { r with status := "Approved" } }
    id { r with status := "Approved" } "Rejected" hr1 (by decide)
  rw [h2]
  have hr2 : findRequest (saveRequest (saveRequest s.requests { r with status := "Approved" })
      { ({ r with status := "Approved" } : Request) with status := "Rejected" }) id
      = some { r with status := "Rejected" } :=
    findRequest_saveRequest hr1 (x := { r with status := "Rejected" }) hid
  have h3 := updateRequest_approve_eq env
    { s with
      inventory := saveStock s.inventory
        { e with units := e.units - r.units, lastUpdated := env.now }
      requests := saveRequest (saveRequest s.requests { r with status := "Approved" })
        { ({ r with status := "Approved" } : Request) with status := "Rejected" } }
    id { r with status := "Rejected" }
    { e with units := e.units - r.units, lastUpdated := env.now } hr2 (by simp) he1
    (by simp only; linarith)
  simp only at h3
  rw [hd2] at h3
  rw [h3]
  refine ⟨rfl, rfl, ?_, rfl, ?_⟩
  · unfold unitsOf
    simp only
    rw [he1]
  · unfold unitsOf
    simp only
    rw [findStock_saveStock he1
      (x := { e with units := e.units - 2 * r.units, lastUpdated := env.now }) rfl hbt]

/-- Scenario D continued: AB- holds 4 units, the pending request asks 2; after
Approved, Rejected, Approved the stock is 4 - 2 * 2. -/
theorem approve_reject_approve_debits_twice_witness :
    findRequest (exampleStore 4 "Pending").requests 1 = some exampleRequest ∧
    exampleRequest.status ≠ "Approved" ∧
    findStock (exampleStore 4 "Pending").inventory exampleRequest.bloodType
      = some (exampleStock 4) ∧
    (0 : ℚ) < exampleRequest.units ∧ 2 * exampleRequest.units ≤ (exampleStock 4).units ∧
    wholeSafe ((exampleStock 4).units - exampleRequest.units) ∧
    wholeSafe ((exampleStock 4).units - 2 * exampleRequest.units) ∧
    unitsOf (updateRequest env0 (updateRequest env0 (updateRequest env0
        (exampleStore 4 "Pending") 1 "Approved").2 1 "Rejected").2 1 "Approved").2.inventory
      exampleRequest.bloodType = (exampleStock 4).units - 2 * exampleRequest.units :=
  have hw1 : wholeSafe ((exampleStock 4).units - exampleRequest.units) :=
    ⟨2, by norm_num [exampleStock, exampleRequest], by norm_num⟩
  have hw2 : wholeSafe ((exampleStock 4).units - 2 * exampleRequest.units) :=
    ⟨0, by norm_num [exampleStock, exampleRequest], by norm_num⟩
  ⟨by decide, by decide, by decide, by decide, by norm_num [exampleRequest, exampleStock],
    hw1, hw2,
    (approve_reject_approve_debits_twice env0 (exampleStore 4 "Pending") 1 exampleRequest
      (exampleStock 4) (by decide) (by decide) (by decide) (by decide)
      (by norm_num [exampleRequest, exampleStock]) hw1 hw2).2.2.2.2⟩

/-! ## Requests for no or negative units -/

/-- C25 (counterexample): AB- holds 10^20 units and the pending request asks -1.
The approval answers 200, but the difference is computed in double precision,
where 10^20 + 1 rounds to 10^20: the entry is left with 10^20 units, not with
10^20 - (-1), and the stock has not grown by 1. -/
theorem approval_of_negative_units_not_exact :
    findRequest (requestStore 100000000000000000000 (-1)).requests 1
      = some { exampleRequest with units := -1 } ∧
    ({ exampleRequest with units := -1 } : Request).status ≠ "Approved" ∧
    findStock (requestStore 100000000000000000000 (-1)).inventory "AB-"
      = some (exampleStock 100000000000000000000) ∧
    ({ exampleRequest with units := -1 } : Request).units ≤ 0 ∧
    (0 : ℚ) ≤ (exampleStock 100000000000000000000).units ∧
    (updateRequest env0 (requestStore 100000000000000000000 (-1)) 1 "Approved").1.code = 200 ∧
    unitsOf (updateRequest env0 (requestStore 100000000000000000000 (-1)) 1
      "Approved").2.inventory "AB-" = 100000000000000000000 ∧
    unitsOf (updateRequest env0 (requestStore 100000000000000000000 (-1)) 1
      "Approved").2.inventory "AB-"
      ≠ (exampleStock 100000000000000000000).units
        - ({ exampleRequest with units := -1 } : Request).units := by
  have hr : findRequest (requestStore 100000000000000000000 (-1)).requests 1
      = some { exampleRequest with units := -1 } := by decide
  have he : findStock (requestStore 100000000000000000000 (-1)).inventory
      ({ exampleRequest with units := -1 } : Request).bloodType
      = some (exampleStock 100000000000000000000) := by decide
  have hle : ({ exampleRequest with units := -1 } : Request).units
      ≤ (exampleStock 100000000000000000000).units := by decide
  have hst : ({ exampleRequest with units := -1 } : Request).status ≠ "Approved" := by decide
  have hd : toDouble ((exampleStock 100000000000000000000).units
      - ({ exampleRequest with units := -1 } : Request).units) = 100000000000000000000 := by
    have h := toDouble_near (q := 100000000000000000000 - -1) (e := 66) (m := 6103515625000000)
      (by norm_num [abs_of_pos]) (by norm_num [abs_of_pos]) (by norm_num)
      (by rw [abs_lt]; constructor <;> norm_num)
    simp only [exampleStock, exampleRequest]
    rw [h]
    norm_num
  have hrun := updateRequest_approve_eq env0 (requestStore 100000000000000000000 (-1)) 1
    { exampleRequest with units := -1 } (exampleStock 100000000000000000000) hr hst he hle
  have hu : unitsOf (updateRequest env0 (requestStore 100000000000000000000 (-1)) 1
      "Approved").2.inventory "AB-" = 100000000000000000000 := by
    have hf := findStock_saveStock he
      (x := { exampleStock 100000000000000000000 with
              units := toDouble ((exampleStock 100000000000000000000).units
                - ({ exampleRequest with units := -1 } : Request).units),
              lastUpdated := env0.now }) rfl rfl
    have hb : ("AB-" : String) = ({ exampleRequest with units := -1 } : Request).bloodType :=
      rfl
    rw [hrun]
    unfold unitsOf
    simp only
    rw [hb, hf]
    exact hd
  refine ⟨hr, hst, he, by decide, by decide, ?_, hu, ?_⟩
  · rw [hrun]
    rfl
  · rw [hu]
    norm_num [exampleStock, exampleRequest]

/-- C25 (amended): request creation, for a body whose text fields are filled in,
stores the request as Pending with the units of the body, whatever their sign;
and for a stored request that is not Approved and asks `u ≤ 0` units of a blood
type whose entry holds `s ≥ 0`, where `s - u` is a whole number of magnitude at
most 2^53, the approval answers 200 and leaves the entry at `s - u`, which is
at least `s` and is `s + |u|`. -/
theorem approve_nonpositive_units (env : Env) (s : Store) (id : Nat) (r : Request)
    (e : InventoryEntry) (b : RequestBody) (hb : b.complete = true)
    (hr : findRequest s.requests id = some r) (hst : r.status ≠ "Approved")
    (he : findStock s.inventory r.bloodType = some e) (hu : r.units ≤ 0)
    (hs : 0 ≤ e.units) (hw : wholeSafe (e.units - r.units)) :
    ((requestsAdd env s b).1 = .text 200 "Request added!" ∧
      ∃ x, (requestsAdd env s b).2.requests = s.requests ++ [x] ∧
        x.units = b.units ∧ x.status = "Pending") ∧
    (updateRequest env s id "Approved").1.code = 200 ∧
    unitsOf (updateRequest env s id "Approved").2.inventory r.bloodType = e.units - r.units ∧
    e.units ≤ unitsOf (updateRequest env s id "Approved").2.inventory r.bloodType ∧
    unitsOf (updateRequest env s id "Approved").2.inventory r.bloodType
      = e.units + |r.units| := by
  have hbt : e.bloodType = r.bloodType := findStock_bloodType he
  have h1 := updateRequest_approve_eq env s id r e hr hst he (by linarith)
  rw [toDouble_of_wholeSafe hw] at h1
  have hun : unitsOf (updateRequest env s id "Approved").2.inventory r.bloodType
      = e.units - r.units := by
    rw [h1]
    unfold unitsOf
    simp only
    rw [findStock_saveStock he
      (x := { e with units := e.units - r.units, lastUpdated := env.now }) rfl hbt]
  have hadd : requestsAdd env s b
      = (.text 200 "Request added!",
          { s with
            requests := s.requests ++
              [{ id := s.nextId, patientName := b.patientName.getD "",
                 studentId := b.studentId.getD "", bloodType := b.bloodType.getD "",
                 units := b.units, urgency := b.urgency.getD "",
                 status := "Pending", requestDate := env.now }]
            nextId := s.nextId + 1 }) := by
    unfold requestsAdd
    rw [if_pos hb]
  rw [hadd]
  refine ⟨⟨rfl, _, rfl, rfl, rfl⟩, ?_, hun, ?_, ?_⟩
  · rw [h1]; rfl
  · rw [hun]; linarith
  · rw [hun, abs_of_nonpos hu]; ring

/-- A request for -3 units of AB- is stored, and approving it against a stock of
1 leaves 1 - (-3) units. -/
theorem approve_nonpositive_units_witness :
    negativeBody.complete = true ∧ negativeBody.units = -3 ∧
    (requestsAdd env0 negativeStore negativeBody).1 = .text 200 "Request added!" ∧
    findRequest negativeStore.requests 1 = some { exampleRequest with units := -3 } ∧
    ({ exampleRequest with units := -3 } : Request).status ≠ "Approved" ∧
    findStock negativeStore.inventory "AB-" = some (exampleStock 1) ∧
    ({ exampleRequest with units := -3 } : Request).units ≤ 0 ∧
    (0 : ℚ) ≤ (exampleStock 1).units ∧
    wholeSafe ((exampleStock 1).units - ({ exampleRequest with units := -3 } : Request).units) ∧
    (updateRequest env0 negativeStore 1 "Approved").1.code = 200 ∧
    unitsOf (updateRequest env0 negativeStore 1 "Approved").2.inventory "AB-"
      = (exampleStock 1).units - ({ exampleRequest with units := -3 } : Request).units :=
  have hw : wholeSafe ((exampleStock 1).units
      - ({ exampleRequest with units := -3 } : Request).units) :=
    ⟨4, by norm_num [exampleStock, exampleRequest], by norm_num⟩
  ⟨by decide, rfl,
    (approve_nonpositive_units env0 negativeStore 1 { exampleRequest with units := -3 }
      (exampleStock 1) negativeBody (by decide) (by decide) (by decide) (by decide) (by decide)
      (by decide) hw).1.1,
    by decide, by decide, by decide, by decide, by decide, hw,
    (approve_nonpositive_units env0 negativeStore 1 { exampleRequest with units := -3 }
      (exampleStock 1) negativeBody (by decide) (by decide) (by decide) (by decide) (by decide)
      (by decide) hw).2.1,
    (approve_nonpositive_units env0 negativeStore 1 { exampleRequest with units := -3 }
      (exampleStock 1) negativeBody (by decide) (by decide) (by decide) (by decide) (by decide)
      (by decide) hw).2.2.1⟩

/-! ## The eligibility date for a day every month has -/

/-- C26 (counterexample): in a zone whose clocks go forward on 10 March 2024 at
02:00, a donation on 10 September 2023 at 02:30 local time, a day of the month
every month has, stores a `nextEligibleDate` whose local time of day is 03:30:
six months later the local time 02:30 does not exist on that day. -/
theorem eligibility_across_clock_change :
    findDonor donorStore.donors 7 = some exampleDonor ∧
    donationDate easternEnv (.at 1694327400000) = some 1694327400000 ∧
    DateFromTime (LocalTime easternEnv.tza 1694327400000) = 10 ∧
    TimeWithinDay (LocalTime easternEnv.tza 1694327400000) = 9000000 ∧
    (findDonor (recordDonation easternEnv donorStore 7 (.num 1)
        (.at 1694327400000)).2.donors 7).map (fun d => d.nextEligibleDate)
      = some (some 1710055800000) ∧
    DateFromTime (LocalTime easternEnv.tza 1710055800000) = 10 ∧
    TimeWithinDay (LocalTime easternEnv.tza 1710055800000) = 12600000 ∧
    TimeWithinDay (LocalTime easternEnv.tza 1710055800000)
      ≠ TimeWithinDay (LocalTime easternEnv.tza 1694327400000) := by
  refine ⟨by decide, by decide, by decide, by decide, by decide, by decide, by decide,
    by decide⟩

/-- C26 (amended): for an existing donor whose document passes the checks of
`save()`, a positive amount and a donation date `t` (the one of the body, or
the current time when the body has none) whose local day of the month is at
most 28, such that the end of the eligibility window computed from `t` lies
within the range of `Date` and the zone offset in force at that instant is the
one with which its local time is read (no clock change skips that local time):
recording the donation stores `nextEligibleDate = n` where, in local time, `n`
has the day of the month and the time of day of `t`, its month is the month of
`t` plus 6 modulo 12, and its year is the year of `t` plus 1 exactly when the
month of `t` is July (month 6 counting from 0) or later. -/
theorem eligibility_after_day_at_most_28 (env : Env) (s : Store) (id : Nat)
    (donor : Donor) (amount : JSValue) (q : ℚ) (date : DateArg) (t : ℤ)
    (hd : findDonor s.donors id = some donor) (hv : donor.valid = true)
    (ha : amount.toNumber = .fin q) (hq : 0 < q) (ht : donationDate env date = some t)
    (hnext : |sixMonthsAfter env.tza t| ≤ maxTime)
    (hz : env.tza.offsetAt (sixMonthsAfter env.tza t)
      = env.tza.offsetOfLocal
          (setMonthLocal (LocalTime env.tza t) (getMonth env.tza t + 6)))
    (h28 : DateFromTime (LocalTime env.tza t) ≤ 28) :
    (findDonor (recordDonation env s id amount date).2.donors id).map
        (fun d => d.nextEligibleDate) = some (some (sixMonthsAfter env.tza t)) ∧
    DateFromTime (LocalTime env.tza (sixMonthsAfter env.tza t))
      = DateFromTime (LocalTime env.tza t) ∧
    TimeWithinDay (LocalTime env.tza (sixMonthsAfter env.tza t))
      = TimeWithinDay (LocalTime env.tza t) ∧
    MonthFromTime (LocalTime env.tza (sixMonthsAfter env.tza t))
      = (MonthFromTime (LocalTime env.tza t) + 6) % 12 ∧
    YearFromTime (LocalTime env.tza (sixMonthsAfter env.tza t))
      = YearFromTime (LocalTime env.tza t)
        + (if 6 ≤ MonthFromTime (LocalTime env.tza t) then 1 else 0) := by
  have hloc : LocalTime env.tza (sixMonthsAfter env.tza t)
      = setMonthLocal (LocalTime env.tza t) (MonthFromTime (LocalTime env.tza t) + 6) :=
    LocalTime_UTC hz
  rw [hloc]
  obtain ⟨f1, f2, -⟩ := setMonthLocal_fields (LocalTime env.tza t)
    (MonthFromTime (LocalTime env.tza t) + 6)
  obtain ⟨hm0, hm1, -, -⟩ := fields_range (LocalTime env.tza t)
  obtain ⟨hl0, -⟩ := leapDays_eq
    (YearFromTime (LocalTime env.tza t) + (MonthFromTime (LocalTime env.tza t) + 6) / 12)
  have hb := monthLength_bounds
    (l := leapDays (YearFromTime (LocalTime env.tza t)
      + (MonthFromTime (LocalTime env.tza t) + 6) / 12))
    ((MonthFromTime (LocalTime env.tza t) + 6) % 12) (by omega) (by omega)
  obtain ⟨g1, g2, g3⟩ := f2 (by unfold DaysInMonth; omega)
  refine ⟨?_, g3, f1, g2, ?_⟩
  · rw [recordDonation_success env s id donor amount q date t (sixMonthsAfter env.tza t)
      hd ha hq ht hv (timeClip_of_le hnext)]
    have hid : donor.id = id := findDonor_id hd
    rw [findDonor_saveDonor hd
      (x := afterDonation donor t (sixMonthsAfter env.tza t)) hid]
    rfl
  · rw [g1]
    split <;> omega

/-- Scenario B again, and a donation in August, in UTC: 2024-01-10 gives
2024-07-10 in the same year, 2023-08-15 gives 2024-02-15 in the next. -/
theorem eligibility_after_day_at_most_28_witness :
    findDonor donorStore.donors 7 = some exampleDonor ∧ exampleDonor.valid = true ∧
    (JSValue.num 1).toNumber = .fin 1 ∧ (0 : ℚ) < 1 ∧
    donationDate env0 (.at 1704844800000) = some 1704844800000 ∧
    donationDate env0 (.at 1692057600000) = some 1692057600000 ∧
    |sixMonthsAfter env0.tza 1704844800000| ≤ maxTime ∧
    |sixMonthsAfter env0.tza 1692057600000| ≤ maxTime ∧
    DateFromTime (LocalTime env0.tza 1704844800000) ≤ 28 ∧
    DateFromTime (LocalTime env0.tza 1692057600000) ≤ 28 ∧
    isoDate 1704844800000 = "2024-01-10" ∧
    isoDate (sixMonthsAfter env0.tza 1704844800000) = "2024-07-10" ∧
    isoDate 1692057600000 = "2023-08-15" ∧
    isoDate (sixMonthsAfter env0.tza 1692057600000) = "2024-02-15" ∧
    YearFromTime (LocalTime env0.tza (sixMonthsAfter env0.tza 1704844800000))
      = YearFromTime (LocalTime env0.tza 1704844800000)
        + (if 6 ≤ MonthFromTime (LocalTime env0.tza 1704844800000) then 1 else 0) ∧
    YearFromTime (LocalTime env0.tza (sixMonthsAfter env0.tza 1692057600000))
      = YearFromTime (LocalTime env0.tza 1692057600000)
        + (if 6 ≤ MonthFromTime (LocalTime env0.tza 1692057600000) then 1 else 0) :=
  ⟨by decide, by decide, rfl, by decide, by decide, by decide, by decide, by decide,
    by decide, by decide, by decide, by decide, by decide, by decide,
    (eligibility_after_day_at_most_28 env0 donorStore 7 exampleDonor (.num 1) 1
      (.at 1704844800000) 1704844800000 (by decide) (by decide) rfl (by decide) (by decide)
      (by decide) rfl (by decide)).2.2.2.2,
    (eligibility_after_day_at_most_28 env0 donorStore 7 exampleDonor (.num 1) 1
      (.at 1692057600000) 1692057600000 (by decide) (by decide) rfl (by decide) (by decide)
      (by decide) rfl (by decide)).2.2.2.2⟩

/-! ## The counts of the potential-donor aggregation -/

theorem sum_bump (k : String) (l : List (String × Nat)) :
    ((bump k l).map Prod.snd).sum = (l.map Prod.snd).sum + 1 := by
  induction l with
  | nil => simp [bump]
  | cons a as ih =>
    obtain ⟨key, v⟩ := a
    rw [bump]
    split
    · simp only [List.map_cons, List.sum_cons]
      omega
    · simp only [List.map_cons, List.sum_cons, ih]
      omega

theorem sum_foldl_bump (key : Donor → String) (ds : List Donor) :
    ∀ agg : List (String × Nat),
      ((ds.foldl (fun acc d => bump (key d) acc) agg).map Prod.snd).sum
        = (agg.map Prod.snd).sum + ds.length := by
  induction ds with
  | nil => intro agg; simp
  | cons d ds ih =>
    intro agg
    rw [List.foldl_cons, ih, sum_bump, List.length_cons]
    omega

theorem sum_aggregate (upper : String → String) (ds : List Donor) :
    ((aggregate upper ds).map Prod.snd).sum = ds.length := by
  unfold aggregate
  rw [sum_foldl_bump]
  simp [allBloodTypes]

theorem valueAt_of_not_mem {k : String} {l : List (String × Nat)}
    (h : k ∉ l.map Prod.fst) : valueAt k l = 0 := by
  induction l with
  | nil => rfl
  | cons a as ih =>
    obtain ⟨key, v⟩ := a
    simp only [List.map_cons, List.mem_cons, not_or] at h
    have hk : ¬ key = k := fun e => h.1 e.symm
    simp only [valueAt, hk, if_false]
    exact ih h.2

theorem mem_aggregate_of_mem_potentialDonors (parse : String → Option ℤ)
    (upper : String → String) (env : Env) (s : Store) {e : PotentialEntry}
    (h : e ∈ potentialDonors parse upper env s) :
    (e.bloodType, e.units) ∈ aggregate upper (s.donors.filter (isPotentialDonor parse env)) := by
  unfold potentialDonors at h
  obtain ⟨kv, hkv, rfl⟩ := List.mem_map.mp h
  exact (List.mergeSort_perm _ _).mem_iff.mp hkv

/-- C27 (counterexample): one consenting donor who never donated and whose stored
blood type is `o+`, which is not one of the eight listed values, is counted
under `O+`: the answer has the eight listed entries and no entry beyond them. -/
theorem potentialDonors_lower_case_type :
    lowerCaseStore.donors.filter (isPotentialDonor exampleParse env0) = [lowerCaseDonor] ∧
    lowerCaseDonor.bloodType = some "o+" ∧ "o+" ∉ allBloodTypes ∧
    (potentialDonors exampleParse upperAscii env0 lowerCaseStore).length = 8 ∧
    ((potentialDonors exampleParse upperAscii env0 lowerCaseStore).map
        (fun e => e.bloodType)).Perm allBloodTypes ∧
    ({ bloodType := "O+", units := 1, updatedAt := env0.now } : PotentialEntry)
      ∈ potentialDonors exampleParse upperAscii env0 lowerCaseStore := by
  have hk : lowerCaseStore.donors.filter (isPotentialDonor exampleParse env0)
      = [lowerCaseDonor] := by decide
  have hagg : aggregate upperAscii [lowerCaseDonor]
      = [("A+", 0), ("A-", 0), ("B+", 0), ("B-", 0), ("AB+", 0), ("AB-", 0), ("O+", 1),
         ("O-", 0)] := by decide
  have hp := potentialDonors_keys exampleParse upperAscii env0 lowerCaseStore
  rw [hk, hagg] at hp
  have hp2 : ((potentialDonors exampleParse upperAscii env0 lowerCaseStore).map
      (fun e => e.bloodType)).Perm allBloodTypes := by
    simpa [allBloodTypes] using hp
  refine ⟨hk, rfl, by decide, ?_, hp2, ?_⟩
  · have := hp2.length_eq
    rw [List.length_map] at this
    rw [this]
    rfl
  · apply mem_potentialDonors
    rw [hk, hagg]
    simp

/-- C27 (amended): for every donor collection, the counts of the aggregation sum
to the number of donors that pass the filter; no blood type is listed twice and
each entry counts the kept donors whose key, the upper-cased blood type
(`Unknown` upper-cased when the blood type is missing), is the entry's, so each
kept donor is counted exactly once; and a kept donor whose key is not one of the
eight listed values has an entry beyond the eight. -/
theorem potentialDonors_counts (parse : String → Option ℤ) (upper : String → String)
    (env : Env) (s : Store) :
    ((potentialDonors parse upper env s).map (fun e => e.units)).sum
      = (s.donors.filter (isPotentialDonor parse env)).length ∧
    ((potentialDonors parse upper env s).map (fun e => e.bloodType)).Nodup ∧
    (∀ e ∈ potentialDonors parse upper env s,
      e.units = ((s.donors.filter (isPotentialDonor parse env)).filter
        (fun d => decide (bloodTypeKey upper d = e.bloodType))).length) ∧
    (∀ d ∈ s.donors, isPotentialDonor parse env d = true →
      (textTruthy d.bloodType = false → bloodTypeKey upper d = upper "Unknown") ∧
      (∃ e ∈ potentialDonors parse upper env s, e.bloodType = bloodTypeKey upper d ∧
        1 ≤ e.units) ∧
      (bloodTypeKey upper d ∉ allBloodTypes →
        9 ≤ (potentialDonors parse upper env s).length)) := by
  obtain ⟨a1, a2, a3, -⟩ :=
    aggregate_spec upper (s.donors.filter (isPotentialDonor parse env))
  have hp := potentialDonors_keys parse upper env s
  have hnd : ((potentialDonors parse upper env s).map (fun e => e.bloodType)).Nodup :=
    hp.nodup_iff.mpr a1
  refine ⟨?_, hnd, ?_, ?_⟩
  · rw [← sum_aggregate upper (s.donors.filter (isPotentialDonor parse env))]
    unfold potentialDonors
    rw [List.map_map]
    exact ((List.mergeSort_perm _ _).map _).sum_eq
  · intro e he
    have hm := mem_aggregate_of_mem_potentialDonors parse upper env s he
    rw [← a3 e.bloodType, valueAt_of_mem a1 hm]
  · intro d hd hkeep
    have hdk : d ∈ s.donors.filter (isPotentialDonor parse env) :=
      List.mem_filter.mpr ⟨hd, hkeep⟩
    have hpos : 1 ≤ ((s.donors.filter (isPotentialDonor parse env)).filter
        (fun x => decide (bloodTypeKey upper x = bloodTypeKey upper d))).length := by
      apply List.length_pos_of_mem (a := d)
      exact List.mem_filter.mpr ⟨hdk, by simp⟩
    have hval : 1 ≤ valueAt (bloodTypeKey upper d)
        (aggregate upper (s.donors.filter (isPotentialDonor parse env))) := by
      rw [a3]; exact hpos
    have hkey : bloodTypeKey upper d
        ∈ (aggregate upper (s.donors.filter (isPotentialDonor parse env))).map Prod.fst := by
      by_contra hc
      have : valueAt (bloodTypeKey upper d)
          (aggregate upper (s.donors.filter (isPotentialDonor parse env))) = 0 :=
        valueAt_of_not_mem hc
      omega
    refine ⟨?_, ?_, ?_⟩
    · intro hmiss
      unfold bloodTypeKey
      rw [hmiss]
      rfl
    · obtain ⟨kv, hkv, hfst⟩ := List.mem_map.mp hkey
      obtain ⟨k, v⟩ := kv
      simp only at hfst
      subst hfst
      refine ⟨_, mem_potentialDonors parse upper env s hkv, rfl, ?_⟩
      simp only
      rw [← valueAt_of_mem a1 hkv]
      exact hval
    · intro hout
      have hsub : ∀ x ∈ bloodTypeKey upper d :: allBloodTypes,
          x ∈ (aggregate upper (s.donors.filter (isPotentialDonor parse env))).map Prod.fst := by
        intro x hx
        rcases List.mem_cons.mp hx with h1 | h1
        · rw [h1]; exact hkey
        · exact a2 x h1
      have hnd9 : (bloodTypeKey upper d :: allBloodTypes).Nodup :=
        List.nodup_cons.mpr ⟨hout, by decide⟩
      have hlen := (List.subperm_of_subset hnd9 hsub).length_le
      have hl := hp.length_eq
      rw [List.length_map] at hl
      rw [hl, List.length_map]
      simpa [allBloodTypes] using hlen

/-! ## An addition followed by a removal -/

/-- C28 (counterexample): with O+ at 5 units, the addition of 10^21 units answers
200 but raises the stock by 1 only, what `parseInt` reads of `1e+21`, so the
removal of 10^21 units after it is refused; and with O+ at -2 units, the stock
that a removal with the units text `7px` leaves of 5 units, the addition of 1
unit leaves -1 and the removal of 1 unit after it is refused. -/
theorem inventory_add_then_remove_refused :
    (0 : ℤ) < 1000000000000000000000 ∧
    (inventoryAdd env0 scenarioAStore (some "O+") (.num 1000000000000000000000)).1.code
      = 200 ∧
    unitsOf (inventoryAdd env0 scenarioAStore (some "O+")
      (.num 1000000000000000000000)).2.inventory "O+" = 6 ∧
    (inventoryRemove env0 (inventoryAdd env0 scenarioAStore (some "O+")
      (.num 1000000000000000000000)).2 (some "O+") (.num 1000000000000000000000)).1
      = .message 400 "Not enough stock to remove." ∧
    (inventoryAdd env0 (stockStore (-2)) (some "O+") (.num 1)).1.code = 200 ∧
    unitsOf (inventoryAdd env0 (stockStore (-2)) (some "O+") (.num 1)).2.inventory "O+"
      = -1 ∧
    (inventoryRemove env0 (inventoryAdd env0 (stockStore (-2)) (some "O+") (.num 1)).2
      (some "O+") (.num 1)).1 = .message 400 "Not enough stock to remove." := by
  have he : findStock scenarioAStore.inventory "O+"
      = some { id := 0, bloodType := "O+", units := 5, lastUpdated := 0 } := by decide
  obtain ⟨a1, a2⟩ := inventoryAdd_num_some env0 scenarioAStore "O+"
    1000000000000000000000 _ (by decide) (by norm_num) he
  have h1 : toDouble (((1 : ℤ) : ℚ)) = 1 := by
    simpa using toDouble_intCast 1 (by norm_num)
  have h6 : toDouble ((5 : ℚ) + 1) = 6 := by
    rw [toDouble_of_wholeSafe ⟨6, by norm_num, by norm_num⟩]
    norm_num
  have hr : unitsOf (inventoryAdd env0 scenarioAStore (some "O+")
      (.num 1000000000000000000000)).2.inventory "O+" = 6 := by
    rw [unitsOf_of_findStock a2, numberToInt_sextillion, h1]
    exact h6
  have he2 : findStock (stockStore (-2)).inventory "O+"
      = some { id := 0, bloodType := "O+", units := -2, lastUpdated := 0 } := by decide
  obtain ⟨b1, b2⟩ := inventoryAdd_num_some env0 (stockStore (-2)) "O+" 1 _ (by decide)
    (by norm_num) he2
  have hn1 : numberToInt 1 = 1 := by
    simpa using numberToInt_intCast 1 (by norm_num)
  have hm1 : toDouble ((-2 : ℚ) + 1) = -1 := by
    rw [toDouble_of_wholeSafe ⟨-1, by norm_num, by norm_num⟩]
    norm_num
  have hr2 : unitsOf (inventoryAdd env0 (stockStore (-2)) (some "O+") (.num 1)).2.inventory
      "O+" = -1 := by
    rw [unitsOf_of_findStock b2, hn1, h1]
    exact hm1
  refine ⟨by decide, a1, hr, ?_, b1, hr2, ?_⟩
  · rw [inventoryRemove_num_refused env0 _ "O+" 1000000000000000000000 (by decide)
      (by norm_num) (by rw [hr]; norm_num)]
  · rw [inventoryRemove_num_refused env0 _ "O+" 1 (by decide) (by norm_num)
      (by rw [hr2]; norm_num)]

/-- C28 (amended): for every inventory in which the non-empty blood type `b`
holds `s ≥ 0` units (0 when it has no entry), and every integer `n` with
`0 < n ≤ 2^53`, where `s` and `s + n` are whole numbers of magnitude at most
2^53: the addition of `n` units to `b` and the removal of `n` units from `b`
after it both answer 200, and afterwards `b` has an entry holding the units it
held before the addition, which is 0 units when it had no entry. -/
theorem inventory_add_then_remove (env1 env2 : Env) (s : Store) (b : String) (n : ℤ)
    (hb : b ≠ "") (hn : 0 < n) (hn1 : n ≤ 9007199254740992)
    (h0 : 0 ≤ unitsOf s.inventory b)
    (hw0 : wholeSafe (unitsOf s.inventory b)) (hw1 : wholeSafe (unitsOf s.inventory b + n)) :
    (inventoryAdd env1 s (some b) (.num n)).1.code = 200 ∧
    (inventoryRemove env2 (inventoryAdd env1 s (some b) (.num n)).2 (some b) (.num n)).1.code
      = 200 ∧
    (∃ x, findStock (inventoryRemove env2 (inventoryAdd env1 s (some b) (.num n)).2 (some b)
        (.num n)).2.inventory b = some x ∧ x.units = unitsOf s.inventory b) ∧
    (findStock s.inventory b = none →
      unitsOf (inventoryRemove env2 (inventoryAdd env1 s (some b) (.num n)).2 (some b)
        (.num n)).2.inventory b = 0) := by
  have hq : (0 : ℚ) < (n : ℚ) := by exact_mod_cast hn
  have hk : toDouble ((numberToInt (n : ℚ) : ℤ) : ℚ) = n := by
    rw [numberToInt_whole hn hn1, toDouble_whole hn hn1]
  have hadd : ∃ e, (inventoryAdd env1 s (some b) (.num n)).1.code = 200 ∧
      findStock (inventoryAdd env1 s (some b) (.num n)).2.inventory b = some e ∧
      e.units = unitsOf s.inventory b + n := by
    cases he : findStock s.inventory b with
    | some e =>
      rw [unitsOf_of_findStock he] at hw1 ⊢
      obtain ⟨a1, a2⟩ := inventoryAdd_num_some env1 s b n e hb hq he
      refine ⟨_, a1, a2, ?_⟩
      simp only
      rw [hk]
      exact toDouble_of_wholeSafe hw1
    | none =>
      obtain ⟨a1, a2⟩ := inventoryAdd_num_none env1 s b n hb hq he
      refine ⟨_, a1, a2, ?_⟩
      simp only
      rw [hk]
      unfold unitsOf
      rw [he]
      simp
  obtain ⟨e, a1, a2, a3⟩ := hadd
  obtain ⟨r1, r2⟩ := inventoryRemove_num_some env2
    (inventoryAdd env1 s (some b) (.num n)).2 b n e hb hq a2 (by rw [a3]; linarith)
  have hback : toDouble (e.units + -toDouble ((numberToInt (n : ℚ) : ℤ) : ℚ))
      = unitsOf s.inventory b := by
    rw [hk, a3]
    have e2 : unitsOf s.inventory b + (n : ℚ) + -(n : ℚ) = unitsOf s.inventory b := by ring
    rw [e2]
    exact toDouble_of_wholeSafe hw0
  refine ⟨a1, r1, ⟨_, r2, hback⟩, ?_⟩
  intro hnone
  rw [unitsOf_of_findStock r2]
  simp only
  rw [hback]
  unfold unitsOf
  rw [hnone]

/-- Scenario A in one go: O+ has no entry; adding 5 units and removing 5 leaves an
O+ entry with 0 units; and with O+ at 5 units the same pair leaves 5. -/
theorem inventory_add_then_remove_witness :
    ("O+" : String) ≠ "" ∧ (0 : ℤ) < 5 ∧ (5 : ℤ) ≤ 9007199254740992 ∧
    (0 : ℚ) ≤ unitsOf emptyStore.inventory "O+" ∧
    wholeSafe (unitsOf emptyStore.inventory "O+") ∧
    wholeSafe (unitsOf emptyStore.inventory "O+" + ((5 : ℤ) : ℚ)) ∧
    findStock emptyStore.inventory "O+" = none ∧
    unitsOf (inventoryRemove env0 (inventoryAdd env0 emptyStore (some "O+")
        (.num ((5 : ℤ) : ℚ))).2 (some "O+") (.num ((5 : ℤ) : ℚ))).2.inventory "O+" = 0 ∧
    (0 : ℚ) ≤ unitsOf scenarioAStore.inventory "O+" ∧
    wholeSafe (unitsOf scenarioAStore.inventory "O+") ∧
    wholeSafe (unitsOf scenarioAStore.inventory "O+" + ((5 : ℤ) : ℚ)) ∧
    (∃ x, findStock (inventoryRemove env0 (inventoryAdd env0 scenarioAStore (some "O+")
        (.num ((5 : ℤ) : ℚ))).2 (some "O+") (.num ((5 : ℤ) : ℚ))).2.inventory "O+" = some x ∧
      x.units = unitsOf scenarioAStore.inventory "O+") :=
  have e0 : wholeSafe (unitsOf emptyStore.inventory "O+") :=
    ⟨0, by norm_num [unitsOf, findStock, emptyStore], by norm_num⟩
  have e1 : wholeSafe (unitsOf emptyStore.inventory "O+" + ((5 : ℤ) : ℚ)) :=
    ⟨5, by norm_num [unitsOf, findStock, emptyStore], by norm_num⟩
  have a0 : wholeSafe (unitsOf scenarioAStore.inventory "O+") :=
    ⟨5, by norm_num [unitsOf, findStock, scenarioAStore], by norm_num⟩
  have a1 : wholeSafe (unitsOf scenarioAStore.inventory "O+" + ((5 : ℤ) : ℚ)) :=
    ⟨10, by norm_num [unitsOf, findStock, scenarioAStore], by norm_num⟩
  ⟨by decide, by decide, by decide, by norm_num [unitsOf, findStock, emptyStore], e0, e1, rfl,
    (inventory_add_then_remove env0 env0 emptyStore "O+" 5 (by decide) (by decide) (by decide)
      (by norm_num [unitsOf, findStock, emptyStore]) e0 e1).2.2.2 rfl,
    by norm_num [unitsOf, findStock, scenarioAStore], a0, a1,
    (inventory_add_then_remove env0 env0 scenarioAStore "O+" 5 (by decide) (by decide)
      (by decide) (by norm_num [unitsOf, findStock, scenarioAStore]) a0 a1).2.2.1⟩

/-! ## What an operation on one blood type leaves alone -/

theorem filter_map_of_frame {α : Type} (q : α → Bool) (g : α → α) (l : List α)
    (h : ∀ a ∈ l, g a = a ∨ (q a = false ∧ q (g a) = false)) :
    (l.map g).filter q = l.filter q := by
  induction l with
  | nil => rfl
  | cons a as ih =>
    have iht := ih (fun x hx => h x (List.mem_cons_of_mem _ hx))
    rcases h a (List.mem_cons_self _ _) with h1 | ⟨h1, h2⟩
    · rw [List.map_cons, h1, List.filter_cons, List.filter_cons, iht]
    · rw [List.map_cons, List.filter_cons, List.filter_cons, iht, h1, h2]
      rfl

theorem filter_updateFirst_of_frame {α : Type} (q p : α → Bool) (f : α → α) (l : List α)
    (h : ∀ a, p a = true → q a = false ∧ q (f a) = false) :
    (updateFirst p f l).filter q = l.filter q := by
  induction l with
  | nil => rfl
  | cons a as ih =>
    rw [updateFirst]
    split
    · rename_i hp
      obtain ⟨h1, h2⟩ := h a hp
      rw [List.filter_cons, List.filter_cons, h1, h2]
      rfl
    · rw [List.filter_cons, List.filter_cons, ih]

theorem filter_incStock (b : String) (k : ℚ) (now : ℤ) (inv : List InventoryEntry) :
    (incStock b k now inv).filter (fun e => decide (e.bloodType ≠ b))
      = inv.filter (fun e => decide (e.bloodType ≠ b)) := by
  unfold incStock
  apply filter_updateFirst_of_frame
  intro a ha
  simp only [decide_eq_true_eq] at ha
  simp [ha]

theorem filter_saveStock {inv : List InventoryEntry} {x e : InventoryEntry} {b : String}
    (hn : (inv.map (fun a => a.id)).Nodup) (he : findStock inv b = some e)
    (hid : x.id = e.id) (hxb : x.bloodType = b) :
    (saveStock inv x).filter (fun a => decide (a.bloodType ≠ b))
      = inv.filter (fun a => decide (a.bloodType ≠ b)) := by
  have hmem : e ∈ inv := List.mem_of_find?_eq_some he
  have heb : e.bloodType = b := findStock_bloodType he
  unfold saveStock
  apply filter_map_of_frame
  intro a ha
  by_cases hax : a.id = x.id
  · right
    have hae : a = e := List.inj_on_of_nodup_map hn ha hmem (hax.trans hid)
    subst hae
    simp [hax, heb, hxb]
  · left
    simp [hax]

theorem filter_saveRequest (rs : List Request) (x : Request) :
    (saveRequest rs x).filter (fun a => decide (a.id ≠ x.id))
      = rs.filter (fun a => decide (a.id ≠ x.id)) := by
  unfold saveRequest
  apply filter_map_of_frame
  intro a _
  by_cases hax : a.id = x.id
  · right
    simp [hax]
  · left
    simp [hax]

/-- C29: for every store and blood type `b`: an addition to `b` and a removal
from `b`, whatever the units and whether accepted or refused, leave every
inventory entry of another blood type as it was; and an update of a stored
request for `b` to any status, Approved included, whether it succeeds or is
refused, leaves every inventory entry of another blood type and every other
request as they were (inventory entries having distinct ids). -/
theorem other_entries_unchanged (env : Env) (s : Store) (bt : Option String) (units : JSValue)
    (id : Nat) (status : String) (r : Request)
    (hn : (s.inventory.map (fun a => a.id)).Nodup)
    (hr : findRequest s.requests id = some r) :
    (inventoryAdd env s bt units).2.inventory.filter
        (fun e => decide (e.bloodType ≠ bt.getD ""))
      = s.inventory.filter (fun e => decide (e.bloodType ≠ bt.getD "")) ∧
    (inventoryRemove env s bt units).2.inventory.filter
        (fun e => decide (e.bloodType ≠ bt.getD ""))
      = s.inventory.filter (fun e => decide (e.bloodType ≠ bt.getD "")) ∧
    (updateRequest env s id status).2.inventory.filter
        (fun e => decide (e.bloodType ≠ r.bloodType))
      = s.inventory.filter (fun e => decide (e.bloodType ≠ r.bloodType)) ∧
    (updateRequest env s id status).2.requests.filter (fun x => decide (x.id ≠ id))
      = s.requests.filter (fun x => decide (x.id ≠ id)) := by
  have hid : r.id = id := findRequest_id hr
  refine ⟨?_, ?_, ?_, ?_⟩
  · unfold inventoryAdd
    split
    · rfl
    · split
      · rfl
      · split
        · exact filter_incStock _ _ _ _
        · simp [List.filter_append]
  · unfold inventoryRemove
    split
    · rfl
    · split
      · rfl
      · split
        · rfl
        · split
          · rfl
          · exact filter_incStock _ _ _ _
  · unfold updateRequest
    rw [hr]
    simp only
    split
    · split
      · rfl
      · rename_i stock hs
        split
        · rfl
        · have hb := findStock_bloodType hs
          exact filter_saveStock hn hs rfl hb
    · split
      · rfl
      · rfl
  · have hsave : ∀ x : Request, x.id = id →
        (saveRequest s.requests x).filter (fun a => decide (a.id ≠ id))
          = s.requests.filter (fun a => decide (a.id ≠ id)) := by
      intro x hx
      have := filter_saveRequest s.requests x
      rw [hx] at this
      exact this
    unfold updateRequest
    rw [hr]
    simp only
    split
    · split
      · rfl
      · split
        · rfl
        · exact hsave _ hid
    · split
      · exact hsave _ hid
      · rfl

/-- With O+ at 5 units and AB- at 4, and two requests stored: adding to AB-,
removing from AB- and approving the AB- request leave the O+ entry and the
other request as they were. -/
theorem other_entries_unchanged_witness :
    (twoTypeStore.inventory.map (fun a => a.id)).Nodup ∧
    findRequest twoTypeStore.requests 1 = some exampleRequest ∧
    twoTypeStore.inventory.filter (fun e => decide (e.bloodType ≠ exampleRequest.bloodType))
      = [{ id := 0, bloodType := "O+", units := 5, lastUpdated := 0 }] ∧
    (updateRequest env0 twoTypeStore 1 "Approved").1.code = 200 ∧
    ((inventoryAdd env0 twoTypeStore (some "AB-") (.num 3)).2.inventory.filter
        (fun e => decide (e.bloodType ≠ (some "AB-" : Option String).getD ""))
      = twoTypeStore.inventory.filter
          (fun e => decide (e.bloodType ≠ (some "AB-" : Option String).getD "")) ∧
    (inventoryRemove env0 twoTypeStore (some "AB-") (.num 3)).2.inventory.filter
        (fun e => decide (e.bloodType ≠ (some "AB-" : Option String).getD ""))
      = twoTypeStore.inventory.filter
          (fun e => decide (e.bloodType ≠ (some "AB-" : Option String).getD "")) ∧
    (updateRequest env0 twoTypeStore 1 "Approved").2.inventory.filter
        (fun e => decide (e.bloodType ≠ exampleRequest.bloodType))
      = twoTypeStore.inventory.filter
          (fun e => decide (e.bloodType ≠ exampleRequest.bloodType)) ∧
    (updateRequest env0 twoTypeStore 1 "Approved").2.requests.filter
        (fun x => decide (x.id ≠ 1))
      = twoTypeStore.requests.filter (fun x => decide (x.id ≠ 1))) :=
  ⟨by decide, by decide, by decide, by decide,
    other_entries_unchanged env0 twoTypeStore (some "AB-") (.num 3) 1 "Approved" exampleRequest
      (by decide) (by decide)⟩

/-! ## Units that are not whole -/

/-- C30 (counterexample): with O+ at 5 units, the units value 5e-7, which lies
strictly between 0 and 1, is accepted by the addition and by the removal, but
the addition leaves 10 units and the removal 0 units, not 5: the text of such a
number starts with its digit 5, and that is what `parseInt` reads. -/
theorem inventory_tiny_units_change_stock :
    (0 : ℚ) < 1 / 2000000 ∧ (1 / 2000000 : ℚ) < 1 ∧ ⌊(1 / 2000000 : ℚ)⌋ = 0 ∧
    unitsOf scenarioAStore.inventory "O+" = 5 ∧
    (inventoryAdd env0 scenarioAStore (some "O+") (.num (1 / 2000000))).1.code = 200 ∧
    unitsOf (inventoryAdd env0 scenarioAStore (some "O+")
      (.num (1 / 2000000))).2.inventory "O+" = 10 ∧
    (inventoryRemove env0 scenarioAStore (some "O+") (.num (1 / 2000000))).1.code = 200 ∧
    unitsOf (inventoryRemove env0 scenarioAStore (some "O+")
      (.num (1 / 2000000))).2.inventory "O+" = 0 := by
  have he : findStock scenarioAStore.inventory "O+"
      = some { id := 0, bloodType := "O+", units := 5, lastUpdated := 0 } := by decide
  have hu : unitsOf scenarioAStore.inventory "O+" = 5 := unitsOf_of_findStock he
  obtain ⟨a1, a2⟩ := inventoryAdd_num_some env0 scenarioAStore "O+" (1 / 2000000)
    _ (by decide) (by norm_num) he
  obtain ⟨r1, r2⟩ := inventoryRemove_num_some env0 scenarioAStore "O+" (1 / 2000000)
    _ (by decide) (by norm_num) he (by norm_num)
  have h5 : toDouble (((5 : ℤ) : ℚ)) = 5 := by
    simpa using toDouble_intCast 5 (by norm_num)
  have h10 : toDouble ((5 : ℚ) + 5) = 10 := by
    rw [toDouble_of_wholeSafe ⟨10, by norm_num, by norm_num⟩]
    norm_num
  have h0 : toDouble ((5 : ℚ) + -5) = 0 := by
    rw [toDouble_of_wholeSafe ⟨0, by norm_num, by norm_num⟩]
    norm_num
  refine ⟨by norm_num, by norm_num, ?_, hu, a1, ?_, r1, ?_⟩
  · rw [Int.floor_eq_iff]
    norm_num
  · rw [unitsOf_of_findStock a2, numberToInt_small, h5]
    exact h10
  · rw [unitsOf_of_findStock r2, numberToInt_small, h5]
    exact h0

/-- C30 (amended): the addition and the removal validate and compare the units
as given but change the stock by what `parseInt` reads of them.  For every
units value `x` with `10^-6 ≤ x ≤ 2^53`, whole or not, and every non-empty
blood type `b`: the addition answers 200 and, when the units of `b` plus
`floor x` are a whole number of magnitude at most 2^53, raises the units of `b`
by `floor x`; the removal is refused when `b` holds less than `x`, even if it
holds `floor x`, and otherwise answers 200 and, when the units of `b` less
`floor x` are such a whole number, lowers the units of `b` by `floor x`; so
for `x < 1` an accepted operation on such a whole number of units leaves the
units as they were. -/
theorem inventory_fractional_units (env : Env) (s : Store) (b : String) (x : ℚ)
    (hb : b ≠ "") (hx : 1 / 1000000 ≤ x) (hx1 : x ≤ 9007199254740992) :
    (inventoryAdd env s (some b) (.num x)).1.code = 200 ∧
    (wholeSafe (unitsOf s.inventory b + ⌊x⌋) →
      unitsOf (inventoryAdd env s (some b) (.num x)).2.inventory b
        = unitsOf s.inventory b + ⌊x⌋) ∧
    (unitsOf s.inventory b < x →
      inventoryRemove env s (some b) (.num x)
        = (.message 400 "Not enough stock to remove.", s)) ∧
    (∀ e, findStock s.inventory b = some e → x ≤ e.units →
      (inventoryRemove env s (some b) (.num x)).1.code = 200 ∧
      (wholeSafe (e.units - ⌊x⌋) →
        unitsOf (inventoryRemove env s (some b) (.num x)).2.inventory b = e.units - ⌊x⌋)) ∧
    (x < 1 → wholeSafe (unitsOf s.inventory b) →
      unitsOf (inventoryAdd env s (some b) (.num x)).2.inventory b = unitsOf s.inventory b ∧
      ∀ e, findStock s.inventory b = some e → x ≤ e.units →
        unitsOf (inventoryRemove env s (some b) (.num x)).2.inventory b = e.units) := by
  have hq : 0 < x := lt_of_lt_of_le (by norm_num) hx
  have hfl : numberToInt x = ⌊x⌋ :=
    numberToInt_of_ge hx (lt_of_le_of_lt hx1 (by norm_num))
  have hf0 : 0 ≤ ⌊x⌋ := Int.floor_nonneg.mpr (le_of_lt hq)
  have hf1 : ⌊x⌋ ≤ 9007199254740992 := by
    have h : ((⌊x⌋ : ℤ) : ℚ) ≤ ((9007199254740992 : ℤ) : ℚ) :=
      le_trans (Int.floor_le x) (by simpa using hx1)
    exact_mod_cast h
  have hk : toDouble ((numberToInt x : ℤ) : ℚ) = ⌊x⌋ := by
    rw [hfl]
    exact toDouble_intCast _ (by rw [abs_of_nonneg hf0]; exact hf1)
  have hadd1 : (inventoryAdd env s (some b) (.num x)).1.code = 200 := by
    cases he : findStock s.inventory b with
    | some e => exact (inventoryAdd_num_some env s b x e hb hq he).1
    | none => exact (inventoryAdd_num_none env s b x hb hq he).1
  have hadd2 : wholeSafe (unitsOf s.inventory b + ⌊x⌋) →
      unitsOf (inventoryAdd env s (some b) (.num x)).2.inventory b
        = unitsOf s.inventory b + ⌊x⌋ := by
    intro hw
    cases he : findStock s.inventory b with
    | some e =>
      rw [unitsOf_of_findStock he] at hw ⊢
      rw [unitsOf_of_findStock (inventoryAdd_num_some env s b x e hb hq he).2]
      simp only
      rw [hk]
      exact toDouble_of_wholeSafe hw
    | none =>
      rw [unitsOf_of_findStock (inventoryAdd_num_none env s b x hb hq he).2]
      simp only
      rw [hk]
      unfold unitsOf
      rw [he]
      simp
  have hrem : ∀ e, findStock s.inventory b = some e → x ≤ e.units →
      (inventoryRemove env s (some b) (.num x)).1.code = 200 ∧
      (wholeSafe (e.units - ⌊x⌋) →
        unitsOf (inventoryRemove env s (some b) (.num x)).2.inventory b
          = e.units - ⌊x⌋) := by
    intro e he hle
    obtain ⟨r1, r2⟩ := inventoryRemove_num_some env s b x e hb hq he hle
    refine ⟨r1, ?_⟩
    intro hw
    rw [unitsOf_of_findStock r2]
    simp only
    rw [hk, ← sub_eq_add_neg]
    exact toDouble_of_wholeSafe hw
  refine ⟨hadd1, hadd2, inventoryRemove_num_refused env s b x hb hq, hrem, ?_⟩
  intro h1 hw
  have h0 : ⌊x⌋ = 0 := by
    rw [Int.floor_eq_iff]
    constructor
    · simpa using le_of_lt hq
    · simpa using h1
  constructor
  · rw [hadd2 (by rw [h0]; simpa using hw), h0]
    simp
  · intro e he hle
    rw [unitsOf_of_findStock he] at hw
    rw [(hrem e he hle).2 (by rw [h0]; simpa using hw), h0]
    simp

/-- With O+ at 5 units: adding 2.5 units leaves 7, removing 2.5 leaves 3, removing
5.5 is refused, and adding 0.5 leaves 5. -/
theorem inventory_fractional_units_witness :
    ("O+" : String) ≠ "" ∧ (1 / 1000000 : ℚ) ≤ 5 / 2 ∧ (1 / 1000000 : ℚ) ≤ 1 / 2 ∧
    (1 / 1000000 : ℚ) ≤ 11 / 2 ∧ (11 / 2 : ℚ) ≤ 9007199254740992 ∧
    unitsOf scenarioAStore.inventory "O+" = 5 ∧ ⌊(5 / 2 : ℚ)⌋ = 2 ∧
    wholeSafe (unitsOf scenarioAStore.inventory "O+" + ⌊(5 / 2 : ℚ)⌋) ∧
    wholeSafe ((5 : ℚ) - ⌊(5 / 2 : ℚ)⌋) ∧
    wholeSafe (unitsOf scenarioAStore.inventory "O+") ∧
    unitsOf (inventoryAdd env0 scenarioAStore (some "O+") (.num (5 / 2))).2.inventory "O+"
      = unitsOf scenarioAStore.inventory "O+" + ⌊(5 / 2 : ℚ)⌋ ∧
    unitsOf (inventoryRemove env0 scenarioAStore (some "O+") (.num (5 / 2))).2.inventory "O+"
      = (5 : ℚ) - ⌊(5 / 2 : ℚ)⌋ ∧
    inventoryRemove env0 scenarioAStore (some "O+") (.num (11 / 2))
      = (.message 400 "Not enough stock to remove.", scenarioAStore) ∧
    unitsOf (inventoryAdd env0 scenarioAStore (some "O+") (.num (1 / 2))).2.inventory "O+"
      = unitsOf scenarioAStore.inventory "O+" := by
  have he : findStock scenarioAStore.inventory "O+"
      = some { id := 0, bloodType := "O+", units := 5, lastUpdated := 0 } := by decide
  have hu : unitsOf scenarioAStore.inventory "O+" = 5 := unitsOf_of_findStock he
  have hfl : ⌊(5 / 2 : ℚ)⌋ = 2 := by
    rw [Int.floor_eq_iff]
    norm_num
  have w1 : wholeSafe (unitsOf scenarioAStore.inventory "O+" + ⌊(5 / 2 : ℚ)⌋) :=
    ⟨7, by rw [hu, hfl]; norm_num, by norm_num⟩
  have w2 : wholeSafe ((5 : ℚ) - ⌊(5 / 2 : ℚ)⌋) :=
    ⟨3, by rw [hfl]; norm_num, by norm_num⟩
  have w3 : wholeSafe (unitsOf scenarioAStore.inventory "O+") :=
    ⟨5, by rw [hu]; norm_num, by norm_num⟩
  exact ⟨by decide, by norm_num, by norm_num, by norm_num, by norm_num, hu, hfl, w1, w2, w3,
    (inventory_fractional_units env0 scenarioAStore "O+" (5 / 2) (by decide)
      (by norm_num) (by norm_num)).2.1 w1,
    ((inventory_fractional_units env0 scenarioAStore "O+" (5 / 2) (by decide)
      (by norm_num) (by norm_num)).2.2.2.1 _ he (by norm_num)).2 w2,
    (inventory_fractional_units env0 scenarioAStore "O+" (11 / 2) (by decide)
      (by norm_num) (by norm_num)).2.2.1 (by rw [hu]; norm_num),
    ((inventory_fractional_units env0 scenarioAStore "O+" (1 / 2) (by decide)
      (by norm_num) (by norm_num)).2.2.2.2 (by norm_num) w3).1⟩

/-! ## A write that fails between two writes -/

theorem recordDonationFaulty_never (env : Env) (s : Store) (id : Nat) (amount : JSValue)
    (date : DateArg) :
    recordDonationFaulty .never env s id amount date = recordDonation env s id amount date := by
  unfold recordDonationFaulty recordDonation
  simp

theorem updateRequestFaulty_never (env : Env) (s : Store) (id : Nat) (status : String) :
    updateRequestFaulty .never env s id status = updateRequest env s id status := by
  unfold updateRequestFaulty updateRequest
  simp

theorem step_start (env : Env) (id : Nat) (amount : JSValue) (date : DateArg) (s : Store) :
    DonationRun.step env id amount date .start s
      = if !amount.truthy || amount.toNumber.le (.fin 0) then
          (.done (.message 400 "Amount is required and must be greater than 0"), s)
        else
          match findDonor s.donors id with
          | none => (.done (.message 404 "Donor not found"), s)
          | some donor => (.loaded donor, s) := rfl

theorem step_loaded (env : Env) (id : Nat) (amount : JSValue) (date : DateArg) (s : Store)
    (donor : Donor) :
    DonationRun.step env id amount date (.loaded donor) s
      = match donationDate env date with
        | none => (.done (.message 500 "Failed to record donation"), s)
        | some d =>
          if amount.toNumber = .nan ∨ textTruthy donor.name = false then
            (.done (.message 500 "Failed to record donation"), s)
          else
            (.saved donor d (newDonation env s donor amount d),
              { s with
                donations := s.donations ++ [newDonation env s donor amount d]
                nextId := s.nextId + 1 }) := rfl

theorem step_saved (env : Env) (id : Nat) (amount : JSValue) (date : DateArg) (s : Store)
    (donor : Donor) (d : ℤ) (donation : Donation) :
    DonationRun.step env id amount date (.saved donor d donation) s
      = match timeClip (sixMonthsAfter env.tza d) with
        | none => (.done (.message 500 "Failed to record donation"), s)
        | some next =>
          if donor.valid then
            (.done (.recorded "Donation recorded successfully" (afterDonation donor d next)
                donation),
              { s with donors := saveDonor s.donors (afterDonation donor d next) })
          else (.done (.message 500 "Failed to record donation"), s) := rfl

theorem step_done (env : Env) (id : Nat) (amount : JSValue) (date : DateArg) (s : Store)
    (reply : Reply) :
    DonationRun.step env id amount date (.done reply) s = (.done reply, s) := rfl

theorem alone_eq_recordDonation (env : Env) (id : Nat) (amount : JSValue) (date : DateArg)
    (s : Store) :
    DonationRun.alone env id amount date s
      = (.done (recordDonation env s id amount date).1,
          (recordDonation env s id amount date).2) := by
  unfold DonationRun.alone
  by_cases hg : (!amount.truthy || amount.toNumber.le (.fin 0)) = true
  · have h1 : DonationRun.step env id amount date .start s
        = (.done (.message 400 "Amount is required and must be greater than 0"), s) := by
      rw [step_start, if_pos hg]
    have h0 : recordDonation env s id amount date
        = (.message 400 "Amount is required and must be greater than 0", s) := by
      simp only [recordDonation, hg, if_true]
    rw [h0]
    dsimp only
    rw [h1]
    rfl
  · have hg2 : (!amount.truthy || amount.toNumber.le (.fin 0)) = false := by
      simpa using hg
    cases hd : findDonor s.donors id with
    | none =>
      have h1 : DonationRun.step env id amount date .start s
          = (.done (.message 404 "Donor not found"), s) := by
        rw [step_start, hg2]
        simp only [hd, Bool.false_eq_true, if_false]
      have h0 : recordDonation env s id amount date = (.message 404 "Donor not found", s) := by
        simp only [recordDonation, hg2, hd, Bool.false_eq_true, if_false]
      rw [h0]
      dsimp only
      rw [h1]
      rfl
    | some donor =>
      have h1 : DonationRun.step env id amount date .start s = (.loaded donor, s) := by
        rw [step_start, hg2]
        simp only [hd, Bool.false_eq_true, if_false]
      dsimp only
      rw [h1]
      dsimp only
      cases ht : donationDate env date with
      | none =>
        have h2 : DonationRun.step env id amount date (.loaded donor) s
            = (.done (.message 500 "Failed to record donation"), s) := by
          rw [step_loaded, ht]
        have h0 : recordDonation env s id amount date
            = (.message 500 "Failed to record donation", s) := by
          simp only [recordDonation, hg2, hd, ht, Bool.false_eq_true, if_false]
        rw [h0, h2]
        rfl
      | some d =>
        by_cases hn : amount.toNumber = .nan ∨ textTruthy donor.name = false
        · have h2 : DonationRun.step env id amount date (.loaded donor) s
              = (.done (.message 500 "Failed to record donation"), s) := by
            rw [step_loaded, ht]
            simp only
            rw [if_pos hn]
          have h0 : recordDonation env s id amount date
              = (.message 500 "Failed to record donation", s) := by
            simp only [recordDonation, hg2, hd, ht, Bool.false_eq_true, if_false]
            rw [if_pos hn]
          rw [h0, h2]
          rfl
        · have h2 : DonationRun.step env id amount date (.loaded donor) s
              = (.saved donor d (newDonation env s donor amount d),
                { s with
                  donations := s.donations ++ [newDonation env s donor amount d]
                  nextId := s.nextId + 1 }) := by
            rw [step_loaded, ht]
            simp only
            rw [if_neg hn]
          rw [h2]
          simp only [recordDonation, hg2, hd, ht, Bool.false_eq_true, if_false]
          rw [if_neg hn]
          cases hc : timeClip (sixMonthsAfter env.tza d) with
          | none =>
            rw [step_saved, hc]
          | some next =>
            by_cases hv : donor.valid = true
            · rw [step_saved, hc]
              simp only [hv, if_true]
            · rw [step_saved, hc]
              simp only [hv, if_false, Bool.false_eq_true]

theorem recordDonationFaulty_first (env : Env) (s : Store) (id : Nat) (amount : JSValue)
    (date : DateArg) :
    (recordDonationFaulty .first env s id amount date).2 = s := by
  unfold recordDonationFaulty
  split
  · rfl
  · split
    · rfl
    · split
      · rfl
      · split
        · rfl
        · rfl

theorem updateRequestFaulty_first (env : Env) (s : Store) (id : Nat) (status : String) :
    (updateRequestFaulty .first env s id status).2 = s := by
  unfold updateRequestFaulty
  split
  · rfl
  · split
    · split
      · rfl
      · split
        · rfl
        · rfl
    · split
      · rfl
      · rfl

/-- C22 (counterexample): a failing second write leaves the first one in place.
The donor that a profile update with a name only creates on the empty store
lacks required fields, so when a donation is recorded for it `donor.save()`
fails after `donation.save()`: the answer is 500 and the donor is as before,
but the Donation store, empty before the call, holds the new Donation.  And
when `request.save()` is rejected while the example request is approved
against 4 units, the answer is 500 and the request is still Pending, but the
stock stays debited to 2. -/
theorem second_write_failure_keeps_first_write :
    (updateProfile emptyStore 42 namePatch).2 = partialStore ∧
    (recordDonation env0 partialStore 0 (.num 1) (.at 1704844800000)).1
      = .message 500 "Failed to record donation" ∧
    (recordDonation env0 partialStore 0 (.num 1) (.at 1704844800000)).2.donors
      = partialStore.donors ∧
    partialStore.donations = [] ∧
    (recordDonation env0 partialStore 0 (.num 1) (.at 1704844800000)).2.donations
      = [{ id := 1, donor := 0, donorName := some "Ravi", amount := .fin 1,
           date := 1704844800000, createdAt := 0 }] ∧
    (updateRequestFaulty .second env0 (exampleStore 4 "Pending") 1 "Approved").1
      = .message 500 "Error updating request status." ∧
    (updateRequestFaulty .second env0 (exampleStore 4 "Pending") 1 "Approved").2.requests
      = (exampleStore 4 "Pending").requests ∧
    unitsOf (exampleStore 4 "Pending").inventory "AB-" = 4 ∧
    unitsOf (updateRequestFaulty .second env0 (exampleStore 4 "Pending") 1
      "Approved").2.inventory "AB-" = 2 := by
  have hr : findRequest (exampleStore 4 "Pending").requests 1 = some exampleRequest := by
    decide
  have hs : findStock (exampleStore 4 "Pending").inventory exampleRequest.bloodType
      = some (exampleStock 4) := by decide
  have hlt : ¬ (exampleStock 4).units < exampleRequest.units := by
    norm_num [exampleStock, exampleRequest]
  have hst : exampleRequest.status ≠ "Approved" := by decide
  have hd : toDouble ((exampleStock 4).units - exampleRequest.units) = 2 := by
    rw [toDouble_of_wholeSafe ⟨2, by norm_num [exampleStock, exampleRequest], by norm_num⟩]
    norm_num [exampleStock, exampleRequest]
  have h2 : updateRequestFaulty .second env0 (exampleStore 4 "Pending") 1 "Approved"
      = (.message 500 "Error updating request status.",
          { exampleStore 4 "Pending" with
            inventory := saveStock (exampleStore 4 "Pending").inventory
              { exampleStock 4 with
                units := toDouble ((exampleStock 4).units - exampleRequest.units),
                lastUpdated := env0.now } }) := by
    simp only [updateRequestFaulty, hr, hs, hlt, hst, ne_eq, not_false_eq_true, and_self,
      if_true, if_false, reduceCtorEq]
  refine ⟨by decide, by decide, by decide, rfl, by decide, ?_, ?_, ?_, ?_⟩
  · rw [h2]
  · rw [h2]
  · norm_num [unitsOf, findStock, exampleStore, exampleStock]
  · rw [h2, hd]
    norm_num [unitsOf, findStock, saveStock, exampleStore, exampleStock]

/-- C22 (amended): when the first store write of recording a donation or of a
request status update is rejected, the store is left at its pre-call value.
When the second write is rejected, the answer is 500 and the first write
stays: for an existing donor with a name, a positive amount and a valid date,
a rejected `donor.save()` leaves the store as before except that the Donation
is stored; and for a stored request that is not Approved, asking `u` units of
a blood type whose entry holds `s ≥ u`, with `s - u` a whole number of
magnitude at most 2^53, a rejected `request.save()` leaves the store, the
request included, as before except that the entry holds `s - u`. -/
theorem write_failure_outcome (env : Env) (s : Store) (id : Nat) (donor : Donor)
    (amount : JSValue) (q : ℚ) (date : DateArg) (d : ℤ) (rid : Nat) (r : Request)
    (e : InventoryEntry)
    (hd : findDonor s.donors id = some donor) (hname : textTruthy donor.name = true)
    (ha : amount.toNumber = .fin q) (hq : 0 < q) (ht : donationDate env date = some d)
    (hr : findRequest s.requests rid = some r) (hst : r.status ≠ "Approved")
    (he : findStock s.inventory r.bloodType = some e) (hu : r.units ≤ e.units)
    (hw : wholeSafe (e.units - r.units)) :
    (recordDonationFaulty .first env s id amount date).2 = s ∧
    recordDonationFaulty .second env s id amount date
      = (.message 500 "Failed to record donation",
          { s with
            donations := s.donations ++ [newDonation env s donor amount d]
            nextId := s.nextId + 1 }) ∧
    (updateRequestFaulty .first env s rid "Approved").2 = s ∧
    updateRequestFaulty .second env s rid "Approved"
      = (.message 500 "Error updating request status.",
          { s with
            inventory := saveStock s.inventory
              { e with units := e.units - r.units, lastUpdated := env.now } }) := by
  have htr : amount.truthy = true := truthy_of_toNumber_pos ha hq
  have hle : JSNum.le (.fin q) (.fin 0) = false := by
    simp [JSNum.le, JSNum.lt, hq]
  have hlt : ¬ e.units < r.units := not_lt.mpr hu
  refine ⟨recordDonationFaulty_first env s id amount date, ?_,
    updateRequestFaulty_first env s rid "Approved", ?_⟩
  · simp only [recordDonationFaulty, htr, ha, hle, hd, ht, hname, Bool.not_true, Bool.or_self,
      Bool.false_eq_true, if_false, reduceCtorEq, or_self, ne_eq, not_true_eq_false,
      and_false]
    split <;> rfl
  · simp only [updateRequestFaulty, hr, he, hst, hlt, ne_eq, not_false_eq_true, and_self,
      if_true, if_false, reduceCtorEq, toDouble_of_wholeSafe hw]

/-- The example donor and the example request against 4 units: a rejected
`donor.save()` leaves one Donation stored and the donor as before; a rejected
`request.save()` leaves 4 - 2 units and the request Pending. -/
theorem write_failure_outcome_witness :
    findDonor (donorRequestStore).donors 7 = some exampleDonor ∧
    textTruthy exampleDonor.name = true ∧
    (JSValue.num 1).toNumber = .fin 1 ∧ (0 : ℚ) < 1 ∧
    donationDate env0 (.at 1704844800000) = some 1704844800000 ∧
    findRequest donorRequestStore.requests 1 = some exampleRequest ∧
    exampleRequest.status ≠ "Approved" ∧
    findStock donorRequestStore.inventory exampleRequest.bloodType = some (exampleStock 4) ∧
    exampleRequest.units ≤ (exampleStock 4).units ∧
    wholeSafe ((exampleStock 4).units - exampleRequest.units) ∧
    recordDonationFaulty .second env0 donorRequestStore 7 (.num 1) (.at 1704844800000)
      = (.message 500 "Failed to record donation",
          { donorRequestStore with
            donations := donorRequestStore.donations
              ++ [newDonation env0 donorRequestStore exampleDonor (.num 1) 1704844800000]
            nextId := donorRequestStore.nextId + 1 }) ∧
    updateRequestFaulty .second env0 donorRequestStore 1 "Approved"
      = (.message 500 "Error updating request status.",
          { donorRequestStore with
            inventory := saveStock donorRequestStore.inventory
              { exampleStock 4 with
                units := (exampleStock 4).units - exampleRequest.units,
                lastUpdated := env0.now } }) :=
  have hw : wholeSafe ((exampleStock 4).units - exampleRequest.units) :=
    ⟨2, by norm_num [exampleStock, exampleRequest], by norm_num⟩
  ⟨by decide, by decide, rfl, by decide, by decide, by decide, by decide, by decide,
    by decide, hw,
    (write_failure_outcome env0 donorRequestStore 7 exampleDonor (.num 1) 1
      (.at 1704844800000) 1704844800000 1 exampleRequest (exampleStock 4)
      (by decide) (by decide) rfl (by decide) (by decide) (by decide) (by decide) (by decide)
      (by decide) hw).2.1,
    (write_failure_outcome env0 donorRequestStore 7 exampleDonor (.num 1) 1
      (.at 1704844800000) 1704844800000 1 exampleRequest (exampleStock 4)
      (by decide) (by decide) rfl (by decide) (by decide) (by decide) (by decide) (by decide)
      (by decide) hw).2.2.2⟩

/-! ## Two executions for one donor -/

/-- C23 (counterexample): the example donor has no donation on record and two
executions of the donation handler run for it.  When the second execution
reads the donor before the first has saved it, the donor is left with
`totalDonations = 1` and `points = 100`, not 2 and 200, while two Donation
documents are stored. -/
theorem concurrent_donations_interleaved :
    [true, false, true, true, false, false] ∈ schedules ∧
    (raceDonor 0).totalDonations = 0 ∧
    raceOutcome 0 [true, false, true, true, false, false] = (some (1, 100), 2) ∧
    raceOutcome 0 [true, false, true, true, false, false] ≠ (some (0 + 2, (0 + 2) * 100), 2) := by
  have h : raceOutcome 0 [true, false, true, true, false, false] = (some (1, 100), 2) := by
    decide
  refine ⟨by decide, rfl, h, ?_⟩
  rw [h]
  decide

/-- C23 (amended): for the example donor with `n` donations on record, where
`0 ≤ n` and `(n + 2) * 100 ≤ 2^53`, and two executions of the donation handler:
of the 20 orders of their store accesses only the two in which one execution
ends before the other starts leave `totalDonations = n + 2` and
`points = (n + 2) * 100`; every other order leaves `n + 1` and `(n + 1) * 100`,
one update being lost, with two Donation documents stored all the same. -/
theorem concurrent_donations_lose_update (n : ℤ) (_h0 : 0 ≤ n)
    (_h1 : (n + 2) * 100 ≤ 9007199254740992) :
    schedules.length = 20 ∧
    raceOutcome n [true, true, true, false, false, false]
      = (some (n + 2, (n + 2) * 100), 2) ∧
    raceOutcome n [true, false, true, true, false, false]
      = (some (n + 1, (n + 1) * 100), 2) ∧
    schedules.map (raceOutcome n)
      = schedules.map (fun schedule =>
          if schedule = [true, true, true, false, false, false]
              ∨ schedule = [false, false, false, true, true, true] then
            (some (n + 2, (n + 2) * 100), 2)
          else (some (n + 1, (n + 1) * 100), 2)) := by
  have hg : (!(JSValue.num 1).truthy || (JSValue.num 1).toNumber.le (.fin 0)) = false := by
    decide
  have hn : ((JSValue.num 1).toNumber = JSNum.nan) = False := by
    simp [JSValue.toNumber]
  have hdate : donationDate env0 (.at 1704844800000) = some 1704844800000 := by decide
  have hclip : timeClip (sixMonthsAfter env0.tza 1704844800000) = some 1720569600000 := by
    decide
  have h12 : n + 1 + 1 = n + 2 := by ring
  have hs : schedules
      = [[true, true, true, false, false, false], [true, true, false, true, false, false],
         [true, true, false, false, true, false], [true, true, false, false, false, true],
         [true, false, true, true, false, false], [true, false, true, false, true, false],
         [true, false, true, false, false, true], [true, false, false, true, true, false],
         [true, false, false, true, false, true], [true, false, false, false, true, true],
         [false, true, true, true, false, false], [false, true, true, false, true, false],
         [false, true, true, false, false, true], [false, true, false, true, true, false],
         [false, true, false, true, false, true], [false, true, false, false, true, true],
         [false, false, true, true, true, false], [false, false, true, true, false, true],
         [false, false, true, false, true, true], [false, false, false, true, true, true]] := by
    decide
  refine ⟨by rw [hs]; rfl, ?_, ?_, ?_⟩
  · simp only [raceOutcome, runSchedule, step_start, step_loaded, step_saved, step_done, hg, hn,
      hdate, hclip, raceStore, raceDonor, afterDonation, Donor.valid, textTruthy,
      exampleDonor, defaultDonor, findDonor, saveDonor, List.find?_cons,
      List.map_cons, List.map_nil, decide_True, if_true, if_false, Bool.false_eq_true,
      Option.map_some', List.length_append, List.length_cons, List.length_nil,
      List.nil_append, List.cons_append, h12, Option.isSome_some, Bool.and_self, ne_eq,
      String.reduceEq, not_false_eq_true, or_self, true_or, or_false, false_or,
      Bool.true_eq_false, reduceCtorEq]
  · simp only [raceOutcome, runSchedule, step_start, step_loaded, step_saved, step_done, hg, hn,
      hdate, hclip, raceStore, raceDonor, afterDonation, Donor.valid, textTruthy,
      exampleDonor, defaultDonor, findDonor, saveDonor, List.find?_cons,
      List.map_cons, List.map_nil, decide_True, if_true, if_false, Bool.false_eq_true,
      Option.map_some', List.length_append, List.length_cons, List.length_nil,
      List.nil_append, List.cons_append, Option.isSome_some, Bool.and_self, ne_eq,
      String.reduceEq, not_false_eq_true, or_self, true_or, or_false, false_or,
      Bool.true_eq_false, reduceCtorEq]
  · rw [hs]
    simp only [raceOutcome, runSchedule, step_start, step_loaded, step_saved, step_done, hg, hn,
      hdate, hclip, raceStore, raceDonor, afterDonation, Donor.valid, textTruthy,
      exampleDonor, defaultDonor, findDonor, saveDonor, List.find?_cons,
      List.map_cons, List.map_nil, decide_True, if_true, if_false, Bool.false_eq_true,
      Option.map_some', List.length_append, List.length_cons, List.length_nil,
      List.nil_append, List.cons_append, h12, List.cons.injEq, Bool.true_eq_false,
      Bool.false_eq_true, and_true, and_false, false_and, true_and, or_false, or_true,
      false_or, and_self, reduceCtorEq, Option.isSome_some, Bool.and_self, ne_eq,
      String.reduceEq, not_false_eq_true, or_self, true_or]

/-- With no donation on record: the serial order leaves 2 donations and 200
points, the interleaved order 1 and 100. -/
theorem concurrent_donations_lose_update_witness :
    (0 : ℤ) ≤ 0 ∧ ((0 : ℤ) + 2) * 100 ≤ 9007199254740992 ∧
    raceOutcome 0 [true, true, true, false, false, false]
      = (some (0 + 2, (0 + 2) * 100), 2) ∧
    raceOutcome 0 [true, false, true, true, false, false]
      = (some (0 + 1, (0 + 1) * 100), 2) :=
  ⟨le_refl 0, by decide,
    (concurrent_donations_lose_update 0 (le_refl 0) (by decide)).2.1,
    (concurrent_donations_lose_update 0 (le_refl 0) (by decide)).2.2.1⟩

end BloodBank
